import Mathlib

/-! Open Enclave call substrate: arena allocator and virtual-enclave supervisor.

A shallow embedding of `enclave/core/arena.c`, of the supervisor in
`virtenc/host/main.c`, of the signal table of `enclave/core/posix/signal.c`
and of the name queries of `enclave/core/socket.c`, with the properties their
specification states.

Conventions of the embedding:

* `size_t` values are natural numbers below `SIZE_MOD = 2 ^ 64`; every
  arithmetic operation of the source that can wrap is written with an
  explicit `% SIZE_MOD`.
* Pointers are natural numbers, `0` is `NULL`.  Pointer arithmetic inside an
  object (`arena.buffer + arena.used`) is plain addition.
* External functions (`oe_allocate_arena`, `ve_send_msg`, ...) are oracles
  passed as arguments; the calls made to them are recorded in a log.
-/

namespace OpenEnclave

/-! ## Machine arithmetic -/

/-- The number of values of `size_t` on the 64-bit target. -/
def SIZE_MOD : Nat := 2 ^ 64

/-- Modelled from the spec: `oe_round_up_to_multiple` of
`openenclave/internal/utils.h` is not part of the sources at hand.  The arena
"rounds `size` up to the marshaling alignment" and must detect "integer
overflow while rounding", so the helper is the usual `(x + m - 1) / m * m`
computed in `size_t`, every step wrapping modulo `2 ^ 64`. -/
def oe_round_up_to_multiple (x m : Nat) : Nat :=
  ((((x + m) % SIZE_MOD + SIZE_MOD - 1) % SIZE_MOD) / m * m) % SIZE_MOD

/-- Modelled from the spec: `oe_safe_add_sizet` of
`openenclave/bits/safemath.h` is not part of the sources at hand.  It yields
the sum when it fits in `size_t` (`OE_OK`) and reports overflow otherwise
(`none`). -/
def oe_safe_add_sizet (a b : Nat) : Option Nat :=
  if a + b < SIZE_MOD then some (a + b) else none

/-- Modelled from the spec: `oe_safe_mul_sizet` of
`openenclave/bits/safemath.h` is not part of the sources at hand.  It yields
the product when it fits in `size_t` (`OE_OK`) and reports overflow otherwise
(`none`); `calloc` "fails on the multiplication overflowing". -/
def oe_safe_mul_sizet (a b : Nat) : Option Nat :=
  if a * b < SIZE_MOD then some (a * b) else none

/-- Rounding up in unbounded arithmetic: the least multiple of `m` that is at
least `x` (for `0 < m`).  This is the `round_up(size, alignment)` of the
specification, against which the wrapping helper is compared. -/
def round_up (x m : Nat) : Nat := (x + m - 1) / m * m

/-! ## Arena allocator (`enclave/core/arena.c`) -/

/-- The per-thread arena record `shared_memory_arena_t`. -/
structure shared_memory_arena_t where
  buffer : Nat
  capacity : Nat
  used : Nat
deriving DecidableEq, Repr

/-- Calls observed while the allocator runs: entries into `oe_arena_malloc`
and the calls to the external region provider. -/
inductive ArenaCall where
  | malloc_entry (size : Nat)
  | allocate_arena (cap : Nat) (ret : Nat)
  | deallocate_arena (buffer : Nat)
deriving DecidableEq, Repr

/-- The state the allocator works on: the calling thread's `arena`, the
process-wide `capacity`, the byte memory, and the log of calls. -/
structure ArenaState where
  arena : shared_memory_arena_t
  capacity : Nat
  mem : Nat → Nat
  log : List ArenaCall

/-- The constant `static const size_t max_capacity = 1 << 30`. -/
def max_capacity : Nat := 1 <<< 30

/-- The state at program start: `arena = {0}`, `capacity = 1024 * 1024`. -/
def arena_init (mem : Nat → Nat) : ArenaState :=
  { arena := { buffer := 0, capacity := 0, used := 0 }
    capacity := 1024 * 1024
    mem := mem
    log := [] }

/-- The function `oe_configure_arena_capacity`. -/
def oe_configure_arena_capacity (cap : Nat) (s : ArenaState) : Bool × ArenaState :=
  if cap > max_capacity then
    (false, s)
  else
    (true, { s with capacity := cap })

/-- Lines 50-70 of `oe_arena_malloc`: round, check for overflow, check for
capacity, bump. -/
def oe_arena_malloc_bump (align size : Nat) (s : ArenaState) : Nat × ArenaState :=
  let total_size := oe_round_up_to_multiple size align
  if total_size < size then
    (0, s)
  else
    match oe_safe_add_sizet s.arena.used total_size with
    | none => (0, s)
    | some used_after =>
      if used_after ≤ s.arena.capacity then
        let addr := s.arena.buffer + s.arena.used
        (addr, { s with arena := { s.arena with used := used_after } })
      else
        (0, s)

/-- The function `oe_arena_malloc`.  `align` is `OE_EDGER8R_BUFFER_ALIGNMENT`
and `oe_allocate_arena` the external region provider. -/
def oe_arena_malloc (align : Nat) (oe_allocate_arena : Nat → Nat) (size : Nat)
    (s : ArenaState) : Nat × ArenaState :=
  let s := { s with log := s.log ++ [ArenaCall.malloc_entry size] }
  if s.arena.buffer = 0 then
    let buffer := oe_allocate_arena s.capacity
    let s := { s with log := s.log ++ [ArenaCall.allocate_arena s.capacity buffer] }
    if buffer = 0 then
      (0, s)
    else
      oe_arena_malloc_bump align size
        { s with arena := { buffer := buffer, capacity := s.capacity, used := 0 } }
  else
    oe_arena_malloc_bump align size s

/-- The library call `memset(ptr, 0, n)` on the byte memory. -/
def memset_zero (ptr n : Nat) (mem : Nat → Nat) : Nat → Nat :=
  fun a => if ptr ≤ a ∧ a < ptr + n then 0 else mem a

/-- The function `oe_arena_calloc`. -/
def oe_arena_calloc (align : Nat) (oe_allocate_arena : Nat → Nat) (num size : Nat)
    (s : ArenaState) : Nat × ArenaState :=
  match oe_safe_mul_sizet num size with
  | none => (0, s)
  | some total =>
    let r := oe_arena_malloc align oe_allocate_arena total s
    if r.1 ≠ 0 then
      (r.1, { r.2 with mem := memset_zero r.1 total r.2.mem })
    else
      (r.1, r.2)

/-- The function `oe_arena_free_all`. -/
def oe_arena_free_all (s : ArenaState) : ArenaState :=
  { s with arena := { s.arena with used := 0 } }

/-- The function `oe_teardown_arena`. -/
def oe_teardown_arena (s : ArenaState) : ArenaState :=
  let s :=
    if s.arena.buffer ≠ 0 then
      { s with log := s.log ++ [ArenaCall.deallocate_arena s.arena.buffer] }
    else
      s
  { s with arena := { buffer := 0, capacity := 0, used := 0 } }

/-- One call of the arena interface made by a thread.  The allocation calls
carry the behaviour of the region provider at that moment. -/
inductive ArenaOp where
  | configure (cap : Nat)
  | malloc (oe_allocate_arena : Nat → Nat) (size : Nat)
  | calloc (oe_allocate_arena : Nat → Nat) (num size : Nat)
  | free_all
  | teardown

/-- The state after one call. -/
def ArenaOp.exec (align : Nat) (op : ArenaOp) (s : ArenaState) : ArenaState :=
  match op with
  | .configure cap => (oe_configure_arena_capacity cap s).2
  | .malloc alloc size => (oe_arena_malloc align alloc size s).2
  | .calloc alloc num size => (oe_arena_calloc align alloc num size s).2
  | .free_all => oe_arena_free_all s
  | .teardown => oe_teardown_arena s

/-- The state after a sequence of calls, first call first. -/
def arena_run (align : Nat) (ops : List ArenaOp) (s : ArenaState) : ArenaState :=
  ops.foldl (fun st op => op.exec align st) s

/-- The states a thread can be in: those reached from program start by some
sequence of calls. -/
def ArenaReachable (align : Nat) (s : ArenaState) : Prop :=
  ∃ (mem : Nat → Nat) (ops : List ArenaOp), s = arena_run align ops (arena_init mem)

/-- The bookkeeping invariant of the allocator state. -/
def ArenaInv (align : Nat) (s : ArenaState) : Prop :=
  s.arena.used ≤ s.arena.capacity ∧ align ∣ s.arena.used ∧
  (s.arena.buffer = 0 → s.arena.used = 0 ∧ s.arena.capacity = 0) ∧
  s.capacity ≤ max_capacity ∧ s.arena.capacity ≤ max_capacity

/-- A request of the allocation interface: `oe_arena_malloc(size)` or
`oe_arena_calloc(num, size)`, with the behaviour of the region provider at
that moment. -/
inductive AllocReq where
  | malloc (oe_allocate_arena : Nat → Nat) (size : Nat)
  | calloc (oe_allocate_arena : Nat → Nat) (num size : Nat)

/-- The returned pointer and the state after one allocation request. -/
def AllocReq.exec (align : Nat) (q : AllocReq) (s : ArenaState) : Nat × ArenaState :=
  match q with
  | .malloc alloc size => oe_arena_malloc align alloc size s
  | .calloc alloc num size => oe_arena_calloc align alloc num size s

/-- The number of bytes a request asks for. -/
def AllocReq.bytes (q : AllocReq) : Nat :=
  match q with
  | .malloc _ size => size
  | .calloc _ num size => num * size

/-- A region handed out by the arena: the returned pointer, the bytes asked
for, and the size the allocator rounded them to. -/
structure Region where
  ptr : Nat
  bytes : Nat
  rounded : Nat
deriving DecidableEq, Repr

/-- Two regions `[ptr, ptr + rounded)` have no byte in common. -/
def Region.disjoint (a b : Region) : Prop :=
  a.ptr + a.rounded ≤ b.ptr ∨ b.ptr + b.rounded ≤ a.ptr

/-- Runs a sequence of allocation requests; returns the regions of the
successful ones, in order, and the final state. -/
def arena_allocs (align : Nat) : List AllocReq → ArenaState → List Region × ArenaState
  | [], s => ([], s)
  | q :: qs, s =>
    let r := q.exec align s
    let rest := arena_allocs align qs r.2
    if r.1 ≠ 0 then
      ({ ptr := r.1, bytes := q.bytes,
         rounded := oe_round_up_to_multiple q.bytes align } :: rest.1, rest.2)
    else
      (rest.1, rest.2)

/-- Runs a sequence of allocation requests; returns what every call returned
(NULL included), in order. -/
def arena_returns (align : Nat) : List AllocReq → ArenaState → List Nat
  | [], _ => []
  | q :: qs, s => (q.exec align s).1 :: arena_returns align qs (q.exec align s).2

/-- Whether a call is `oe_configure_arena_capacity`. -/
def ArenaOp.isConfigure (op : ArenaOp) : Bool :=
  match op with
  | .configure _ => true
  | _ => false

/-! ## Virtual-enclave supervisor (`virtenc/host/main.c`) -/

/-- The message types of the control protocol used by the supervisor. -/
inductive ve_msg_type_t where
  | VE_MSG_INIT
  | VE_MSG_ADD_THREAD
  | VE_MSG_PING_THREAD
  | VE_MSG_TERMINATE
deriving DecidableEq, Repr

/-- One entry of the thread table `globals.threads`. -/
structure thread_entry_t where
  sock : Int
  child_sock : Int
  tcs : Int
deriving DecidableEq, Repr

/-- The supervisor's `globals`. -/
structure globals_t where
  shmid : Int
  shmaddr : Nat
  shmsize : Nat
  sock : Int
  child_sock : Int
  threads : Nat → thread_entry_t
  num_threads : Nat

/-- What the supervisor does, in order: the calls it makes to the operating
system and to the message layer, the lock operations, the writes to the thread
table and the diagnostics it prints.  A sent message is recorded with the
fields of its payload. -/
inductive HostEvent where
  | send_msg (fd : Int) (type : ve_msg_type_t) (payload : List Int)
  | recv_msg (fd : Int) (type : ve_msg_type_t)
  | close (fd : Int)
  | puterr (msg : String)
  | lock
  | unlock
  | table_write (index : Nat) (entry : thread_entry_t)
  | socketpair (result : Option (Nat × Nat))
  | pipe (result : Option (Nat × Nat))
  | fork (ret : Int)
  | send_fd (sock fd : Int)
  | host_malloc (size : Nat) (ret : Nat)
  | host_free (ptr : Nat)
  | err (msg : String)
  | usage
  | shmget (size : Nat) (ret : Int)
  | shmat (shmid : Int) (ret : Option Nat)
  | shmdt
  | shmctl_rmid (shmid : Int)
  | waitpid (pid : Int)
  | print_exit_status (status : Int)
deriving DecidableEq, Repr

/-- The supervisor's state: `globals`, the 64-bit word at the base of the
shared heap (`*(uint64_t*)globals.shmaddr`), and the events so far. -/
structure HostState where
  globals : globals_t
  shm_word : Nat
  log : List HostEvent

/-- How one channel behaves during one request/response exchange: the return
value of `ve_send_msg`, the return value of `ve_recv_msg_by_type`, and the
`ret` field of the response it delivers. -/
structure Exchange where
  send_ret : Int
  recv_ret : Int
  out_ret : Int
deriving DecidableEq, Repr

/-- The sentinel the supervisor stores at the base of the shared heap. -/
def SHM_SENTINEL : Nat := 0xffffffffffffffff

/-- The function `_init_child`.  `magic` is `VE_SHMADDR_MAGIC`; `ex` is the
behaviour of the channel; `child` is what the child process does to the word
at the base of the shared heap while it handles the request. -/
def _init_child (magic : Nat) (ex : Exchange) (child : Nat → Nat)
    (child_fd child_sock : Int) (s : HostState) : Int × HostState :=
  let type := ve_msg_type_t.VE_MSG_INIT
  let s := { s with shm_word := SHM_SENTINEL }
  let in_ : List Int := [child_sock, s.globals.shmid, s.globals.shmaddr]
  let s := { s with log := s.log ++ [HostEvent.send_msg child_fd type in_] }
  if ex.send_ret ≠ 0 then
    (-1, s)
  else
    let s := { s with shm_word := child s.shm_word }
    let s := { s with log := s.log ++ [HostEvent.recv_msg s.globals.sock type] }
    if ex.recv_ret ≠ 0 then
      (-1, s)
    else if ex.out_ret ≠ 0 then
      (-1, s)
    else if s.shm_word ≠ magic then
      (-1, { s with log := s.log ++ [HostEvent.puterr "shared memory crosscheck failed"] })
    else
      (0, s)

/-- The loop of `_terminate_child` over the thread table, entered at index `i`
with `n = num_threads - i` iterations left.  `reply i` is the behaviour of the
channel of entry `i`.  The result is `false` when the loop left through
`goto done`. -/
def _terminate_child_threads (reply : Nat → Exchange) (g : globals_t) :
    Nat → Nat → List HostEvent → Bool × List HostEvent
  | 0, _, log => (true, log)
  | n + 1, i, log =>
    let type := ve_msg_type_t.VE_MSG_TERMINATE
    let sock := (g.threads i).sock
    let child_sock := (g.threads i).child_sock
    let log := log ++ [HostEvent.send_msg sock type []]
    if (reply i).send_ret ≠ 0 then
      (false, log)
    else
      let log := log ++ [HostEvent.recv_msg sock type]
      if (reply i).recv_ret ≠ 0 then
        (false, log)
      else if (reply i).out_ret ≠ 0 then
        (false, log)
      else
        let log := log ++ [HostEvent.close sock] ++ [HostEvent.close child_sock]
        _terminate_child_threads reply g n (i + 1) log

/-- The function `_terminate_child`.  `main_reply` is the behaviour of the
main control channel. -/
def _terminate_child (reply : Nat → Exchange) (main_reply : Exchange) (s : HostState) :
    Int × HostState :=
  let type := ve_msg_type_t.VE_MSG_TERMINATE
  let r := _terminate_child_threads reply s.globals s.globals.num_threads 0 s.log
  if r.1 = false then
    (-1, { s with log := r.2 })
  else
    let sock := s.globals.sock
    let child_sock := s.globals.child_sock
    let log := r.2 ++ [HostEvent.send_msg sock type []]
    if main_reply.send_ret ≠ 0 then
      (-1, { s with log := log })
    else
      let log := log ++ [HostEvent.recv_msg sock type]
      if main_reply.recv_ret ≠ 0 then
        (-1, { s with log := log })
      else if main_reply.out_ret ≠ 0 then
        (-1, { s with log := log })
      else
        let log := log ++ [HostEvent.close sock] ++ [HostEvent.close child_sock]
        (0, { s with log := log })

/-- A channel answered success: the request was sent, a response was received
and its status is `0`. -/
def Exchange.ok (e : Exchange) : Prop :=
  e.send_ret = 0 ∧ e.recv_ret = 0 ∧ e.out_ret = 0

instance (e : Exchange) : Decidable e.ok := by
  unfold Exchange.ok; infer_instance

/-- The events of a channel that is sent TERMINATE, answers success and has
both its sockets closed. -/
def terminate_ok_events (sock child_sock : Int) : List HostEvent :=
  [HostEvent.send_msg sock ve_msg_type_t.VE_MSG_TERMINATE [],
   HostEvent.recv_msg sock ve_msg_type_t.VE_MSG_TERMINATE,
   HostEvent.close sock, HostEvent.close child_sock]

/-- The events of a channel whose TERMINATE exchange fails: the send, and the
receive when the send went through; no close. -/
def terminate_failed_events (sock : Int) (e : Exchange) : List HostEvent :=
  if e.send_ret ≠ 0 then
    [HostEvent.send_msg sock ve_msg_type_t.VE_MSG_TERMINATE []]
  else
    [HostEvent.send_msg sock ve_msg_type_t.VE_MSG_TERMINATE [],
     HostEvent.recv_msg sock ve_msg_type_t.VE_MSG_TERMINATE]

/-- The events of terminating the table entries `i, i+1, ..., i+n-1` cleanly,
in table order. -/
def terminate_prefix_events (g : globals_t) : Nat → Nat → List HostEvent
  | _, 0 => []
  | i, n + 1 =>
    terminate_ok_events (g.threads i).sock (g.threads i).child_sock ++
      terminate_prefix_events g (i + 1) n

/-- How a call of the supervisor ends: it returns a value to its caller, or
the process exits (through `err` or `exit`), or the process is the forked
child, which replaces itself by the enclave image. -/
inductive Outcome where
  | returned (ret : Int) (s : HostState)
  | exited (code : Int) (s : HostState)
  | child (s : HostState)

/-- The state in which a call ended. -/
def Outcome.state : Outcome → HostState
  | .returned _ s => s
  | .exited _ s => s
  | .child s => s

/-- What `_ping_thread` meets: the value `rand()` yields after
`srand((unsigned int)sock)`, the pointer `ve_host_malloc` returns, the
behaviour of the thread's channel and the `value` field of the response. -/
structure PingEnv where
  rand : Int → Int
  malloc_ret : Nat
  ex : Exchange
  out_value : Int

/-- The selection loop of `_ping_thread`, entered at index `i` with
`n = num_threads - i` iterations left: the `sock` of the first entry whose
`tcs` matches, or `-1`. -/
def _ping_thread_select (g : globals_t) (tcs : Int) : Nat → Nat → Int
  | 0, _ => -1
  | n + 1, i =>
    if (g.threads i).tcs = tcs then (g.threads i).sock
    else _ping_thread_select g tcs n (i + 1)

/-- The function `_ping_thread`. -/
def _ping_thread (env : PingEnv) (tcs : Int) (s : HostState) : Int × HostState :=
  let type := ve_msg_type_t.VE_MSG_PING_THREAD
  let s := { s with log := s.log ++ [HostEvent.lock] }
  let sock := _ping_thread_select s.globals tcs s.globals.num_threads 0
  let s := { s with log := s.log ++ [HostEvent.unlock] }
  if sock = -1 then
    (-1, s)
  else
    let value := env.rand sock
    let str := env.malloc_ret
    let s := { s with log := s.log ++ [HostEvent.host_malloc 5 str] }
    if str = 0 then
      (-1, s)
    else
      let s := { s with log := s.log ++ [HostEvent.send_msg sock type [value, str]] }
      if env.ex.send_ret ≠ 0 then
        (-1, { s with log := s.log ++ [HostEvent.host_free str] })
      else
        let s := { s with log := s.log ++ [HostEvent.recv_msg sock type] }
        if env.ex.recv_ret ≠ 0 then
          (-1, { s with log := s.log ++ [HostEvent.host_free str] })
        else if env.ex.out_ret ≠ 0 then
          (-1, { s with log := s.log ++ [HostEvent.host_free str] })
        else if env.out_value ≠ value then
          (-1, { s with log := s.log ++ [HostEvent.host_free str] })
        else
          (0, { s with log := s.log ++ [HostEvent.host_free str] })

/-- What `_add_child_thread` meets: the behaviour of the main channel, the
result of `socketpair` (the two new descriptors, or `none` when it fails), and
the return value of `send_fd`. -/
structure AddThreadEnv where
  ex : Exchange
  socketpair : Option (Nat × Nat)
  send_fd_ret : Int

/-- The `done:` block of `_add_child_thread`: closes the sockets that are not
`-1`. -/
def _add_child_thread_done (socks0 socks1 : Int) (log : List HostEvent) : List HostEvent :=
  let log := if socks0 ≠ -1 then log ++ [HostEvent.close socks0] else log
  if socks1 ≠ -1 then log ++ [HostEvent.close socks1] else log

/-- The function `_add_child_thread`.  `MAX_THREADS` is the constant of that
name. -/
def _add_child_thread (MAX_THREADS : Nat) (env : AddThreadEnv) (tcs : Int)
    (stack_size : Nat) (s : HostState) : Outcome :=
  let type := ve_msg_type_t.VE_MSG_ADD_THREAD
  if s.globals.num_threads = MAX_THREADS then
    .returned (-1) { s with log := _add_child_thread_done (-1) (-1) s.log }
  else
    let s := { s with log := s.log ++ [HostEvent.send_msg s.globals.sock type [tcs, stack_size]] }
    if env.ex.send_ret ≠ 0 then
      .returned (-1) { s with log := _add_child_thread_done (-1) (-1) s.log }
    else
      let s := { s with log := s.log ++ [HostEvent.socketpair env.socketpair] }
      match env.socketpair with
      | none => .returned (-1) { s with log := _add_child_thread_done (-1) (-1) s.log }
      | some (a, b) =>
        let socks0 : Int := a
        let socks1 : Int := b
        let s := { s with log := s.log ++ [HostEvent.send_fd s.globals.sock socks1] }
        if env.send_fd_ret ≠ 0 then
          .exited 1 { s with log := s.log ++ [HostEvent.err "send_fd() failed"] }
        else
          let s := { s with log := s.log ++ [HostEvent.recv_msg s.globals.sock type] }
          if env.ex.recv_ret ≠ 0 then
            .returned (-1) { s with log := _add_child_thread_done socks0 socks1 s.log }
          else if env.ex.out_ret ≠ 0 then
            .returned (-1) { s with log := _add_child_thread_done socks0 socks1 s.log }
          else
            let s := { s with log := s.log ++ [HostEvent.lock] }
            let entry : thread_entry_t := { sock := socks0, child_sock := socks1, tcs := tcs }
            let index := s.globals.num_threads
            let s :=
              { s with
                globals :=
                  { s.globals with
                    threads := fun i => if i = index then entry else s.globals.threads i
                    num_threads := s.globals.num_threads + 1 }
                log := s.log ++ [HostEvent.table_write index entry] }
            let s := { s with log := s.log ++ [HostEvent.unlock] }
            .returned 0 { s with log := _add_child_thread_done (-1) (-1) s.log }

/-- What `_create_host_heap` meets: the return value of `shmget` and the
address `shmat` returns (`none` for `(void*)-1`). -/
structure HeapEnv where
  shmget_ret : Int
  shmat_ret : Option Nat

/-- The function `_create_host_heap`. -/
def _create_host_heap (env : HeapEnv) (heap_size : Nat) (s : HostState) : Int × HostState :=
  let shmid := env.shmget_ret
  let s := { s with log := s.log ++ [HostEvent.shmget heap_size shmid] }
  if shmid = -1 then
    (-1, s)
  else
    let s := { s with log := s.log ++ [HostEvent.shmat shmid env.shmat_ret] }
    match env.shmat_ret with
    | none =>
      (-1, { s with log := s.log ++ [HostEvent.shmdt] ++ [HostEvent.shmctl_rmid shmid] })
    | some shmaddr =>
      (0, { s with
            globals :=
              { s.globals with shmid := shmid, shmaddr := shmaddr, shmsize := heap_size } })

/-- What `_exec` meets: whether the path is non-null and executable, the
results of `socketpair`, `pipe` and `fork`, and the behaviour of the child
during the INIT handshake. -/
structure ExecEnv where
  path_ok : Bool
  socketpair : Option (Nat × Nat)
  pipe : Option (Nat × Nat)
  fork_ret : Int
  init_ex : Exchange
  child : Nat → Nat

/-- The `done:` block of `_exec`. -/
def _exec_done (ret fds0 fds1 socks0 socks1 : Int) (log : List HostEvent) : List HostEvent :=
  let log := if fds0 ≠ -1 then log ++ [HostEvent.close fds0] else log
  let log := if fds1 ≠ -1 then log ++ [HostEvent.close fds1] else log
  let log := if socks1 ≠ -1 then log ++ [HostEvent.close socks1] else log
  if ret = -1 ∧ socks0 ≠ -1 then log ++ [HostEvent.close socks0] else log

/-- The function `_exec`, as run by the process that calls it; the forked
child ends as `Outcome.child`.  `magic` is `VE_SHMADDR_MAGIC`. -/
def _exec (magic : Nat) (env : ExecEnv) (s : HostState) : Outcome :=
  if env.path_ok = false then
    .returned (-1) { s with log := _exec_done (-1) (-1) (-1) (-1) (-1) s.log }
  else
    let s := { s with log := s.log ++ [HostEvent.socketpair env.socketpair] }
    match env.socketpair with
    | none => .returned (-1) { s with log := _exec_done (-1) (-1) (-1) (-1) (-1) s.log }
    | some (a, b) =>
      let socks0 : Int := a
      let socks1 : Int := b
      let s := { s with log := s.log ++ [HostEvent.pipe env.pipe] }
      match env.pipe with
      | none => .returned (-1) { s with log := _exec_done (-1) (-1) (-1) socks0 socks1 s.log }
      | some (r, w) =>
        let fds0 : Int := r
        let fds1 : Int := w
        let pid := env.fork_ret
        let s := { s with log := s.log ++ [HostEvent.fork pid] }
        if pid < 0 then
          .returned (-1) { s with log := _exec_done (-1) fds0 fds1 socks0 socks1 s.log }
        else if pid = 0 then
          .child s
        else
          let s := { s with globals := { s.globals with sock := socks0, child_sock := socks1 } }
          let r := _init_child magic env.init_ex env.child fds1 socks1 s
          if r.1 ≠ 0 then
            .returned (-1) { r.2 with log := _exec_done (-1) fds0 fds1 socks0 socks1 r.2.log }
          else
            .returned pid { r.2 with log := _exec_done pid fds0 fds1 socks0 socks1 r.2.log }

/-- What `_get_child_exit_status` meets: how many `waitpid` calls are
interrupted (`-1` with `EINTR`) before the one that ends the loop, the return
value of that last call, and the status word it stores. -/
structure WaitEnv where
  eintr : Nat
  ret : Int
  status : Nat

/-- The exit status in a wait status word: `WEXITSTATUS` of the C library. -/
def WEXITSTATUS (status : Nat) : Int := ((status / 256) % 256 : Nat)

/-- The function `_get_child_exit_status`: the return value, `*status_out`,
and the state. -/
def _get_child_exit_status (env : WaitEnv) (pid : Int) (s : HostState) :
    Int × Int × HostState :=
  let s := { s with log := s.log ++ List.replicate (env.eintr + 1) (HostEvent.waitpid pid) }
  if env.ret ≠ pid then
    (-1, 0, s)
  else
    (0, WEXITSTATUS env.status, s)

/-- Everything `main` meets during one run. -/
structure MainEnv where
  argc : Int
  heap : HeapEnv
  exec : ExecEnv
  add : Nat → AddThreadEnv
  ping : Nat → PingEnv
  reply : Nat → Exchange
  main_reply : Exchange
  wait : WaitEnv

/-- The value of `STACK_SIZE` in `main`. -/
def STACK_SIZE : Nat := 4096 * 256

/-- The state of the supervisor at program start: `globals` is zeroed. -/
def host_init : HostState :=
  { globals :=
      { shmid := 0, shmaddr := 0, shmsize := 0, sock := 0, child_sock := 0,
        threads := fun _ => { sock := 0, child_sock := 0, tcs := 0 }, num_threads := 0 },
    shm_word := 0, log := [] }

/-- Lines 394-411 of `main`: the argument check, the creation of the shared
heap and of the child.  Returns the child's pid. -/
def main_setup (HOST_HEAP_SIZE magic : Nat) (env : MainEnv) (s : HostState) : Outcome :=
  if env.argc ≠ 2 then
    .exited 1 { s with log := s.log ++ [HostEvent.usage] }
  else
    let h := _create_host_heap env.heap HOST_HEAP_SIZE s
    if h.1 ≠ 0 then
      .exited 1 { h.2 with log := h.2.log ++ [HostEvent.err "failed to allocate shared memory"] }
    else
      match _exec magic env.exec h.2 with
      | .returned pid s =>
        if pid = -1 then
          .exited 1 { s with log := s.log ++ [HostEvent.err "failed to execute"] }
        else
          .returned pid s
      | .exited code s => .exited code s
      | .child s => .child s

/-- Lines 413-421 of `main`: three `_add_child_thread` calls and three
`_ping_thread` calls, their return values dropped. -/
def main_threads (MAX_THREADS : Nat) (env : MainEnv) (s : HostState) : Outcome :=
  match _add_child_thread MAX_THREADS (env.add 0) 0 STACK_SIZE s with
  | .returned _ s =>
    match _add_child_thread MAX_THREADS (env.add 1) 1 STACK_SIZE s with
    | .returned _ s =>
      match _add_child_thread MAX_THREADS (env.add 2) 2 STACK_SIZE s with
      | .returned _ s =>
        let s := (_ping_thread (env.ping 0) 0 s).2
        let s := (_ping_thread (env.ping 1) 1 s).2
        let s := (_ping_thread (env.ping 2) 2 s).2
        .returned 0 s
      | o => o
    | o => o
  | o => o

/-- Lines 426-438 of `main`: waiting for the child, printing its exit status,
closing the standard descriptors, `return 0`. -/
def main_finish (env : MainEnv) (pid : Int) (s : HostState) : Outcome :=
  let w := _get_child_exit_status env.wait pid s
  if w.1 ≠ 0 then
    .exited 1 { w.2.2 with
                log := w.2.2.log ++ [HostEvent.err "failed to get child exit status"] }
  else
    let s := w.2.2
    let s := { s with log := s.log ++ [HostEvent.print_exit_status w.2.1] }
    let s := { s with log := s.log ++ [HostEvent.close 0] ++ [HostEvent.close 1] ++
                [HostEvent.close 2] }
    .returned 0 s

/-- The function `main` from a state `s`.  The value `_terminate_child`
returns (line 424) is not used. -/
def main_from (HOST_HEAP_SIZE MAX_THREADS magic : Nat) (env : MainEnv) (s : HostState) :
    Outcome :=
  match main_setup HOST_HEAP_SIZE magic env s with
  | .returned pid s =>
    match main_threads MAX_THREADS env s with
    | .returned _ s =>
      let t := _terminate_child env.reply env.main_reply s
      main_finish env pid t.2
    | o => o
  | o => o

/-- The function `main`, run at program start. -/
def main (HOST_HEAP_SIZE MAX_THREADS magic : Nat) (env : MainEnv) : Outcome :=
  main_from HOST_HEAP_SIZE MAX_THREADS magic env host_init

/-- The state `main` is in when it reaches line 424, the call of
`_terminate_child`, if it gets there. -/
def main_before_terminate (HOST_HEAP_SIZE MAX_THREADS magic : Nat) (env : MainEnv) :
    Option (Int × HostState) :=
  match main_setup HOST_HEAP_SIZE magic env host_init with
  | .returned pid s =>
    match main_threads MAX_THREADS env s with
    | .returned _ s => some (pid, s)
    | _ => none
  | _ => none

/-- A message of the thread protocol: ADD_THREAD, PING_THREAD or TERMINATE. -/
def HostEvent.isThreadMessage : HostEvent → Bool
  | .send_msg _ ve_msg_type_t.VE_MSG_ADD_THREAD _ => true
  | .send_msg _ ve_msg_type_t.VE_MSG_PING_THREAD _ => true
  | .send_msg _ ve_msg_type_t.VE_MSG_TERMINATE _ => true
  | _ => false

/-- A diagnostic printed by `err` or the usage message. -/
def HostEvent.isDiagnostic : HostEvent → Bool
  | .err _ => true
  | .usage => true
  | _ => false

/-- The value a call returned to its caller, if it returned. -/
def Outcome.returnedValue : Outcome → Option Int
  | .returned ret _ => some ret
  | _ => none

/-- The code with which the process exited during a call, if it did. -/
def Outcome.exitCode : Outcome → Option Int
  | .exited code _ => some code
  | _ => none

/-- A call of `waitpid`. -/
def HostEvent.isWaitpid : HostEvent → Bool
  | .waitpid _ => true
  | _ => false

/-- One call `_add_child_thread(tcs, stack_size)` together with what it meets. -/
structure AddThreadCall where
  env : AddThreadEnv
  tcs : Int
  stack_size : Nat

/-- The state after a sequence of `_add_child_thread` calls, first call first;
the sequence ends early when the process exits. -/
def add_child_thread_run (MAX_THREADS : Nat) : List AddThreadCall → HostState → HostState
  | [], s => s
  | c :: cs, s =>
    match _add_child_thread MAX_THREADS c.env c.tcs c.stack_size s with
    | .returned _ s1 => add_child_thread_run MAX_THREADS cs s1
    | .exited _ s1 => s1
    | .child s1 => s1

/-- A thread whose ping is answered: `rand()` yields 42, the shared-heap
buffer is at 8192, the channel works and the response echoes `echo`. -/
def demo_ping (echo : Int) : PingEnv :=
  { rand := fun _ => 42, malloc_ret := 8192,
    ex := { send_ret := 0, recv_ret := 0, out_ret := 0 }, out_value := echo }

/-- The bound on the thread table: `num_threads` does not exceed
`MAX_THREADS`, and every write to the table so far went to an index below
`MAX_THREADS`. -/
def TableInv (MAX_THREADS : Nat) (s : HostState) : Prop :=
  s.globals.num_threads ≤ MAX_THREADS ∧
  ∀ i e, HostEvent.table_write i e ∈ s.log → i < MAX_THREADS

/-- An `_add_child_thread` call that meets a working channel, the new socket
pair `(20, 21)`, and a `send_fd` returning `send_fd_ret`. -/
def demo_add (ex : Exchange) (send_fd_ret : Int) : AddThreadEnv :=
  { ex := ex, socketpair := some (20, 21), send_fd_ret := send_fd_ret }

/-- The child is created and initialized: the path is executable, the socket
pair and the pipe are created, `fork` returns a child pid, and the INIT
handshake succeeds (request sent, response received with status 0, magic
value found at the base of the shared heap). -/
def ExecOk (magic : Nat) (env : ExecEnv) : Prop :=
  env.path_ok = true ∧ env.socketpair.isSome = true ∧ env.pipe.isSome = true ∧
  0 < env.fork_ret ∧ env.init_ex.ok ∧ env.child SHM_SENTINEL = magic

/-- The process is the child that `fork` created. -/
def ExecInChild (env : ExecEnv) : Prop :=
  env.path_ok = true ∧ env.socketpair.isSome = true ∧ env.pipe.isSome = true ∧
  env.fork_ret = 0

/-- The shared heap is created and attached. -/
def HeapOk (env : HeapEnv) : Prop :=
  env.shmget_ret ≠ -1 ∧ env.shmat_ret.isSome = true

/-- The setup of `main` succeeds: two arguments, heap creation, fork/exec and
INIT. -/
def SetupOk (magic : Nat) (env : MainEnv) : Prop :=
  env.argc = 2 ∧ HeapOk env.heap ∧ ExecOk magic env.exec

/-- The setup of `main` ends in the forked child. -/
def SetupInChild (env : MainEnv) : Prop :=
  env.argc = 2 ∧ HeapOk env.heap ∧ ExecInChild env.exec

/-- An event the setup of `main` never produces: a message of the thread
protocol or a `waitpid` call. -/
def HostEvent.isAfterSetup (e : HostEvent) : Bool :=
  e.isThreadMessage || e.isWaitpid

/-- A channel that answers success. -/
def channel_ok : Exchange := { send_ret := 0, recv_ret := 0, out_ret := 0 }

/-- A channel on which sending fails. -/
def channel_down : Exchange := { send_ret := -1, recv_ret := 0, out_ret := 0 }

/-- A run in which everything before the terminate step works: the heap is
attached at 4096, the child has pid 100 and writes the magic value `0x1234`,
three threads are added on the socket pairs `(10, 11)`, `(12, 13)`, `(14, 15)`
and echo their pings, and `waitpid` returns the pid with status word 0.  The
behaviour of the thread channels and of the main channel during the terminate
step is left open. -/
def demo_env (reply : Nat → Exchange) (main_reply : Exchange) : MainEnv :=
  { argc := 2
    heap := { shmget_ret := 7, shmat_ret := some 4096 }
    exec :=
      { path_ok := true, socketpair := some (3, 4), pipe := some (5, 6), fork_ret := 100,
        init_ex := { send_ret := 0, recv_ret := 0, out_ret := 0 }, child := fun _ => 0x1234 }
    add := fun i =>
      { ex := { send_ret := 0, recv_ret := 0, out_ret := 0 },
        socketpair := some (10 + 2 * i, 11 + 2 * i), send_fd_ret := 0 }
    ping := fun _ =>
      { rand := fun _ => 42, malloc_ret := 8192,
        ex := { send_ret := 0, recv_ret := 0, out_ret := 0 }, out_value := 42 }
    reply := reply
    main_reply := main_reply
    wait := { eintr := 0, ret := 100, status := 0 } }

/-- The run `demo_env` started with one argument instead of two. -/
def demo_env_no_args : MainEnv :=
  { demo_env (fun _ => channel_ok) channel_ok with argc := 1 }

/-- A supervisor state with three provisioned threads: entry `i` has sockets
`10 + 2 i` and `11 + 2 i`; the main channel has sockets 3 and 4. -/
def three_thread_state : HostState :=
  { globals :=
      { shmid := 1, shmaddr := 4096, shmsize := 65536, sock := 3, child_sock := 4,
        threads := fun i => { sock := 10 + 2 * i, child_sock := 11 + 2 * i, tcs := i },
        num_threads := 3 },
    shm_word := 0, log := [] }

/-- Channels that all answer success, except the one at table index 1, whose
response carries status 1. -/
def second_thread_fails (i : Nat) : Exchange :=
  if i = 1 then { send_ret := 0, recv_ret := 0, out_ret := 1 }
  else { send_ret := 0, recv_ret := 0, out_ret := 0 }

/-- A table that is full for `MAX_THREADS = 3`: the three provisioned
threads, with the three table writes that recorded them in the log. -/
def full_table_state : HostState :=
  { three_thread_state with
    log := [HostEvent.table_write 0 { sock := 10, child_sock := 11, tcs := 0 },
            HostEvent.table_write 1 { sock := 12, child_sock := 13, tcs := 1 },
            HostEvent.table_write 2 { sock := 14, child_sock := 15, tcs := 2 }] }

/-- The descriptors of a log that are passed to `close` while not open, in
order.  `open_fds` are the descriptors open so far; `socketpair` and `pipe`
open the two descriptors they deliver, `close` of an open descriptor closes
it, and `close` of a descriptor that is not open is recorded. -/
def stale_closes (open_fds : List Int) : List HostEvent → List Int
  | [] => []
  | HostEvent.socketpair (some (a, b)) :: rest =>
    stale_closes ((a : Int) :: (b : Int) :: open_fds) rest
  | HostEvent.pipe (some (a, b)) :: rest =>
    stale_closes ((a : Int) :: (b : Int) :: open_fds) rest
  | HostEvent.close fd :: rest =>
    if fd ∈ open_fds then stale_closes (open_fds.erase fd) rest
    else fd :: stale_closes open_fds rest
  | _ :: rest => stale_closes open_fds rest

/-- A run of `main` in which everything works and every new descriptor is the
lowest free one, as the operating system hands them out: the main socket pair
is `(3, 4)`, the pipe `(5, 6)`; `_exec` closes 5, 6 and 4, so the three thread
pairs are `(4, 5)`, `(6, 7)` and `(8, 9)`. -/
def lowest_fd_env : MainEnv :=
  { demo_env (fun _ => channel_ok) channel_ok with
    add := fun i =>
      { ex := channel_ok, socketpair := some (4 + 2 * i, 5 + 2 * i), send_fd_ret := 0 } }

/-! ## Signal emulation (`enclave/core/posix/signal.c`) -/

/-- The constants of the headers that `signal.c` uses: `__OE_NSIG`, `EINVAL`,
the special handler values and the flag `SA_SIGINFO`. -/
structure SignalConsts where
  NSIG : Nat
  EINVAL : Int
  OE_SIG_DFL : Nat
  OE_SIG_ERR : Nat
  OE_SIG_IGN : Nat
  SA_SIGINFO : Nat

/-- The record `struct oe_sigaction`, reduced to the fields the code reads and
writes: the handler (the union `__sigaction_handler` of `sa_handler` and
`sa_sigaction`, one pointer) and `sa_flags`. -/
structure struct_oe_sigaction where
  handler : Nat
  sa_flags : Nat
deriving DecidableEq, Repr

/-- What the signal functions do to the tables and which handlers they call.
Table accesses carry the index used. -/
inductive SignalEvent where
  | read_actions (index : Int)
  | write_actions (index : Int)
  | read_default_actions (index : Int)
  | call_sigaction (handler : Nat) (signum : Int)
  | call_handler (handler : Nat) (signum : Int)
  | handle_ignore (signum : Int)
  | handle_error (signum : Int)
deriving DecidableEq, Repr

/-- The state of `signal.c`: the tables `_actions` and `_default_actions`
(with the memory around them, so that any index denotes a cell), `oe_errno`,
and the events so far. -/
structure SignalState where
  _actions : Int → struct_oe_sigaction
  _default_actions : Int → Nat
  oe_errno : Int
  log : List SignalEvent

/-- The table index an event uses, if it is a table access. -/
def SignalEvent.tableIndex : SignalEvent → Option Int
  | .read_actions i => some i
  | .write_actions i => some i
  | .read_default_actions i => some i
  | _ => none

/-- The function `oe_sigaction`.  `act` is `none` for a null pointer; `oldact`
tells whether the pointer is non-null, and the second component of the result
is the value stored through it. -/
def oe_sigaction (K : SignalConsts) (signum : Int) (act : Option struct_oe_sigaction)
    (oldact : Bool) (s : SignalState) : Int × Option struct_oe_sigaction × SignalState :=
  if signum ≥ K.NSIG then
    (-1, none, { s with oe_errno := K.EINVAL })
  else
    let old := if oldact then some (s._actions signum) else none
    let s := if oldact then { s with log := s.log ++ [SignalEvent.read_actions signum] } else s
    let s :=
      match act with
      | some a =>
        { s with
          _actions := fun i => if i = signum then a else s._actions i
          log := s.log ++ [SignalEvent.write_actions signum] }
      | none => s
    (0, old, s)

/-- The function `oe_signal`. -/
def oe_signal (K : SignalConsts) (signum : Int) (handler : Nat) (s : SignalState) :
    Nat × SignalState :=
  let retval := K.OE_SIG_ERR
  if signum ≥ K.NSIG then
    (retval, { s with oe_errno := K.EINVAL })
  else
    (retval,
      { s with
        _actions := fun i =>
          if i = signum then { s._actions signum with handler := handler } else s._actions i
        log := s.log ++ [SignalEvent.write_actions signum] })

/-- The function `oe_posix_signal_notify_ecall`. -/
def oe_posix_signal_notify_ecall (K : SignalConsts) (signum : Int) (s : SignalState) :
    Int × SignalState :=
  if signum ≥ K.NSIG then
    (-1, { s with oe_errno := K.EINVAL })
  else
    let s := { s with log := s.log ++ [SignalEvent.read_actions signum] }
    if (s._actions signum).sa_flags &&& K.SA_SIGINFO ≠ 0 then
      (0, { s with
            log := s.log ++ [SignalEvent.call_sigaction (s._actions signum).handler signum] })
    else
      let h := (s._actions signum).handler
      if h = K.OE_SIG_DFL then
        let s := { s with log := s.log ++ [SignalEvent.read_default_actions signum] }
        (0, { s with
              log := s.log ++ [SignalEvent.call_handler (s._default_actions signum) signum] })
      else if h = K.OE_SIG_ERR then
        (0, { s with log := s.log ++ [SignalEvent.handle_error signum] })
      else if h = K.OE_SIG_IGN then
        (0, { s with log := s.log ++ [SignalEvent.handle_ignore signum] })
      else
        (0, { s with log := s.log ++ [SignalEvent.call_handler h signum] })

/-- Values of the constants as on Linux x86-64: 32 table entries (the length
of the initializer of `_default_actions`), `EINVAL = 22`, `SIG_DFL = 0`,
`SIG_IGN = 1`, `SIG_ERR = (void*)-1`, `SA_SIGINFO = 4`. -/
def demo_signal_consts : SignalConsts :=
  { NSIG := 32, EINVAL := 22, OE_SIG_DFL := 0, OE_SIG_ERR := 2 ^ 64 - 1, OE_SIG_IGN := 1,
    SA_SIGINFO := 4 }

/-- The state of `signal.c` at program start: `_actions` zeroed, every default
action `_handle_ignore` (at address 4096), `oe_errno = 0`. -/
def signal_init : SignalState :=
  { _actions := fun _ => { handler := 0, sa_flags := 0 }
    _default_actions := fun _ => 4096
    oe_errno := 0
    log := [] }

/-! ## Socket calls (`enclave/core/socket.c`) -/

/-- A socket operation of a device: from the device, the address buffer and
the length pointer to the `int` it returns. -/
abbrev SocketOp := Nat → Nat → Nat → Int

/-- The operations of `ops.socket` that `oe_getsockname` and `oe_getpeername`
refer to; `none` is a null function pointer. -/
structure oe_socket_ops_t where
  getsockname : Option SocketOp
  getpeername : Option SocketOp

/-- A device `oe_device_t`: its address and its socket operations. -/
structure oe_device_t where
  addr : Nat
  socket : oe_socket_ops_t

/-- The socket operations called, with their arguments. -/
inductive SocketCall where
  | getsockname (device addr addrlen : Nat)
  | getpeername (device addr addrlen : Nat)
deriving DecidableEq, Repr

/-- The state of the socket layer: `oe_errno` and the operations called so
far. -/
structure SocketState where
  oe_errno : Int
  log : List SocketCall

/-- The function `oe_getsockname`.  `oe_get_fd_device` resolves a descriptor
(`none` for a null result).  The value is `none` when the call goes through a
null function pointer. -/
def oe_getsockname (EINVAL : Int) (oe_get_fd_device : Int → Option oe_device_t)
    (sockfd : Int) (addr addrlen : Nat) (s : SocketState) : Option Int × SocketState :=
  match oe_get_fd_device sockfd with
  | none => (some (-1), s)
  | some psock =>
    if psock.socket.getsockname.isNone then
      (some (-1), { s with oe_errno := EINVAL })
    else
      match psock.socket.getsockname with
      | some op =>
        (some (op psock.addr addr addrlen),
          { s with log := s.log ++ [SocketCall.getsockname psock.addr addr addrlen] })
      | none => (none, s)

/-- The function `oe_getpeername`: the test is on `getpeername`, the call goes
to `getsockname` (line 279). -/
def oe_getpeername (EINVAL : Int) (oe_get_fd_device : Int → Option oe_device_t)
    (sockfd : Int) (addr addrlen : Nat) (s : SocketState) : Option Int × SocketState :=
  match oe_get_fd_device sockfd with
  | none => (some (-1), s)
  | some psock =>
    if psock.socket.getpeername.isNone then
      (some (-1), { s with oe_errno := EINVAL })
    else
      match psock.socket.getsockname with
      | some op =>
        (some (op psock.addr addr addrlen),
          { s with log := s.log ++ [SocketCall.getsockname psock.addr addr addrlen] })
      | none => (none, s)

/-- A device at address 512 whose `getsockname` returns 0 and whose
`getpeername` returns -1 (the socket is not connected). -/
def demo_device : oe_device_t :=
  { addr := 512,
    socket := { getsockname := some (fun _ _ _ => 0), getpeername := some (fun _ _ _ => -1) } }

/-! ## Arithmetic of the rounding helper -/

theorem SIZE_MOD_eq : SIZE_MOD = 18446744073709551616 := by
  unfold SIZE_MOD; norm_num

theorem max_capacity_eq : max_capacity = 1073741824 := by
  unfold max_capacity; rfl

theorem round_up_ge (x m : Nat) (hm : 0 < m) : x ≤ round_up x m := by
  unfold round_up
  have h1 := Nat.div_add_mod (x + m - 1) m
  have h2 := Nat.mod_lt (x + m - 1) hm
  have h3 : (x + m - 1) / m * m = m * ((x + m - 1) / m) := Nat.mul_comm _ _
  omega

theorem round_up_le (x m : Nat) : round_up x m ≤ x + m - 1 := by
  unfold round_up
  exact Nat.div_mul_le_self _ _

theorem round_up_dvd (x m : Nat) : m ∣ round_up x m := by
  unfold round_up
  exact Dvd.intro_left _ rfl

theorem round_up_of_dvd (x m : Nat) (hm : 0 < m) (h : m ∣ x) : round_up x m = x := by
  obtain ⟨k, rfl⟩ := h
  unfold round_up
  have h1 : m * k + m - 1 = (m - 1) + k * m := by
    have : m * k = k * m := Nat.mul_comm _ _
    omega
  rw [h1, Nat.add_mul_div_right _ _ hm, Nat.div_eq_of_lt (by omega)]
  simp [Nat.mul_comm]

/-- Without wrap-around the helper is the mathematical rounding. -/
theorem oe_round_up_nowrap (x m : Nat) (hm : 0 < m) (h : x + m - 1 < SIZE_MOD) :
    oe_round_up_to_multiple x m = round_up x m := by
  have hle := round_up_le x m
  unfold oe_round_up_to_multiple
  have h1 : ((x + m) % SIZE_MOD + SIZE_MOD - 1) % SIZE_MOD = x + m - 1 := by
    rw [SIZE_MOD_eq] at *
    omega
  rw [h1]
  unfold round_up at *
  exact Nat.mod_eq_of_lt (by omega)

/-- With wrap-around the helper returns `0`. -/
theorem oe_round_up_wrap (x m : Nat) (hx : x < SIZE_MOD) (hmM : m < SIZE_MOD)
    (h : SIZE_MOD ≤ x + m - 1) : oe_round_up_to_multiple x m = 0 := by
  unfold oe_round_up_to_multiple
  have h1 : ((x + m) % SIZE_MOD + SIZE_MOD - 1) % SIZE_MOD < m := by
    rw [SIZE_MOD_eq] at *
    omega
  rw [Nat.div_eq_of_lt h1]
  simp

/-- The overflow test of `oe_arena_malloc` fires exactly when rounding wraps. -/
theorem oe_round_up_lt_iff (x m : Nat) (hm : 0 < m) (hx : x < SIZE_MOD)
    (hmM : m < SIZE_MOD) :
    oe_round_up_to_multiple x m < x ↔ SIZE_MOD ≤ x + m - 1 := by
  constructor
  · intro h
    by_contra hc
    rw [oe_round_up_nowrap x m hm (by omega)] at h
    have := round_up_ge x m hm
    omega
  · intro h
    rw [oe_round_up_wrap x m hx hmM h]
    omega

theorem oe_round_up_dvd (x m : Nat) (hm : 0 < m) (hx : x < SIZE_MOD)
    (hmM : m < SIZE_MOD) : m ∣ oe_round_up_to_multiple x m := by
  by_cases h : x + m - 1 < SIZE_MOD
  · rw [oe_round_up_nowrap x m hm h]; exact round_up_dvd x m
  · rw [oe_round_up_wrap x m hx hmM (by omega)]; exact dvd_zero m

/-! ## One allocation step -/

/-- Closed form of the rounding, overflow and capacity checks. -/
theorem oe_arena_malloc_bump_eq (align size : Nat) (s : ArenaState) (hm : 0 < align)
    (hM : align < SIZE_MOD) :
    oe_arena_malloc_bump align size s =
      if size + align - 1 < SIZE_MOD ∧
          s.arena.used + round_up size align < SIZE_MOD ∧
          s.arena.used + round_up size align ≤ s.arena.capacity then
        (s.arena.buffer + s.arena.used,
          { s with arena := { s.arena with used := s.arena.used + round_up size align } })
      else (0, s) := by
  unfold oe_arena_malloc_bump
  by_cases hw : size + align - 1 < SIZE_MOD
  · have hr := oe_round_up_nowrap size align hm hw
    have hge := round_up_ge size align hm
    simp only [hr, hw, true_and]
    rw [if_neg (by omega)]
    unfold oe_safe_add_sizet
    by_cases h1 : s.arena.used + round_up size align < SIZE_MOD
    · by_cases h2 : s.arena.used + round_up size align ≤ s.arena.capacity
      · simp [h1, h2]
      · simp [h1, h2]
    · simp [h1]
  · have hlt : oe_round_up_to_multiple size align < size := by
      by_cases hs : size < SIZE_MOD
      · exact (oe_round_up_lt_iff size align hm hs hM).2 (by omega)
      · have : oe_round_up_to_multiple size align < SIZE_MOD := by
          unfold oe_round_up_to_multiple
          exact Nat.mod_lt _ (by rw [SIZE_MOD_eq]; norm_num)
        omega
    simp [hlt, hw]

theorem oe_arena_malloc_bump_inv (align size : Nat) (s : ArenaState) (hm : 0 < align)
    (hM : align < SIZE_MOD) (hbuf : s.arena.buffer ≠ 0)
    (h : s.arena.used ≤ s.arena.capacity ∧ align ∣ s.arena.used ∧
      s.capacity ≤ max_capacity ∧ s.arena.capacity ≤ max_capacity) :
    ArenaInv align (oe_arena_malloc_bump align size s).2 := by
  rw [oe_arena_malloc_bump_eq align size s hm hM]
  obtain ⟨h1, h2, h3, h4⟩ := h
  split
  · rename_i hc
    refine ⟨hc.2.2, ?_, ?_, h3, h4⟩
    · exact Nat.dvd_add h2 (round_up_dvd size align)
    · intro hb; exact absurd hb hbuf
  · exact ⟨h1, h2, fun hb => absurd hb hbuf, h3, h4⟩

theorem oe_arena_malloc_inv (align : Nat) (alloc : Nat → Nat) (size : Nat) (s : ArenaState)
    (hm : 0 < align) (hM : align < SIZE_MOD) (h : ArenaInv align s) :
    ArenaInv align (oe_arena_malloc align alloc size s).2 := by
  obtain ⟨h1, h2, h3, h4, h5⟩ := h
  unfold oe_arena_malloc
  by_cases hb : s.arena.buffer = 0
  · by_cases ha : alloc s.capacity = 0
    · simp only [hb, ha, if_true]
      exact ⟨h1, h2, h3, h4, h5⟩
    · simp only [hb, ha, if_true, if_false]
      exact oe_arena_malloc_bump_inv align size _ hm hM ha
        ⟨Nat.zero_le _, dvd_zero _, h4, h4⟩
  · simp only [hb, if_false]
    exact oe_arena_malloc_bump_inv align size _ hm hM hb ⟨h1, h2, h4, h5⟩

theorem oe_arena_calloc_arena (align : Nat) (alloc : Nat → Nat) (num size : Nat)
    (s : ArenaState) (h : num * size < SIZE_MOD) :
    (oe_arena_calloc align alloc num size s).1 = (oe_arena_malloc align alloc (num * size) s).1 ∧
    (oe_arena_calloc align alloc num size s).2.arena =
      (oe_arena_malloc align alloc (num * size) s).2.arena ∧
    (oe_arena_calloc align alloc num size s).2.capacity =
      (oe_arena_malloc align alloc (num * size) s).2.capacity ∧
    (oe_arena_calloc align alloc num size s).2.log =
      (oe_arena_malloc align alloc (num * size) s).2.log := by
  unfold oe_arena_calloc oe_safe_mul_sizet
  simp only [h, if_true]
  split <;> simp

theorem oe_arena_calloc_overflow (align : Nat) (alloc : Nat → Nat) (num size : Nat)
    (s : ArenaState) (h : ¬ num * size < SIZE_MOD) :
    oe_arena_calloc align alloc num size s = (0, s) := by
  unfold oe_arena_calloc oe_safe_mul_sizet
  simp [h]

theorem oe_arena_calloc_inv (align : Nat) (alloc : Nat → Nat) (num size : Nat)
    (s : ArenaState) (hm : 0 < align) (hM : align < SIZE_MOD) (h : ArenaInv align s) :
    ArenaInv align (oe_arena_calloc align alloc num size s).2 := by
  by_cases ho : num * size < SIZE_MOD
  · have hc := oe_arena_calloc_arena align alloc num size s ho
    have hi := oe_arena_malloc_inv align alloc (num * size) s hm hM h
    unfold ArenaInv at *
    rw [hc.2.1, hc.2.2.1]
    exact hi
  · rw [oe_arena_calloc_overflow align alloc num size s ho]
    exact h

theorem oe_configure_arena_capacity_inv (align cap : Nat) (s : ArenaState)
    (h : ArenaInv align s) : ArenaInv align (oe_configure_arena_capacity cap s).2 := by
  obtain ⟨h1, h2, h3, h4, h5⟩ := h
  unfold oe_configure_arena_capacity
  split
  · exact ⟨h1, h2, h3, h4, h5⟩
  · rename_i hc
    exact ⟨h1, h2, h3, by simpa using hc, h5⟩

theorem oe_arena_free_all_inv (align : Nat) (s : ArenaState) (h : ArenaInv align s) :
    ArenaInv align (oe_arena_free_all s) := by
  obtain ⟨h1, h2, h3, h4, h5⟩ := h
  refine ⟨Nat.zero_le _, dvd_zero _, ?_, h4, h5⟩
  intro hb
  exact ⟨rfl, (h3 hb).2⟩

theorem oe_teardown_arena_inv (align : Nat) (s : ArenaState) (h : ArenaInv align s) :
    ArenaInv align (oe_teardown_arena s) := by
  obtain ⟨h1, h2, h3, h4, h5⟩ := h
  unfold oe_teardown_arena
  refine ⟨Nat.le_refl _, dvd_zero _, fun _ => ⟨rfl, rfl⟩, ?_, Nat.zero_le _⟩
  split <;> exact h4

theorem ArenaOp.exec_inv (align : Nat) (op : ArenaOp) (s : ArenaState) (hm : 0 < align)
    (hM : align < SIZE_MOD) (h : ArenaInv align s) : ArenaInv align (op.exec align s) := by
  cases op with
  | configure cap => exact oe_configure_arena_capacity_inv align cap s h
  | malloc alloc size => exact oe_arena_malloc_inv align alloc size s hm hM h
  | calloc alloc num size => exact oe_arena_calloc_inv align alloc num size s hm hM h
  | free_all => exact oe_arena_free_all_inv align s h
  | teardown => exact oe_teardown_arena_inv align s h

theorem arena_init_inv (align : Nat) (mem : Nat → Nat) : ArenaInv align (arena_init mem) := by
  refine ⟨Nat.le_refl _, dvd_zero _, fun _ => ⟨rfl, rfl⟩, ?_, Nat.zero_le _⟩
  rw [max_capacity_eq]
  show 1024 * 1024 ≤ 1073741824
  norm_num

theorem arena_run_inv (align : Nat) (hm : 0 < align) (hM : align < SIZE_MOD)
    (ops : List ArenaOp) (s : ArenaState) (h : ArenaInv align s) :
    ArenaInv align (arena_run align ops s) := by
  induction ops generalizing s with
  | nil => exact h
  | cons op rest ih => exact ih _ (ArenaOp.exec_inv align op s hm hM h)

theorem ArenaReachable.inv (align : Nat) (hm : 0 < align) (hM : align < SIZE_MOD)
    (s : ArenaState) (h : ArenaReachable align s) : ArenaInv align s := by
  obtain ⟨mem, ops, rfl⟩ := h
  exact arena_run_inv align hm hM ops _ (arena_init_inv align mem)

theorem ArenaReachable.init (align : Nat) (mem : Nat → Nat) :
    ArenaReachable align (arena_init mem) := ⟨mem, [], rfl⟩

theorem arena_run_append (align : Nat) (ops1 ops2 : List ArenaOp) (s : ArenaState) :
    arena_run align (ops1 ++ ops2) s = arena_run align ops2 (arena_run align ops1 s) := by
  unfold arena_run
  exact List.foldl_append _ _ _ _

theorem ArenaReachable.step (align : Nat) (s : ArenaState) (op : ArenaOp)
    (h : ArenaReachable align s) : ArenaReachable align (op.exec align s) := by
  obtain ⟨mem, ops, rfl⟩ := h
  refine ⟨mem, ops ++ [op], ?_⟩
  rw [arena_run_append]
  rfl

/-- Frame of `oe_arena_malloc`: the process-wide capacity and the memory are
never written. -/
theorem oe_arena_malloc_frame (align : Nat) (alloc : Nat → Nat) (size : Nat)
    (s : ArenaState) :
    (oe_arena_malloc align alloc size s).2.capacity = s.capacity ∧
    (oe_arena_malloc align alloc size s).2.mem = s.mem := by
  unfold oe_arena_malloc oe_arena_malloc_bump
  simp only []
  repeat' split
  all_goals exact ⟨rfl, rfl⟩

/-- What a successful `oe_arena_malloc` does. -/
theorem oe_arena_malloc_success (align : Nat) (alloc : Nat → Nat) (size : Nat)
    (s : ArenaState) (hm : 0 < align) (hM : align < SIZE_MOD)
    (h0 : s.arena.buffer = 0 → s.arena.used = 0)
    (hret : (oe_arena_malloc align alloc size s).1 ≠ 0) :
    oe_round_up_to_multiple size align = round_up size align ∧
    (oe_arena_malloc align alloc size s).1 =
      (oe_arena_malloc align alloc size s).2.arena.buffer + s.arena.used ∧
    (oe_arena_malloc align alloc size s).2.arena.used =
      s.arena.used + round_up size align ∧
    (oe_arena_malloc align alloc size s).2.arena.used ≤
      (oe_arena_malloc align alloc size s).2.arena.capacity ∧
    (oe_arena_malloc align alloc size s).2.arena.buffer ≠ 0 ∧
    (s.arena.buffer ≠ 0 →
      (oe_arena_malloc align alloc size s).2.arena.buffer = s.arena.buffer ∧
      (oe_arena_malloc align alloc size s).2.arena.capacity = s.arena.capacity) ∧
    (s.arena.buffer = 0 →
      (oe_arena_malloc align alloc size s).2.arena.buffer = alloc s.capacity ∧
      (oe_arena_malloc align alloc size s).2.arena.capacity = s.capacity) := by
  unfold oe_arena_malloc at hret ⊢
  by_cases hb : s.arena.buffer = 0
  · have hu := h0 hb
    by_cases ha : alloc s.capacity = 0
    · simp [hb, ha] at hret
    · simp only [hb, ha, if_true, if_false] at hret ⊢
      rw [oe_arena_malloc_bump_eq align size _ hm hM] at hret ⊢
      split at hret
      · rename_i hc
        rw [if_pos hc]
        simp only [Nat.zero_add] at hc
        refine ⟨oe_round_up_nowrap size align hm hc.1, ?_, ?_, ?_, ha, ?_, ?_⟩
        · simp [hu]
        · simp [hu]
        · simpa using hc.2.2
        · intro hne; exact absurd rfl hne
        · intro _; exact ⟨rfl, rfl⟩
      · simp at hret
  · simp only [hb, if_false] at hret ⊢
    rw [oe_arena_malloc_bump_eq align size _ hm hM] at hret ⊢
    split at hret
    · rename_i hc
      rw [if_pos hc]
      refine ⟨oe_round_up_nowrap size align hm hc.1, rfl, rfl, hc.2.2, hb, ?_, ?_⟩
      · intro _; exact ⟨rfl, rfl⟩
      · intro h; exact h.elim
    · simp at hret

/-- What a failing `oe_arena_malloc` does. -/
theorem oe_arena_malloc_failure (align : Nat) (alloc : Nat → Nat) (size : Nat)
    (s : ArenaState) (hm : 0 < align) (hM : align < SIZE_MOD)
    (h0 : s.arena.buffer = 0 → s.arena.used = 0)
    (hret : (oe_arena_malloc align alloc size s).1 = 0) :
    (oe_arena_malloc align alloc size s).2.arena.used = s.arena.used ∧
    (s.arena.buffer ≠ 0 → (oe_arena_malloc align alloc size s).2.arena = s.arena) := by
  unfold oe_arena_malloc at hret ⊢
  by_cases hb : s.arena.buffer = 0
  · have hu := h0 hb
    by_cases ha : alloc s.capacity = 0
    · simp [hb, ha]
    · simp only [hb, ha, if_true, if_false] at hret ⊢
      rw [oe_arena_malloc_bump_eq align size _ hm hM] at hret ⊢
      split at hret
      · simp at hret; exact absurd hret ha
      · rename_i hc
        rw [if_neg hc]
        simp [hu]
  · simp only [hb, if_false] at hret ⊢
    rw [oe_arena_malloc_bump_eq align size _ hm hM] at hret ⊢
    split at hret
    · simp at hret; exact absurd hret.1 hb
    · rename_i hc
      rw [if_neg hc]
      simp

/-! ## The arena invariant -/

/-- Claim C1.  After every sequence of `oe_configure_arena_capacity`,
`oe_arena_malloc`, `oe_arena_calloc`, `oe_arena_free_all` and
`oe_teardown_arena` calls made from program start, `used <= capacity` holds;
and a non-null pointer returned by `oe_arena_malloc(size)` in such a state is
`buffer + off` with `off` a multiple of the alignment and
`off + round_up(size, alignment) <= capacity`, the rounding of the code being
the mathematical one, so the allocation lies inside `[buffer, buffer+capacity)`. -/
theorem arena_invariant (align : Nat) (hm : 0 < align) (hM : align < SIZE_MOD)
    (mem : Nat → Nat) (ops : List ArenaOp) :
    (arena_run align ops (arena_init mem)).arena.used ≤
      (arena_run align ops (arena_init mem)).arena.capacity ∧
    ∀ (alloc : Nat → Nat) (size : Nat),
      (oe_arena_malloc align alloc size (arena_run align ops (arena_init mem))).1 ≠ 0 →
      ∃ off : Nat,
        (oe_arena_malloc align alloc size (arena_run align ops (arena_init mem))).1 =
          (oe_arena_malloc align alloc size
            (arena_run align ops (arena_init mem))).2.arena.buffer + off ∧
        align ∣ off ∧
        oe_round_up_to_multiple size align = round_up size align ∧
        size ≤ round_up size align ∧
        off + round_up size align ≤
          (oe_arena_malloc align alloc size
            (arena_run align ops (arena_init mem))).2.arena.capacity := by
  have hinv := arena_run_inv align hm hM ops _ (arena_init_inv align mem)
  refine ⟨hinv.1, ?_⟩
  intro alloc size hret
  have hs := oe_arena_malloc_success align alloc size _ hm hM
    (fun hb => (hinv.2.2.1 hb).1) hret
  refine ⟨(arena_run align ops (arena_init mem)).arena.used, hs.2.1, hinv.2.1, hs.1,
    round_up_ge size align hm, ?_⟩
  have h3 := hs.2.2.1
  have h4 := hs.2.2.2.1
  omega

/-- Claim C1 at a concrete run: alignment 16, an allocation of 100 bytes that
materializes a 1 MiB arena at address 4096, an allocation of 8 bytes, then a
request for 40 bytes. -/
theorem arena_invariant_witness :
    (0 < 16 ∧ 16 < SIZE_MOD) ∧
    (arena_run 16 [ArenaOp.malloc (fun _ => 4096) 100, ArenaOp.malloc (fun _ => 4096) 8]
        (arena_init (fun _ => 0))).arena.used ≤
      (arena_run 16 [ArenaOp.malloc (fun _ => 4096) 100, ArenaOp.malloc (fun _ => 4096) 8]
        (arena_init (fun _ => 0))).arena.capacity ∧
    ∃ off : Nat,
      (oe_arena_malloc 16 (fun _ => 4096) 40
        (arena_run 16 [ArenaOp.malloc (fun _ => 4096) 100, ArenaOp.malloc (fun _ => 4096) 8]
          (arena_init (fun _ => 0)))).1 =
        (oe_arena_malloc 16 (fun _ => 4096) 40
          (arena_run 16 [ArenaOp.malloc (fun _ => 4096) 100, ArenaOp.malloc (fun _ => 4096) 8]
            (arena_init (fun _ => 0)))).2.arena.buffer + off ∧
      16 ∣ off ∧
      oe_round_up_to_multiple 40 16 = round_up 40 16 ∧
      40 ≤ round_up 40 16 ∧
      off + round_up 40 16 ≤
        (oe_arena_malloc 16 (fun _ => 4096) 40
          (arena_run 16 [ArenaOp.malloc (fun _ => 4096) 100, ArenaOp.malloc (fun _ => 4096) 8]
            (arena_init (fun _ => 0)))).2.arena.capacity :=
  ⟨⟨by decide, by decide⟩,
    (arena_invariant 16 (by decide) (by decide) (fun _ => 0)
      [ArenaOp.malloc (fun _ => 4096) 100, ArenaOp.malloc (fun _ => 4096) 8]).1,
    (arena_invariant 16 (by decide) (by decide) (fun _ => 0)
      [ArenaOp.malloc (fun _ => 4096) 100, ArenaOp.malloc (fun _ => 4096) 8]).2
      (fun _ => 4096) 40 (by decide)⟩

/-! ## Frame lemmas for the process-wide capacity -/

theorem oe_arena_calloc_frame (align : Nat) (alloc : Nat → Nat) (num size : Nat)
    (s : ArenaState) : (oe_arena_calloc align alloc num size s).2.capacity = s.capacity := by
  by_cases ho : num * size < SIZE_MOD
  · rw [(oe_arena_calloc_arena align alloc num size s ho).2.2.1]
    exact (oe_arena_malloc_frame align alloc (num * size) s).1
  · rw [oe_arena_calloc_overflow align alloc num size s ho]

theorem oe_teardown_arena_capacity (s : ArenaState) :
    (oe_teardown_arena s).capacity = s.capacity := by
  unfold oe_teardown_arena
  simp only []
  split <;> rfl

theorem ArenaOp.exec_capacity (align : Nat) (op : ArenaOp) (s : ArenaState)
    (h : op.isConfigure = false) : (op.exec align s).capacity = s.capacity := by
  cases op with
  | configure cap => simp [ArenaOp.isConfigure] at h
  | malloc alloc size => exact (oe_arena_malloc_frame align alloc size s).1
  | calloc alloc num size => exact oe_arena_calloc_frame align alloc num size s
  | free_all => rfl
  | teardown => exact oe_teardown_arena_capacity s

theorem arena_run_capacity (align : Nat) (ops : List ArenaOp) (s : ArenaState)
    (h : ∀ op ∈ ops, op.isConfigure = false) :
    (arena_run align ops s).capacity = s.capacity := by
  induction ops generalizing s with
  | nil => rfl
  | cons op rest ih =>
    have h1 := ih (op.exec align s) (fun o ho => h o (List.mem_cons_of_mem _ ho))
    have h2 := ArenaOp.exec_capacity align op s (h op (List.mem_cons_self _ _))
    show (arena_run align rest (op.exec align s)).capacity = s.capacity
    rw [h1, h2]

/-! ## Success and failure of `oe_arena_malloc` -/

/-- Claim C2.  When `oe_arena_malloc(size)` returns non-null in a state `s`
reached from program start, the pointer is `buffer + used_before` and `used`
grows by `round_up(size, alignment)` (which is what the code's rounding
computes); an arena that already existed keeps its buffer and capacity; a
thread without an arena first gets one whose buffer is the region provider's
answer for the process-wide capacity, whose capacity is that process-wide
capacity (1 MiB when no configure call was made) and whose `used` starts at 0;
the call writes no byte of memory. -/
theorem oe_arena_malloc_success_post (align : Nat) (hm : 0 < align) (hM : align < SIZE_MOD)
    (mem : Nat → Nat) (ops : List ArenaOp) (s : ArenaState)
    (hs : s = arena_run align ops (arena_init mem))
    (alloc : Nat → Nat) (size : Nat)
    (hret : (oe_arena_malloc align alloc size s).1 ≠ 0) :
    (oe_arena_malloc align alloc size s).1 =
      (oe_arena_malloc align alloc size s).2.arena.buffer + s.arena.used ∧
    (oe_arena_malloc align alloc size s).2.arena.used =
      s.arena.used + round_up size align ∧
    oe_round_up_to_multiple size align = round_up size align ∧
    (s.arena.buffer ≠ 0 →
      (oe_arena_malloc align alloc size s).2.arena.buffer = s.arena.buffer ∧
      (oe_arena_malloc align alloc size s).2.arena.capacity = s.arena.capacity) ∧
    (s.arena.buffer = 0 →
      s.arena.used = 0 ∧
      (oe_arena_malloc align alloc size s).2.arena.buffer = alloc s.capacity ∧
      (oe_arena_malloc align alloc size s).2.arena.capacity = s.capacity ∧
      (oe_arena_malloc align alloc size s).1 = alloc s.capacity ∧
      (oe_arena_malloc align alloc size s).2.arena.used = round_up size align ∧
      ((∀ op ∈ ops, op.isConfigure = false) →
        (oe_arena_malloc align alloc size s).2.arena.capacity = 1024 * 1024)) ∧
    (oe_arena_malloc align alloc size s).2.mem = s.mem := by
  have hinv : ArenaInv align s := by
    rw [hs]; exact arena_run_inv align hm hM ops _ (arena_init_inv align mem)
  have h := oe_arena_malloc_success align alloc size s hm hM
    (fun hb => (hinv.2.2.1 hb).1) hret
  refine ⟨h.2.1, h.2.2.1, h.1, h.2.2.2.2.2.1, ?_, (oe_arena_malloc_frame align alloc size s).2⟩
  intro hb
  have hu := (hinv.2.2.1 hb).1
  have hmat := h.2.2.2.2.2.2 hb
  refine ⟨hu, hmat.1, hmat.2, ?_, ?_, ?_⟩
  · rw [h.2.1, hmat.1, hu]; rfl
  · rw [h.2.2.1, hu]; exact Nat.zero_add _
  · intro hnc
    rw [hmat.2, hs, arena_run_capacity align ops _ hnc]
    rfl

/-- Claim C2 at program start: alignment 16, the region provider answers 4096,
100 bytes are requested. -/
theorem oe_arena_malloc_success_post_witness :
    (0 < 16 ∧ 16 < SIZE_MOD) ∧
    (oe_arena_malloc 16 (fun _ => 4096) 100 (arena_init (fun _ => 0))).1 ≠ 0 ∧
    (oe_arena_malloc 16 (fun _ => 4096) 100 (arena_init (fun _ => 0))).1 =
      (oe_arena_malloc 16 (fun _ => 4096) 100 (arena_init (fun _ => 0))).2.arena.buffer +
        (arena_init (fun _ => 0)).arena.used ∧
    (oe_arena_malloc 16 (fun _ => 4096) 100 (arena_init (fun _ => 0))).2.arena.used =
      (arena_init (fun _ => 0)).arena.used + round_up 100 16 :=
  ⟨⟨by decide, by decide⟩, by decide,
    (oe_arena_malloc_success_post 16 (by decide) (by decide) (fun _ => 0) []
      (arena_init (fun _ => 0)) rfl (fun _ => 4096) 100 (by decide)).1,
    (oe_arena_malloc_success_post 16 (by decide) (by decide) (fun _ => 0) []
      (arena_init (fun _ => 0)) rfl (fun _ => 4096) 100 (by decide)).2.1⟩

/-- Claim C3.  In a state reached from program start, `oe_arena_malloc(size)`
returns NULL exactly when (a) the arena had to be materialized and
`oe_allocate_arena` returned NULL, or (b) the rounded size is below `size`
(rounding overflowed), or (c) `used + rounded_size` overflows `size_t` or
exceeds the capacity of the arena (the process-wide capacity for an arena
materialized by this call); and when it returns NULL, `used` is unchanged. -/
theorem oe_arena_malloc_null_iff (align : Nat) (hm : 0 < align) (hM : align < SIZE_MOD)
    (s : ArenaState) (hs : ArenaReachable align s) (alloc : Nat → Nat) (size : Nat) :
    ((oe_arena_malloc align alloc size s).1 = 0 ↔
      ((s.arena.buffer = 0 ∧ alloc s.capacity = 0) ∨
       oe_round_up_to_multiple size align < size ∨
       (SIZE_MOD ≤ s.arena.used + oe_round_up_to_multiple size align ∨
        (if s.arena.buffer = 0 then s.capacity else s.arena.capacity) <
          s.arena.used + oe_round_up_to_multiple size align))) ∧
    ((oe_arena_malloc align alloc size s).1 = 0 →
      (oe_arena_malloc align alloc size s).2.arena.used = s.arena.used) := by
  have hinv := ArenaReachable.inv align hm hM s hs
  have h0 : s.arena.buffer = 0 → s.arena.used = 0 := fun hb => (hinv.2.2.1 hb).1
  refine ⟨?_, fun hret => (oe_arena_malloc_failure align alloc size s hm hM h0 hret).1⟩
  unfold oe_arena_malloc oe_arena_malloc_bump oe_safe_add_sizet
  by_cases hb : s.arena.buffer = 0
  · have hu := h0 hb
    by_cases ha : alloc s.capacity = 0
    · simp [hb, ha]
    · simp only [hb, ha, hu, if_true, if_false, false_and, false_or, Nat.zero_add]
      by_cases h1 : oe_round_up_to_multiple size align < size
      · simp [h1]
      · by_cases h2 : oe_round_up_to_multiple size align < SIZE_MOD
        · by_cases h3 : oe_round_up_to_multiple size align ≤ s.capacity
          · simp [h1, h2, h3, ha]
          · simp [h1, h2, h3]
            omega
        · simp [h1, h2]
          omega
  · simp only [hb, if_false, false_and, false_or]
    by_cases h1 : oe_round_up_to_multiple size align < size
    · simp [h1]
    · by_cases h2 : s.arena.used + oe_round_up_to_multiple size align < SIZE_MOD
      · by_cases h3 : s.arena.used + oe_round_up_to_multiple size align ≤ s.arena.capacity
        · simp [h1, h2, h3, hb]
        · simp [h1, h2, h3]
          omega
      · simp [h1, h2]
        omega

/-- Claim C3 at program start: alignment 16, a working region provider, and a
request of `2^64 - 1` bytes, whose rounding overflows. -/
theorem oe_arena_malloc_null_iff_witness :
    (0 < 16 ∧ 16 < SIZE_MOD) ∧
    (oe_arena_malloc 16 (fun _ => 4096) (2 ^ 64 - 1) (arena_init (fun _ => 0))).1 = 0 ∧
    (oe_arena_malloc 16 (fun _ => 4096) (2 ^ 64 - 1) (arena_init (fun _ => 0))).2.arena.used =
      (arena_init (fun _ => 0)).arena.used :=
  ⟨⟨by decide, by decide⟩, by decide,
    (oe_arena_malloc_null_iff 16 (by decide) (by decide) (arena_init (fun _ => 0))
      (ArenaReachable.init 16 (fun _ => 0)) (fun _ => 4096) (2 ^ 64 - 1)).2 (by decide)⟩

/-! ## Sequences of allocations -/

/-- The bookkeeping facts a sequence of allocations relies on. -/
theorem AllocReq.exec_success (align : Nat) (q : AllocReq) (s : ArenaState) (hm : 0 < align)
    (hM : align < SIZE_MOD) (h0 : s.arena.buffer = 0 → s.arena.used = 0)
    (hret : (q.exec align s).1 ≠ 0) :
    oe_round_up_to_multiple q.bytes align = round_up q.bytes align ∧
    (q.exec align s).1 = (q.exec align s).2.arena.buffer + s.arena.used ∧
    (q.exec align s).2.arena.used = s.arena.used + round_up q.bytes align ∧
    (q.exec align s).2.arena.used ≤ (q.exec align s).2.arena.capacity ∧
    (q.exec align s).2.arena.buffer ≠ 0 ∧
    (s.arena.buffer ≠ 0 →
      (q.exec align s).2.arena.buffer = s.arena.buffer ∧
      (q.exec align s).2.arena.capacity = s.arena.capacity) := by
  cases q with
  | malloc alloc size =>
    have h := oe_arena_malloc_success align alloc size s hm hM h0 hret
    exact ⟨h.1, h.2.1, h.2.2.1, h.2.2.2.1, h.2.2.2.2.1, h.2.2.2.2.2.1⟩
  | calloc alloc num size =>
    by_cases ho : num * size < SIZE_MOD
    · have hc := oe_arena_calloc_arena align alloc num size s ho
      simp only [AllocReq.exec, AllocReq.bytes] at hret ⊢
      rw [hc.1] at hret
      have h := oe_arena_malloc_success align alloc (num * size) s hm hM h0 hret
      rw [hc.1, hc.2.1]
      exact ⟨h.1, h.2.1, h.2.2.1, h.2.2.2.1, h.2.2.2.2.1, h.2.2.2.2.2.1⟩
    · simp only [AllocReq.exec] at hret
      rw [oe_arena_calloc_overflow align alloc num size s ho] at hret
      exact absurd rfl hret

theorem AllocReq.exec_failure (align : Nat) (q : AllocReq) (s : ArenaState) (hm : 0 < align)
    (hM : align < SIZE_MOD) (h0 : s.arena.buffer = 0 → s.arena.used = 0)
    (hret : (q.exec align s).1 = 0) :
    (q.exec align s).2.arena.used = s.arena.used ∧
    (s.arena.buffer ≠ 0 → (q.exec align s).2.arena = s.arena) := by
  cases q with
  | malloc alloc size => exact oe_arena_malloc_failure align alloc size s hm hM h0 hret
  | calloc alloc num size =>
    by_cases ho : num * size < SIZE_MOD
    · have hc := oe_arena_calloc_arena align alloc num size s ho
      simp only [AllocReq.exec] at hret ⊢
      rw [hc.1] at hret
      rw [hc.2.1]
      exact oe_arena_malloc_failure align alloc (num * size) s hm hM h0 hret
    · simp only [AllocReq.exec]
      rw [oe_arena_calloc_overflow align alloc num size s ho]
      exact ⟨rfl, fun _ => rfl⟩

theorem arena_allocs_cons_pos (align : Nat) (q : AllocReq) (qs : List AllocReq)
    (s : ArenaState) (h : (q.exec align s).1 ≠ 0) :
    arena_allocs align (q :: qs) s =
      ({ ptr := (q.exec align s).1, bytes := q.bytes,
         rounded := oe_round_up_to_multiple q.bytes align } ::
          (arena_allocs align qs (q.exec align s).2).1,
        (arena_allocs align qs (q.exec align s).2).2) := by
  simp [arena_allocs, h]

theorem arena_allocs_cons_neg (align : Nat) (q : AllocReq) (qs : List AllocReq)
    (s : ArenaState) (h : (q.exec align s).1 = 0) :
    arena_allocs align (q :: qs) s = arena_allocs align qs (q.exec align s).2 := by
  simp [arena_allocs, h]

/-- The regions of a sequence of allocations are stacked one after the other
between the old and the new high-water mark. -/
theorem arena_allocs_layout (align : Nat) (hm : 0 < align) (hM : align < SIZE_MOD)
    (reqs : List AllocReq) (s : ArenaState)
    (h0 : s.arena.buffer = 0 → s.arena.used = 0)
    (h1 : s.arena.buffer ≠ 0 → s.arena.used ≤ s.arena.capacity) :
    (arena_allocs align reqs s).2.arena.used =
      s.arena.used + ((arena_allocs align reqs s).1.map Region.rounded).sum ∧
    ((arena_allocs align reqs s).2.arena.buffer = 0 →
      (arena_allocs align reqs s).2.arena.used = 0) ∧
    ((arena_allocs align reqs s).2.arena.buffer ≠ 0 →
      (arena_allocs align reqs s).2.arena.used ≤ (arena_allocs align reqs s).2.arena.capacity) ∧
    (s.arena.buffer ≠ 0 →
      (arena_allocs align reqs s).2.arena.buffer = s.arena.buffer ∧
      (arena_allocs align reqs s).2.arena.capacity = s.arena.capacity) ∧
    (∀ a ∈ (arena_allocs align reqs s).1,
      (arena_allocs align reqs s).2.arena.buffer + s.arena.used ≤ a.ptr ∧
      a.ptr + a.rounded ≤
        (arena_allocs align reqs s).2.arena.buffer + (arena_allocs align reqs s).2.arena.used ∧
      a.rounded = round_up a.bytes align) ∧
    (arena_allocs align reqs s).1.Pairwise Region.disjoint ∧
    ((arena_allocs align reqs s).1 ≠ [] → (arena_allocs align reqs s).2.arena.buffer ≠ 0) := by
  induction reqs generalizing s with
  | nil =>
    refine ⟨by simp [arena_allocs], h0, h1, fun _ => ⟨rfl, rfl⟩, ?_, ?_, ?_⟩
    · intro a ha; simp [arena_allocs] at ha
    · simp [arena_allocs]
    · intro h; simp [arena_allocs] at h
  | cons q qs ih =>
    by_cases hret : (q.exec align s).1 = 0
    · have hf := AllocReq.exec_failure align q s hm hM h0 hret
      have h0' : (q.exec align s).2.arena.buffer = 0 → (q.exec align s).2.arena.used = 0 := by
        intro hb
        by_cases hsb : s.arena.buffer = 0
        · rw [hf.1]; exact h0 hsb
        · rw [hf.2 hsb] at hb; exact absurd hb hsb
      have h1' : (q.exec align s).2.arena.buffer ≠ 0 →
          (q.exec align s).2.arena.used ≤ (q.exec align s).2.arena.capacity := by
        intro _
        by_cases hsb : s.arena.buffer = 0
        · rw [hf.1, h0 hsb]; exact Nat.zero_le _
        · rw [hf.2 hsb]; exact h1 hsb
      have I := ih (q.exec align s).2 h0' h1'
      rw [arena_allocs_cons_neg align q qs s hret]
      rw [hf.1] at I
      refine ⟨I.1, I.2.1, I.2.2.1, ?_, I.2.2.2.2.1, I.2.2.2.2.2.1, I.2.2.2.2.2.2⟩
      intro hsb
      have hb' : (q.exec align s).2.arena.buffer ≠ 0 := by rw [hf.2 hsb]; exact hsb
      have := I.2.2.2.1 hb'
      rw [hf.2 hsb] at this
      exact this
    · have hsuc := AllocReq.exec_success align q s hm hM h0 hret
      obtain ⟨e1, e2, e3, e4, e5, e6⟩ := hsuc
      have I := ih (q.exec align s).2 (fun hb => absurd hb e5) (fun _ => e4)
      obtain ⟨i1, i2, i3, i4, i5, i6, _⟩ := I
      have hkeep := i4 e5
      rw [arena_allocs_cons_pos align q qs s hret]
      dsimp only
      refine ⟨?_, i2, i3, ?_, ?_, ?_, ?_⟩
      · simp only [List.map_cons, List.sum_cons]
        rw [i1, e3, e1]
        omega
      · intro hsb
        have := e6 hsb
        exact ⟨hkeep.1.trans this.1, hkeep.2.trans this.2⟩
      · intro a ha
        rcases List.mem_cons.1 ha with rfl | ha'
        · simp only []
          rw [hkeep.1, e2, e1]
          refine ⟨Nat.le_refl _, ?_, rfl⟩
          rw [i1, e3]
          omega
        · have := i5 a ha'
          rw [e3] at this
          exact ⟨by omega, this.2.1, this.2.2⟩
      · rw [List.pairwise_cons]
        refine ⟨?_, i6⟩
        intro a ha'
        have := i5 a ha'
        left
        simp only []
        rw [e2, e1, ← hkeep.1]
        rw [e3] at this
        omega
      · intro _
        rw [hkeep.1]; exact e5

/-- Claim C4.  For a sequence of `oe_arena_malloc` / `oe_arena_calloc` calls
made one after the other in a state reached from program start, the rounded
sizes of the successful allocations sum to at most the capacity of the arena,
each returned region lies in `[buffer, buffer + capacity)`, and no two
returned regions `[p, p + rounded)` overlap. -/
theorem arena_allocs_disjoint (align : Nat) (hm : 0 < align) (hM : align < SIZE_MOD)
    (s : ArenaState) (hs : ArenaReachable align s) (reqs : List AllocReq) :
    ((arena_allocs align reqs s).1.map Region.rounded).sum ≤
      (arena_allocs align reqs s).2.arena.capacity ∧
    (∀ a ∈ (arena_allocs align reqs s).1,
      a.rounded = round_up a.bytes align ∧
      (arena_allocs align reqs s).2.arena.buffer ≤ a.ptr ∧
      a.ptr + a.rounded ≤
        (arena_allocs align reqs s).2.arena.buffer +
          (arena_allocs align reqs s).2.arena.capacity) ∧
    (arena_allocs align reqs s).1.Pairwise Region.disjoint := by
  have hinv := ArenaReachable.inv align hm hM s hs
  have L := arena_allocs_layout align hm hM reqs s (fun hb => (hinv.2.2.1 hb).1)
    (fun _ => hinv.1)
  obtain ⟨l1, l2, l3, _, l5, l6, l7⟩ := L
  refine ⟨?_, ?_, l6⟩
  · by_cases hnil : (arena_allocs align reqs s).1 = []
    · rw [hnil]; simp
    · have := l3 (l7 hnil)
      omega
  · intro a ha
    have h5 := l5 a ha
    have hne : (arena_allocs align reqs s).1 ≠ [] := List.ne_nil_of_mem ha
    have := l3 (l7 hne)
    exact ⟨h5.2.2, by omega, by omega⟩

/-- Claim C4 at program start: alignment 16, `oe_arena_malloc(100)` followed
by `oe_arena_calloc(3, 5)` on an arena materialized at address 4096. -/
theorem arena_allocs_disjoint_witness :
    (0 < 16 ∧ 16 < SIZE_MOD) ∧
    ((arena_allocs 16
        [AllocReq.malloc (fun _ => 4096) 100, AllocReq.calloc (fun _ => 4096) 3 5]
        (arena_init (fun _ => 0))).1.map Region.rounded).sum ≤
      (arena_allocs 16
        [AllocReq.malloc (fun _ => 4096) 100, AllocReq.calloc (fun _ => 4096) 3 5]
        (arena_init (fun _ => 0))).2.arena.capacity ∧
    (arena_allocs 16
        [AllocReq.malloc (fun _ => 4096) 100, AllocReq.calloc (fun _ => 4096) 3 5]
        (arena_init (fun _ => 0))).1.Pairwise Region.disjoint ∧
    (arena_allocs 16
        [AllocReq.malloc (fun _ => 4096) 100, AllocReq.calloc (fun _ => 4096) 3 5]
        (arena_init (fun _ => 0))).1 =
      [{ ptr := 4096, bytes := 100, rounded := 112 },
       { ptr := 4208, bytes := 15, rounded := 16 }] :=
  ⟨⟨by decide, by decide⟩,
    (arena_allocs_disjoint 16 (by decide) (by decide) (arena_init (fun _ => 0))
      (ArenaReachable.init 16 (fun _ => 0))
      [AllocReq.malloc (fun _ => 4096) 100, AllocReq.calloc (fun _ => 4096) 3 5]).1,
    (arena_allocs_disjoint 16 (by decide) (by decide) (arena_init (fun _ => 0))
      (ArenaReachable.init 16 (fun _ => 0))
      [AllocReq.malloc (fun _ => 4096) 100, AllocReq.calloc (fun _ => 4096) 3 5]).2.2,
    by decide⟩

/-! ## `oe_arena_calloc` on overflow, `oe_configure_arena_capacity` -/

theorem oe_configure_arena_capacity_accepts (cap : Nat) (s : ArenaState)
    (h : (oe_configure_arena_capacity cap s).1 = true) : cap ≤ 1073741824 := by
  unfold oe_configure_arena_capacity at h
  rw [max_capacity_eq] at h
  by_cases hc : cap > 1073741824
  · rw [if_pos hc] at h; exact absurd h Bool.false_ne_true
  · omega

/-- Claim C5.  When `num * size` exceeds `SIZE_MAX`, `oe_arena_calloc`
returns NULL and leaves the whole state as it was: the arena record (buffer,
capacity, used), the process-wide capacity, the memory, and the log of calls,
which gains neither an entry into `oe_arena_malloc` nor a call to
`oe_allocate_arena`. -/
theorem oe_arena_calloc_overflow_fails (align : Nat) (alloc : Nat → Nat) (num size : Nat)
    (s : ArenaState) (h : SIZE_MOD - 1 < num * size) :
    (oe_arena_calloc align alloc num size s).1 = 0 ∧
    (oe_arena_calloc align alloc num size s).2.arena = s.arena ∧
    (oe_arena_calloc align alloc num size s).2.log = s.log ∧
    (oe_arena_calloc align alloc num size s).2.capacity = s.capacity ∧
    (oe_arena_calloc align alloc num size s).2.mem = s.mem := by
  have ho : ¬ num * size < SIZE_MOD := by omega
  rw [oe_arena_calloc_overflow align alloc num size s ho]
  exact ⟨rfl, rfl, rfl, rfl, rfl⟩

/-- Claim C5 at program start: `oe_arena_calloc(2^32, 2^32)`. -/
theorem oe_arena_calloc_overflow_fails_witness :
    SIZE_MOD - 1 < 2 ^ 32 * 2 ^ 32 ∧
    (oe_arena_calloc 16 (fun _ => 4096) (2 ^ 32) (2 ^ 32) (arena_init (fun _ => 0))).1 = 0 ∧
    (oe_arena_calloc 16 (fun _ => 4096) (2 ^ 32) (2 ^ 32) (arena_init (fun _ => 0))).2.arena =
      { buffer := 0, capacity := 0, used := 0 } ∧
    (oe_arena_calloc 16 (fun _ => 4096) (2 ^ 32) (2 ^ 32) (arena_init (fun _ => 0))).2.log = [] :=
  ⟨by decide,
    (oe_arena_calloc_overflow_fails 16 (fun _ => 4096) (2 ^ 32) (2 ^ 32)
      (arena_init (fun _ => 0)) (by decide)).1,
    (oe_arena_calloc_overflow_fails 16 (fun _ => 4096) (2 ^ 32) (2 ^ 32)
      (arena_init (fun _ => 0)) (by decide)).2.1,
    (oe_arena_calloc_overflow_fails 16 (fun _ => 4096) (2 ^ 32) (2 ^ 32)
      (arena_init (fun _ => 0)) (by decide)).2.2.1⟩

/-- Claim C6.  `oe_configure_arena_capacity(cap)` returns true exactly when
`cap <= 2^30`; on true the process-wide capacity becomes `cap`, on false it is
left unchanged; at program start, and after any calls none of which is a
configure call, the process-wide capacity is `1024 * 1024`. -/
theorem oe_configure_arena_capacity_spec (cap : Nat) (s : ArenaState) :
    ((oe_configure_arena_capacity cap s).1 = true ↔ cap ≤ 2 ^ 30) ∧
    ((oe_configure_arena_capacity cap s).1 = true →
      (oe_configure_arena_capacity cap s).2.capacity = cap) ∧
    ((oe_configure_arena_capacity cap s).1 = false →
      (oe_configure_arena_capacity cap s).2.capacity = s.capacity) ∧
    (∀ (align : Nat) (mem : Nat → Nat) (ops : List ArenaOp),
      (∀ op ∈ ops, op.isConfigure = false) →
      (arena_run align ops (arena_init mem)).capacity = 1024 * 1024) := by
  have h2 : (2 : Nat) ^ 30 = 1073741824 := by norm_num
  unfold oe_configure_arena_capacity
  rw [max_capacity_eq, h2]
  refine ⟨?_, ?_, ?_, ?_⟩
  · by_cases hc : cap > 1073741824
    · rw [if_pos hc]
      constructor
      · intro h; exact absurd h Bool.false_ne_true
      · intro h; omega
    · rw [if_neg hc]
      exact ⟨fun _ => by omega, fun _ => rfl⟩
  · by_cases hc : cap > 1073741824
    · rw [if_pos hc]
      intro h; exact absurd h Bool.false_ne_true
    · rw [if_neg hc]
      intro _; rfl
  · by_cases hc : cap > 1073741824
    · rw [if_pos hc]
      intro _; rfl
    · rw [if_neg hc]
      intro h; exact Bool.noConfusion h
  · intro align mem ops hnc
    rw [arena_run_capacity align ops _ hnc]
    rfl

/-- Claim C6 at concrete values: `2^30` is accepted and becomes the capacity,
`2^30 + 1` is refused and the default of 1 MiB stays. -/
theorem oe_configure_arena_capacity_spec_witness :
    (oe_configure_arena_capacity (2 ^ 30) (arena_init (fun _ => 0))).1 = true ∧
    (oe_configure_arena_capacity (2 ^ 30) (arena_init (fun _ => 0))).2.capacity = 2 ^ 30 ∧
    (oe_configure_arena_capacity (2 ^ 30 + 1) (arena_init (fun _ => 0))).1 = false ∧
    (oe_configure_arena_capacity (2 ^ 30 + 1) (arena_init (fun _ => 0))).2.capacity =
      1024 * 1024 :=
  ⟨by decide,
    (oe_configure_arena_capacity_spec (2 ^ 30) (arena_init (fun _ => 0))).2.1 (by decide),
    by decide,
    (oe_configure_arena_capacity_spec (2 ^ 30 + 1) (arena_init (fun _ => 0))).2.2.1
      (by decide)⟩

/-! ## Reconfiguring while an arena exists -/

theorem oe_arena_malloc_bump_congr (align size : Nat) (s t : ArenaState)
    (h : s.arena = t.arena) :
    (oe_arena_malloc_bump align size s).1 = (oe_arena_malloc_bump align size t).1 ∧
    (oe_arena_malloc_bump align size s).2.arena = (oe_arena_malloc_bump align size t).2.arena ∧
    (oe_arena_malloc_bump align size s).2.arena.buffer = s.arena.buffer ∧
    (oe_arena_malloc_bump align size s).2.arena.capacity = s.arena.capacity := by
  unfold oe_arena_malloc_bump
  rw [h]
  simp only []
  split
  · exact ⟨rfl, h, by rw [h], by rw [h]⟩
  · split
    · exact ⟨rfl, h, by rw [h], by rw [h]⟩
    · split
      · exact ⟨rfl, rfl, rfl, rfl⟩
      · exact ⟨rfl, h, by rw [h], by rw [h]⟩

/-- On a materialized arena an allocation request reads nothing but the arena
record. -/
theorem AllocReq.exec_congr (align : Nat) (q : AllocReq) (s t : ArenaState)
    (h : s.arena = t.arena) (hb : s.arena.buffer ≠ 0) :
    (q.exec align s).1 = (q.exec align t).1 ∧
    (q.exec align s).2.arena = (q.exec align t).2.arena ∧
    (q.exec align s).2.arena.buffer = s.arena.buffer ∧
    (q.exec align s).2.arena.capacity = s.arena.capacity := by
  have hbt : t.arena.buffer ≠ 0 := by rw [← h]; exact hb
  have key : ∀ (alloc : Nat → Nat) (size : Nat),
      (oe_arena_malloc align alloc size s).1 = (oe_arena_malloc align alloc size t).1 ∧
      (oe_arena_malloc align alloc size s).2.arena =
        (oe_arena_malloc align alloc size t).2.arena ∧
      (oe_arena_malloc align alloc size s).2.arena.buffer = s.arena.buffer ∧
      (oe_arena_malloc align alloc size s).2.arena.capacity = s.arena.capacity := by
    intro alloc size
    unfold oe_arena_malloc
    simp only [hb, hbt, if_false]
    exact oe_arena_malloc_bump_congr align size _ _ h
  cases q with
  | malloc alloc size => exact key alloc size
  | calloc alloc num size =>
    by_cases ho : num * size < SIZE_MOD
    · have hs := oe_arena_calloc_arena align alloc num size s ho
      have ht := oe_arena_calloc_arena align alloc num size t ho
      simp only [AllocReq.exec]
      rw [hs.1, hs.2.1, ht.1, ht.2.1]
      exact key alloc (num * size)
    · simp only [AllocReq.exec]
      rw [oe_arena_calloc_overflow align alloc num size s ho,
        oe_arena_calloc_overflow align alloc num size t ho]
      exact ⟨rfl, h, rfl, rfl⟩

theorem arena_returns_congr (align : Nat) (reqs : List AllocReq) (s t : ArenaState)
    (h : s.arena = t.arena) (hb : s.arena.buffer ≠ 0) :
    arena_returns align reqs s = arena_returns align reqs t := by
  induction reqs generalizing s t with
  | nil => rfl
  | cons q qs ih =>
    have hq := AllocReq.exec_congr align q s t h hb
    simp only [arena_returns]
    rw [hq.1, ih _ _ hq.2.1 (by rw [hq.2.2.1]; exact hb)]

/-- Claim C7.  `oe_configure_arena_capacity(cap)` leaves the arena record
(buffer, capacity, used) as it is; when the arena is materialized, every later
sequence of `oe_arena_malloc` / `oe_arena_calloc` calls returns exactly what
it would have returned without the configure call, whatever `cap` was, and
each such call leaves the arena's capacity at its original value; an accepted
`cap` is the capacity of the arena that is materialized after a teardown. -/
theorem oe_configure_arena_capacity_frame (align cap : Nat) (s : ArenaState)
    (hb : s.arena.buffer ≠ 0) :
    (oe_configure_arena_capacity cap s).2.arena = s.arena ∧
    (∀ reqs : List AllocReq,
      arena_returns align reqs (oe_configure_arena_capacity cap s).2 =
        arena_returns align reqs s) ∧
    (∀ q : AllocReq,
      (q.exec align (oe_configure_arena_capacity cap s).2).2.arena.capacity =
        s.arena.capacity) ∧
    ((oe_configure_arena_capacity cap s).1 = true →
      ∀ (alloc : Nat → Nat) (size : Nat), alloc cap ≠ 0 →
        (oe_arena_malloc align alloc size
          (oe_teardown_arena (oe_configure_arena_capacity cap s).2)).2.arena.capacity = cap) := by
  have harena : (oe_configure_arena_capacity cap s).2.arena = s.arena := by
    unfold oe_configure_arena_capacity
    split <;> rfl
  have hb' : (oe_configure_arena_capacity cap s).2.arena.buffer ≠ 0 := by
    rw [harena]; exact hb
  refine ⟨harena, ?_, ?_, ?_⟩
  · intro reqs
    exact arena_returns_congr align reqs _ _ harena hb'
  · intro q
    rw [(AllocReq.exec_congr align q _ s harena hb').2.2.2, harena]
  · intro hacc alloc size halloc
    have hcap : (oe_teardown_arena (oe_configure_arena_capacity cap s).2).capacity = cap := by
      rw [oe_teardown_arena_capacity]
      unfold oe_configure_arena_capacity at hacc ⊢
      split
      · rename_i hc; rw [if_pos hc] at hacc; exact absurd hacc Bool.false_ne_true
      · rfl
    have hbuf : (oe_teardown_arena (oe_configure_arena_capacity cap s).2).arena.buffer = 0 := by
      unfold oe_teardown_arena; rfl
    unfold oe_arena_malloc
    simp only [hbuf, hcap, halloc, if_true, if_false]
    exact (oe_arena_malloc_bump_congr align size _ _ rfl).2.2.2

/-- Claim C7 at a concrete state: a 1 MiB arena at address 4096 with 112 bytes
in use; reconfiguring to 64 bytes changes nothing for it, and a request of
1000 bytes still succeeds. -/
theorem oe_configure_arena_capacity_frame_witness :
    (oe_arena_malloc 16 (fun _ => 4096) 100 (arena_init (fun _ => 0))).2.arena.buffer ≠ 0 ∧
    (oe_configure_arena_capacity 64
      (oe_arena_malloc 16 (fun _ => 4096) 100 (arena_init (fun _ => 0))).2).2.arena =
      (oe_arena_malloc 16 (fun _ => 4096) 100 (arena_init (fun _ => 0))).2.arena ∧
    arena_returns 16 [AllocReq.malloc (fun _ => 4096) 1000]
      (oe_configure_arena_capacity 64
        (oe_arena_malloc 16 (fun _ => 4096) 100 (arena_init (fun _ => 0))).2).2 =
      arena_returns 16 [AllocReq.malloc (fun _ => 4096) 1000]
        (oe_arena_malloc 16 (fun _ => 4096) 100 (arena_init (fun _ => 0))).2 ∧
    arena_returns 16 [AllocReq.malloc (fun _ => 4096) 1000]
      (oe_arena_malloc 16 (fun _ => 4096) 100 (arena_init (fun _ => 0))).2 = [4208] :=
  ⟨by decide,
    (oe_configure_arena_capacity_frame 16 64
      (oe_arena_malloc 16 (fun _ => 4096) 100 (arena_init (fun _ => 0))).2 (by decide)).1,
    (oe_configure_arena_capacity_frame 16 64
      (oe_arena_malloc 16 (fun _ => 4096) 100 (arena_init (fun _ => 0))).2 (by decide)).2.1
      [AllocReq.malloc (fun _ => 4096) 1000],
    by decide⟩

/-! ## Allocating the full capacity after a reset -/

/-- Claim C8 fails as stated.  With alignment 16 and a capacity of 100 bytes
(accepted by `oe_configure_arena_capacity`), the arena materialized at 4096
refuses `oe_arena_malloc(100)` right after `oe_arena_free_all`, because 100 is
rounded to 112.  With a capacity of 0 (also accepted), an arena materialized
at 4096 grants `oe_arena_malloc(0)` twice in a row. -/
theorem full_capacity_alloc_counterexample :
    ((oe_configure_arena_capacity 100 (arena_init (fun _ => 0))).1 = true ∧
     (arena_run 16 [ArenaOp.configure 100, ArenaOp.malloc (fun _ => 4096) 8]
        (arena_init (fun _ => 0))).arena = { buffer := 4096, capacity := 100, used := 16 } ∧
     (oe_arena_malloc 16 (fun _ => 4096) 100
        (oe_arena_free_all
          (arena_run 16 [ArenaOp.configure 100, ArenaOp.malloc (fun _ => 4096) 8]
            (arena_init (fun _ => 0))))).1 = 0) ∧
    ((oe_configure_arena_capacity 0 (arena_init (fun _ => 0))).1 = true ∧
     (arena_run 16 [ArenaOp.configure 0, ArenaOp.malloc (fun _ => 4096) 0]
        (arena_init (fun _ => 0))).arena = { buffer := 4096, capacity := 0, used := 0 } ∧
     (oe_arena_malloc 16 (fun _ => 4096) 0
        (oe_arena_free_all
          (arena_run 16 [ArenaOp.configure 0, ArenaOp.malloc (fun _ => 4096) 0]
            (arena_init (fun _ => 0))))).1 = 4096 ∧
     (oe_arena_malloc 16 (fun _ => 4096) 0
        (oe_arena_malloc 16 (fun _ => 4096) 0
          (oe_arena_free_all
            (arena_run 16 [ArenaOp.configure 0, ArenaOp.malloc (fun _ => 4096) 0]
              (arena_init (fun _ => 0))))).2).1 = 4096) := by
  decide

/-- Claim C8, amended.  For a materialized arena whose capacity `c` is
accepted by `oe_configure_arena_capacity`, is positive and is a multiple of
the alignment, whatever `used` is: after `oe_arena_free_all`,
`oe_arena_malloc(c)` returns the non-null start of the buffer, and an
immediately following `oe_arena_malloc(c)` returns NULL. -/
theorem full_capacity_alloc_once (align : Nat) (hm : 0 < align) (hM : align < SIZE_MOD)
    (s : ArenaState) (hb : s.arena.buffer ≠ 0)
    (hacc : (oe_configure_arena_capacity s.arena.capacity s).1 = true)
    (hpos : 0 < s.arena.capacity) (hdvd : align ∣ s.arena.capacity)
    (alloc alloc2 : Nat → Nat) :
    (oe_arena_malloc align alloc s.arena.capacity (oe_arena_free_all s)).1 ≠ 0 ∧
    (oe_arena_malloc align alloc s.arena.capacity (oe_arena_free_all s)).1 = s.arena.buffer ∧
    (oe_arena_malloc align alloc2 s.arena.capacity
      (oe_arena_malloc align alloc s.arena.capacity (oe_arena_free_all s)).2).1 = 0 := by
  have hle : s.arena.capacity ≤ 1073741824 :=
    oe_configure_arena_capacity_accepts s.arena.capacity s hacc
  have hal : align ≤ s.arena.capacity := Nat.le_of_dvd hpos hdvd
  have hr : round_up s.arena.capacity align = s.arena.capacity :=
    round_up_of_dvd _ _ hm hdvd
  have hS := SIZE_MOD_eq
  have first : oe_arena_malloc align alloc s.arena.capacity (oe_arena_free_all s) =
      (s.arena.buffer,
        { s with
          arena := { s.arena with used := s.arena.capacity }
          log := s.log ++ [ArenaCall.malloc_entry s.arena.capacity] }) := by
    unfold oe_arena_malloc oe_arena_free_all
    simp only [hb, if_false]
    rw [oe_arena_malloc_bump_eq align _ _ hm hM]
    simp only [hr, Nat.zero_add, Nat.add_zero]
    rw [if_pos ⟨by omega, by omega, Nat.le_refl _⟩]
  rw [first]
  refine ⟨hb, rfl, ?_⟩
  unfold oe_arena_malloc
  simp only [hb, if_false]
  rw [oe_arena_malloc_bump_eq align _ _ hm hM]
  simp only [hr]
  rw [if_neg (by omega)]

/-- The amended claim C8 at a concrete state: alignment 16, a 1 MiB arena at
address 4096 with 112 bytes in use. -/
theorem full_capacity_alloc_once_witness :
    (0 < 16 ∧ 16 < SIZE_MOD) ∧
    (oe_arena_malloc 16 (fun _ => 4096) 100 (arena_init (fun _ => 0))).2.arena =
      { buffer := 4096, capacity := 1048576, used := 112 } ∧
    (oe_arena_malloc 16 (fun _ => 0) 1048576
      (oe_arena_free_all
        (oe_arena_malloc 16 (fun _ => 4096) 100 (arena_init (fun _ => 0))).2)).1 = 4096 ∧
    (oe_arena_malloc 16 (fun _ => 0) 1048576
      (oe_arena_malloc 16 (fun _ => 0) 1048576
        (oe_arena_free_all
          (oe_arena_malloc 16 (fun _ => 4096) 100 (arena_init (fun _ => 0))).2)).2).1 = 0 :=
  ⟨⟨by decide, by decide⟩, by decide,
    (full_capacity_alloc_once 16 (by decide) (by decide)
      (oe_arena_malloc 16 (fun _ => 4096) 100 (arena_init (fun _ => 0))).2
      (by decide) (by decide) (by decide) (by decide) (fun _ => 0) (fun _ => 0)).2.1,
    (full_capacity_alloc_once 16 (by decide) (by decide)
      (oe_arena_malloc 16 (fun _ => 4096) 100 (arena_init (fun _ => 0))).2
      (by decide) (by decide) (by decide) (by decide) (fun _ => 0) (fun _ => 0)).2.2⟩

/-! ## The INIT handshake -/

/-- Claim C9.  `_init_child` returns 0 exactly when the INIT request was sent,
a response was received, its status is 0 and the word at the base of the
shared heap equals `VE_SHMADDR_MAGIC`; it returns -1 otherwise.  The word the
child finds is the all-ones sentinel, written before the request is sent; so
when the magic value differs from the sentinel, a child that answers status 0
and leaves the word alone makes INIT fail. -/
theorem init_child_accepts (magic : Nat) (ex : Exchange) (child : Nat → Nat)
    (child_fd child_sock : Int) (s : HostState) :
    ((_init_child magic ex child child_fd child_sock s).1 = 0 ↔
      ex.send_ret = 0 ∧ ex.recv_ret = 0 ∧ ex.out_ret = 0 ∧
      (_init_child magic ex child child_fd child_sock s).2.shm_word = magic) ∧
    ((_init_child magic ex child child_fd child_sock s).1 ≠ 0 →
      (_init_child magic ex child child_fd child_sock s).1 = -1) ∧
    (ex.send_ret = 0 →
      (_init_child magic ex child child_fd child_sock s).2.shm_word =
        child 0xffffffffffffffff) ∧
    (magic ≠ 0xffffffffffffffff → ex.out_ret = 0 →
      child 0xffffffffffffffff = 0xffffffffffffffff →
      (_init_child magic ex child child_fd child_sock s).1 = -1) := by
  unfold _init_child SHM_SENTINEL
  by_cases h1 : ex.send_ret = 0
  · by_cases h2 : ex.recv_ret = 0
    · by_cases h3 : ex.out_ret = 0
      · by_cases h4 : child 0xffffffffffffffff = magic
        · simp [h1, h2, h3, h4]
        · simp [h1, h2, h3, h4]
      · simp [h1, h2, h3]
    · simp [h1, h2]
  · simp [h1]

/-- Claim C9 for a child that answers status 0 without touching the shared
heap, with a magic value of `0x1234`. -/
theorem init_child_accepts_witness :
    (0x1234 : Nat) ≠ 0xffffffffffffffff ∧
    (_init_child 0x1234 { send_ret := 0, recv_ret := 0, out_ret := 0 } (fun w => w) 5 4
      { globals := { shmid := 1, shmaddr := 4096, shmsize := 65536, sock := 3,
                     child_sock := 4, threads := fun _ => { sock := 0, child_sock := 0, tcs := 0 },
                     num_threads := 0 },
        shm_word := 0, log := [] }).1 = -1 :=
  ⟨by decide,
    (init_child_accepts 0x1234 { send_ret := 0, recv_ret := 0, out_ret := 0 } (fun w => w) 5 4
      { globals := { shmid := 1, shmaddr := 4096, shmsize := 65536, sock := 3,
                     child_sock := 4, threads := fun _ => { sock := 0, child_sock := 0, tcs := 0 },
                     num_threads := 0 },
        shm_word := 0, log := [] }).2.2.2 (by decide) rfl rfl⟩

/-! ## Ordered termination -/

theorem terminate_threads_step_ok (reply : Nat → Exchange) (g : globals_t) (n i : Nat)
    (log : List HostEvent) (h : (reply i).ok) :
    _terminate_child_threads reply g (n + 1) i log =
      _terminate_child_threads reply g n (i + 1)
        (log ++ terminate_ok_events (g.threads i).sock (g.threads i).child_sock) := by
  obtain ⟨h1, h2, h3⟩ := h
  simp [_terminate_child_threads, terminate_ok_events, h1, h2, h3]

theorem terminate_threads_step_fail (reply : Nat → Exchange) (g : globals_t) (n i : Nat)
    (log : List HostEvent) (h : ¬ (reply i).ok) :
    _terminate_child_threads reply g (n + 1) i log =
      (false, log ++ terminate_failed_events (g.threads i).sock (reply i)) := by
  unfold Exchange.ok at h
  by_cases h1 : (reply i).send_ret = 0
  · by_cases h2 : (reply i).recv_ret = 0
    · have h3 : (reply i).out_ret ≠ 0 := fun h3 => h ⟨h1, h2, h3⟩
      simp [_terminate_child_threads, terminate_failed_events, h1, h2, h3]
    · simp [_terminate_child_threads, terminate_failed_events, h1, h2]
  · simp [_terminate_child_threads, terminate_failed_events, h1]

/-- When every remaining channel answers success the loop runs to its end. -/
theorem terminate_threads_all_ok (reply : Nat → Exchange) (g : globals_t) (n i : Nat)
    (log : List HostEvent) (h : ∀ j, j < n → (reply (i + j)).ok) :
    _terminate_child_threads reply g n i log =
      (true, log ++ terminate_prefix_events g i n) := by
  induction n generalizing i log with
  | zero => simp [_terminate_child_threads, terminate_prefix_events]
  | succ n ih =>
    rw [terminate_threads_step_ok reply g n i log (h 0 (Nat.succ_pos n))]
    rw [ih (i + 1) _ (fun j hj => by
      have := h (j + 1) (Nat.succ_lt_succ hj)
      rwa [show i + (j + 1) = i + 1 + j by omega] at this)]
    simp [terminate_prefix_events]

/-- The loop stops at the first channel that does not answer success. -/
theorem terminate_threads_first_fail (reply : Nat → Exchange) (g : globals_t) (n i k : Nat)
    (log : List HostEvent) (hk : k < n) (h : ∀ j, j < k → (reply (i + j)).ok)
    (hf : ¬ (reply (i + k)).ok) :
    _terminate_child_threads reply g n i log =
      (false, log ++ terminate_prefix_events g i k ++
        terminate_failed_events (g.threads (i + k)).sock (reply (i + k))) := by
  induction k generalizing n i log with
  | zero =>
    obtain ⟨n, rfl⟩ : ∃ m, n = m + 1 := ⟨n - 1, by omega⟩
    rw [terminate_threads_step_fail reply g n i log hf]
    simp [terminate_prefix_events]
  | succ k ih =>
    obtain ⟨n, rfl⟩ : ∃ m, n = m + 1 := ⟨n - 1, by omega⟩
    rw [terminate_threads_step_ok reply g n i log (h 0 (Nat.succ_pos k))]
    have hf' : ¬ (reply (i + 1 + k)).ok := by
      rwa [show i + 1 + k = i + (k + 1) by omega]
    rw [ih n (i + 1) _ (by omega) (fun j hj => by
      have := h (j + 1) (Nat.succ_lt_succ hj)
      rwa [show i + (j + 1) = i + 1 + j by omega] at this) hf']
    rw [show i + 1 + k = i + (k + 1) by omega]
    simp [terminate_prefix_events]

/-- The tail of `_terminate_child` after the loop has run to its end. -/
theorem terminate_child_of_threads_ok (reply : Nat → Exchange) (main_reply : Exchange)
    (s : HostState)
    (h : ∀ j, j < s.globals.num_threads → (reply j).ok) :
    (main_reply.ok →
      (_terminate_child reply main_reply s).1 = 0 ∧
      (_terminate_child reply main_reply s).2.log =
        s.log ++ terminate_prefix_events s.globals 0 s.globals.num_threads ++
          terminate_ok_events s.globals.sock s.globals.child_sock) ∧
    (¬ main_reply.ok →
      (_terminate_child reply main_reply s).1 = -1 ∧
      (_terminate_child reply main_reply s).2.log =
        s.log ++ terminate_prefix_events s.globals 0 s.globals.num_threads ++
          terminate_failed_events s.globals.sock main_reply) := by
  have hl := terminate_threads_all_ok reply s.globals s.globals.num_threads 0 s.log
    (fun j hj => by rw [Nat.zero_add]; exact h j hj)
  unfold _terminate_child
  rw [hl]
  constructor
  · rintro ⟨h1, h2, h3⟩
    simp [terminate_ok_events, h1, h2, h3]
  · intro hf
    unfold Exchange.ok at hf
    by_cases h1 : main_reply.send_ret = 0
    · by_cases h2 : main_reply.recv_ret = 0
      · have h3 : main_reply.out_ret ≠ 0 := fun h3 => hf ⟨h1, h2, h3⟩
        simp [terminate_failed_events, h1, h2, h3]
      · simp [terminate_failed_events, h1, h2]
    · simp [terminate_failed_events, h1]

theorem terminate_child_of_thread_fail (reply : Nat → Exchange) (main_reply : Exchange)
    (s : HostState) (k : Nat) (hk : k < s.globals.num_threads)
    (h : ∀ j, j < k → (reply j).ok) (hf : ¬ (reply k).ok) :
    (_terminate_child reply main_reply s).1 = -1 ∧
    (_terminate_child reply main_reply s).2.log =
      s.log ++ terminate_prefix_events s.globals 0 k ++
        terminate_failed_events (s.globals.threads k).sock (reply k) := by
  have hl := terminate_threads_first_fail reply s.globals s.globals.num_threads 0 k s.log hk
    (fun j hj => by rw [Nat.zero_add]; exact h j hj) (by rw [Nat.zero_add]; exact hf)
  rw [Nat.zero_add] at hl
  unfold _terminate_child
  rw [hl]
  simp

/-- Claim C10.  `_terminate_child` works through the thread table in order
and then the main channel.  If entry `k` is the first whose channel does not
answer success, the call returns -1 and its events are exactly: for each of
the entries `0 .. k-1` in order a send, a receive and the two closes; then the
send (and, if it went through, the receive) on entry `k`; nothing is sent to a
later entry or to the main channel and no socket of entry `k` or later is
closed.  If every thread channel answers success the main channel follows, and
the call returns 0 exactly when the main channel answers success too, its two
sockets being closed after the answer.  The table itself is not modified. -/
theorem terminate_child_ordered (reply : Nat → Exchange) (main_reply : Exchange)
    (s : HostState) :
    (∀ k, k < s.globals.num_threads → (∀ j, j < k → (reply j).ok) → ¬ (reply k).ok →
      (_terminate_child reply main_reply s).1 = -1 ∧
      (_terminate_child reply main_reply s).2.log =
        s.log ++ terminate_prefix_events s.globals 0 k ++
          terminate_failed_events (s.globals.threads k).sock (reply k)) ∧
    ((∀ j, j < s.globals.num_threads → (reply j).ok) → ¬ main_reply.ok →
      (_terminate_child reply main_reply s).1 = -1 ∧
      (_terminate_child reply main_reply s).2.log =
        s.log ++ terminate_prefix_events s.globals 0 s.globals.num_threads ++
          terminate_failed_events s.globals.sock main_reply) ∧
    ((∀ j, j < s.globals.num_threads → (reply j).ok) → main_reply.ok →
      (_terminate_child reply main_reply s).1 = 0 ∧
      (_terminate_child reply main_reply s).2.log =
        s.log ++ terminate_prefix_events s.globals 0 s.globals.num_threads ++
          terminate_ok_events s.globals.sock s.globals.child_sock) ∧
    ((_terminate_child reply main_reply s).1 = 0 ↔
      (∀ j, j < s.globals.num_threads → (reply j).ok) ∧ main_reply.ok) ∧
    (∀ (sock fd : Int) (e : Exchange), HostEvent.close fd ∉ terminate_failed_events sock e) ∧
    (_terminate_child reply main_reply s).2.globals = s.globals := by
  refine ⟨?_, ?_, ?_, ?_, ?_, ?_⟩
  · intro k hk hok hf
    exact terminate_child_of_thread_fail reply main_reply s k hk hok hf
  · intro hall hm
    exact (terminate_child_of_threads_ok reply main_reply s hall).2 hm
  · intro hall hm
    exact (terminate_child_of_threads_ok reply main_reply s hall).1 hm
  · constructor
    · intro hret
      have hall : ∀ j, j < s.globals.num_threads → (reply j).ok := by
        by_contra hne
        have hex : ∃ k, k < s.globals.num_threads ∧ ¬ (reply k).ok := by
          by_contra hno
          apply hne
          intro j hj
          by_contra hj'
          exact hno ⟨j, hj, hj'⟩
        have hmin : ∀ {m : Nat}, m < Nat.find hex →
            ¬ (m < s.globals.num_threads ∧ ¬ (reply m).ok) := fun hlt => Nat.find_min hex hlt
        obtain ⟨hk, hf⟩ := Nat.find_spec hex
        have hok : ∀ j, j < Nat.find hex → (reply j).ok := by
          intro j hj
          by_contra hj'
          exact hmin hj ⟨Nat.lt_trans hj hk, hj'⟩
        have := (terminate_child_of_thread_fail reply main_reply s _ hk hok hf).1
        rw [this] at hret
        exact absurd hret (by decide)
      refine ⟨hall, ?_⟩
      by_contra hm
      have := ((terminate_child_of_threads_ok reply main_reply s hall).2 hm).1
      rw [this] at hret
      exact absurd hret (by decide)
    · rintro ⟨hall, hm⟩
      exact ((terminate_child_of_threads_ok reply main_reply s hall).1 hm).1
  · intro sock fd e
    unfold terminate_failed_events
    split <;> simp
  · unfold _terminate_child
    simp only []
    repeat' split
    all_goals rfl

/-- Claim C10 on three provisioned threads whose second channel answers with
a failure status: the first channel is terminated and closed, the second is
sent TERMINATE and read, and nothing happens on the third or the main
channel. -/
theorem terminate_child_ordered_witness :
    (1 < three_thread_state.globals.num_threads ∧
     (∀ j, j < 1 → (second_thread_fails j).ok) ∧ ¬ (second_thread_fails 1).ok) ∧
    (_terminate_child second_thread_fails { send_ret := 0, recv_ret := 0, out_ret := 0 }
      three_thread_state).1 = -1 ∧
    (_terminate_child second_thread_fails { send_ret := 0, recv_ret := 0, out_ret := 0 }
      three_thread_state).2.log =
      three_thread_state.log ++ terminate_prefix_events three_thread_state.globals 0 1 ++
        terminate_failed_events (three_thread_state.globals.threads 1).sock
          (second_thread_fails 1) ∧
    (_terminate_child second_thread_fails { send_ret := 0, recv_ret := 0, out_ret := 0 }
      three_thread_state).2.log =
      [HostEvent.send_msg 10 ve_msg_type_t.VE_MSG_TERMINATE [],
       HostEvent.recv_msg 10 ve_msg_type_t.VE_MSG_TERMINATE,
       HostEvent.close 10, HostEvent.close 11,
       HostEvent.send_msg 12 ve_msg_type_t.VE_MSG_TERMINATE [],
       HostEvent.recv_msg 12 ve_msg_type_t.VE_MSG_TERMINATE] :=
  ⟨⟨by decide, by decide, by decide⟩,
    ((terminate_child_ordered second_thread_fails
      { send_ret := 0, recv_ret := 0, out_ret := 0 } three_thread_state).1 1
      (by decide) (by decide) (by decide)).1,
    ((terminate_child_ordered second_thread_fails
      { send_ret := 0, recv_ret := 0, out_ret := 0 } three_thread_state).1 1
      (by decide) (by decide) (by decide)).2,
    by decide⟩

/-! ## `oe_arena_calloc` as `oe_arena_malloc` plus zero-filling -/

theorem oe_arena_calloc_mem (align : Nat) (alloc : Nat → Nat) (num size : Nat)
    (s : ArenaState) (h : num * size < SIZE_MOD) :
    (oe_arena_calloc align alloc num size s).2.mem =
      if (oe_arena_malloc align alloc (num * size) s).1 ≠ 0 then
        memset_zero (oe_arena_malloc align alloc (num * size) s).1 (num * size) s.mem
      else s.mem := by
  have hf := (oe_arena_malloc_frame align alloc (num * size) s).2
  unfold oe_arena_calloc oe_safe_mul_sizet
  simp only [h, if_true]
  split
  · simp only [hf]
  · exact hf

/-- Claim C18.  When `num * size` fits in `size_t`, `oe_arena_calloc(num, size)`
returns the pointer `oe_arena_malloc(num * size)` returns from the same state
and leaves the same arena record, process-wide capacity and call log; it
returns NULL exactly when that malloc does; on success the `num * size` bytes
from the returned pointer on are zero and every other byte of memory is as
before; on failure no byte is modified. -/
theorem oe_arena_calloc_refines_malloc (align : Nat) (alloc : Nat → Nat) (num size : Nat)
    (s : ArenaState) (h : num * size < SIZE_MOD) :
    (oe_arena_calloc align alloc num size s).1 =
      (oe_arena_malloc align alloc (num * size) s).1 ∧
    (oe_arena_calloc align alloc num size s).2.arena =
      (oe_arena_malloc align alloc (num * size) s).2.arena ∧
    (oe_arena_calloc align alloc num size s).2.capacity =
      (oe_arena_malloc align alloc (num * size) s).2.capacity ∧
    (oe_arena_calloc align alloc num size s).2.log =
      (oe_arena_malloc align alloc (num * size) s).2.log ∧
    ((oe_arena_calloc align alloc num size s).1 = 0 ↔
      (oe_arena_malloc align alloc (num * size) s).1 = 0) ∧
    ((oe_arena_calloc align alloc num size s).1 ≠ 0 →
      (∀ a, (oe_arena_calloc align alloc num size s).1 ≤ a →
        a < (oe_arena_calloc align alloc num size s).1 + num * size →
        (oe_arena_calloc align alloc num size s).2.mem a = 0) ∧
      (∀ a, ¬ ((oe_arena_calloc align alloc num size s).1 ≤ a ∧
          a < (oe_arena_calloc align alloc num size s).1 + num * size) →
        (oe_arena_calloc align alloc num size s).2.mem a = s.mem a)) ∧
    ((oe_arena_calloc align alloc num size s).1 = 0 →
      (oe_arena_calloc align alloc num size s).2.mem = s.mem) := by
  have hc := oe_arena_calloc_arena align alloc num size s h
  have hmem := oe_arena_calloc_mem align alloc num size s h
  refine ⟨hc.1, hc.2.1, hc.2.2.1, hc.2.2.2, by rw [hc.1], ?_, ?_⟩
  · intro hne
    rw [hc.1] at hne ⊢
    rw [hmem, if_pos hne]
    constructor
    · intro a h1 h2
      simp [memset_zero, h1, h2]
    · intro a hout
      simp only [memset_zero]
      rw [if_neg hout]
  · intro h0
    rw [hc.1] at h0
    rw [hmem, if_neg (by simpa using h0)]

/-- Claim C18 at program start: `oe_arena_calloc(3, 5)` with alignment 16 on
a memory full of ones, the arena being materialized at address 4096. -/
theorem oe_arena_calloc_refines_malloc_witness :
    3 * 5 < SIZE_MOD ∧
    (oe_arena_calloc 16 (fun _ => 4096) 3 5 (arena_init (fun _ => 1))).1 = 4096 ∧
    (oe_arena_calloc 16 (fun _ => 4096) 3 5 (arena_init (fun _ => 1))).1 =
      (oe_arena_malloc 16 (fun _ => 4096) (3 * 5) (arena_init (fun _ => 1))).1 ∧
    (oe_arena_calloc 16 (fun _ => 4096) 3 5 (arena_init (fun _ => 1))).2.arena =
      (oe_arena_malloc 16 (fun _ => 4096) (3 * 5) (arena_init (fun _ => 1))).2.arena ∧
    (oe_arena_calloc 16 (fun _ => 4096) 3 5 (arena_init (fun _ => 1))).2.mem 4110 = 0 ∧
    (oe_arena_calloc 16 (fun _ => 4096) 3 5 (arena_init (fun _ => 1))).2.mem 4111 = 1 :=
  ⟨by decide, by decide,
    (oe_arena_calloc_refines_malloc 16 (fun _ => 4096) 3 5 (arena_init (fun _ => 1))
      (by decide)).1,
    (oe_arena_calloc_refines_malloc 16 (fun _ => 4096) 3 5 (arena_init (fun _ => 1))
      (by decide)).2.1,
    ((oe_arena_calloc_refines_malloc 16 (fun _ => 4096) 3 5 (arena_init (fun _ => 1))
      (by decide)).2.2.2.2.2.1 (by decide)).1 4110 (by decide) (by decide),
    by decide⟩

/-! ## Teardown -/

/-- Claim C19.  After `oe_teardown_arena` the arena record is all zero
(`buffer = NULL`, `capacity = 0`, `used = 0`); `oe_deallocate_arena` is called
exactly once, with the old buffer, when that buffer was non-null, and not at
all otherwise, so a second teardown in a row calls nothing; the process-wide
capacity is kept, and the next `oe_arena_malloc`, also after a configure call
in between, asks the region provider for the then-current process-wide
capacity and materializes the arena with it. -/
theorem oe_teardown_arena_clears (s : ArenaState) :
    (oe_teardown_arena s).arena = { buffer := 0, capacity := 0, used := 0 } ∧
    (s.arena.buffer ≠ 0 →
      (oe_teardown_arena s).log = s.log ++ [ArenaCall.deallocate_arena s.arena.buffer]) ∧
    (s.arena.buffer = 0 → (oe_teardown_arena s).log = s.log) ∧
    (oe_teardown_arena (oe_teardown_arena s)).log = (oe_teardown_arena s).log ∧
    (oe_teardown_arena s).capacity = s.capacity ∧
    (∀ (align cap : Nat) (alloc : Nat → Nat) (size : Nat) (t : ArenaState),
      (t = oe_teardown_arena s ∨ t = (oe_configure_arena_capacity cap (oe_teardown_arena s)).2) →
      (oe_arena_malloc align alloc size t).2.log =
        t.log ++ [ArenaCall.malloc_entry size,
          ArenaCall.allocate_arena t.capacity (alloc t.capacity)] ∧
      (alloc t.capacity ≠ 0 →
        (oe_arena_malloc align alloc size t).2.arena.buffer = alloc t.capacity ∧
        (oe_arena_malloc align alloc size t).2.arena.capacity = t.capacity)) := by
  have harena : (oe_teardown_arena s).arena = { buffer := 0, capacity := 0, used := 0 } := by
    unfold oe_teardown_arena; rfl
  refine ⟨harena, ?_, ?_, ?_, oe_teardown_arena_capacity s, ?_⟩
  · intro hb
    unfold oe_teardown_arena
    simp [hb]
  · intro hb
    unfold oe_teardown_arena
    simp [hb]
  · have h2 : (oe_teardown_arena s).arena.buffer = 0 := by rw [harena]
    generalize oe_teardown_arena s = t at h2
    unfold oe_teardown_arena
    simp [h2]
  · intro align cap alloc size t ht
    have hb : t.arena.buffer = 0 := by
      rcases ht with rfl | rfl
      · rw [harena]
      · unfold oe_configure_arena_capacity
        split
        · show (oe_teardown_arena s).arena.buffer = 0
          rw [harena]
        · show (oe_teardown_arena s).arena.buffer = 0
          rw [harena]
    constructor
    · unfold oe_arena_malloc oe_arena_malloc_bump
      simp only [hb, if_true]
      repeat' split
      all_goals simp
    · intro ha
      unfold oe_arena_malloc
      simp only [hb, ha, if_true, if_false]
      exact ⟨(oe_arena_malloc_bump_congr align size _ _ rfl).2.2.1,
        (oe_arena_malloc_bump_congr align size _ _ rfl).2.2.2⟩

/-- Claim C19 on a materialized arena: teardown releases the buffer at 4096
once, and a malloc after reconfiguring to 64 bytes materializes a 64-byte
arena at 8192. -/
theorem oe_teardown_arena_clears_witness :
    (oe_arena_malloc 16 (fun _ => 4096) 100 (arena_init (fun _ => 0))).2.arena.buffer ≠ 0 ∧
    (oe_teardown_arena
      (oe_arena_malloc 16 (fun _ => 4096) 100 (arena_init (fun _ => 0))).2).log =
      (oe_arena_malloc 16 (fun _ => 4096) 100 (arena_init (fun _ => 0))).2.log ++
        [ArenaCall.deallocate_arena
          (oe_arena_malloc 16 (fun _ => 4096) 100 (arena_init (fun _ => 0))).2.arena.buffer] ∧
    (oe_teardown_arena
      (oe_arena_malloc 16 (fun _ => 4096) 100 (arena_init (fun _ => 0))).2).log =
      [ArenaCall.malloc_entry 100, ArenaCall.allocate_arena 1048576 4096,
       ArenaCall.deallocate_arena 4096] ∧
    (oe_arena_malloc 16 (fun _ => 8192) 8
      (oe_configure_arena_capacity 64
        (oe_teardown_arena
          (oe_arena_malloc 16 (fun _ => 4096) 100 (arena_init (fun _ => 0))).2)).2).2.arena =
      { buffer := 8192, capacity := 64, used := 16 } :=
  ⟨by decide,
    (oe_teardown_arena_clears
      (oe_arena_malloc 16 (fun _ => 4096) 100 (arena_init (fun _ => 0))).2).2.1 (by decide),
    by decide, by decide⟩

/-! ## Pinging a thread -/

theorem ping_thread_select_none (g : globals_t) (tcs : Int) (n i : Nat)
    (h : ∀ j, j < n → (g.threads (i + j)).tcs ≠ tcs) :
    _ping_thread_select g tcs n i = -1 := by
  induction n generalizing i with
  | zero => rfl
  | succ n ih =>
    have h0 : (g.threads i).tcs ≠ tcs := by simpa using h 0 (Nat.succ_pos n)
    simp only [_ping_thread_select, h0, if_false]
    apply ih
    intro j hj
    have := h (j + 1) (Nat.succ_lt_succ hj)
    rwa [show i + (j + 1) = i + 1 + j by omega] at this

theorem ping_thread_select_first (g : globals_t) (tcs : Int) (n i k : Nat) (hk : k < n)
    (h : ∀ j, j < k → (g.threads (i + j)).tcs ≠ tcs) (hm : (g.threads (i + k)).tcs = tcs) :
    _ping_thread_select g tcs n i = (g.threads (i + k)).sock := by
  induction k generalizing n i with
  | zero =>
    obtain ⟨n, rfl⟩ : ∃ m, n = m + 1 := ⟨n - 1, by omega⟩
    have hm' : (g.threads i).tcs = tcs := by simpa using hm
    simp [_ping_thread_select, hm']
  | succ k ih =>
    obtain ⟨n, rfl⟩ : ∃ m, n = m + 1 := ⟨n - 1, by omega⟩
    have h0 : (g.threads i).tcs ≠ tcs := by simpa using h 0 (Nat.succ_pos k)
    simp only [_ping_thread_select, h0, if_false]
    rw [ih n (i + 1) (by omega) (fun j hj => by
      have := h (j + 1) (Nat.succ_lt_succ hj)
      rwa [show i + (j + 1) = i + 1 + j by omega] at this)
      (by rwa [show i + 1 + k = i + (k + 1) by omega])]
    rw [show i + 1 + k = i + (k + 1) by omega]

/-- What `_ping_thread` does once the selection loop has found `sock`. -/
theorem ping_thread_of_select (env : PingEnv) (tcs : Int) (s : HostState) (sock : Int)
    (hsel : _ping_thread_select s.globals tcs s.globals.num_threads 0 = sock)
    (hsock : sock ≠ -1) :
    ((_ping_thread env tcs s).1 = 0 ↔
      env.malloc_ret ≠ 0 ∧ env.ex.send_ret = 0 ∧ env.ex.recv_ret = 0 ∧ env.ex.out_ret = 0 ∧
      env.out_value = env.rand sock) ∧
    ((_ping_thread env tcs s).1 ≠ 0 → (_ping_thread env tcs s).1 = -1) ∧
    (_ping_thread env tcs s).2.globals = s.globals ∧
    (env.malloc_ret ≠ 0 →
      (_ping_thread env tcs s).2.log =
        s.log ++ [HostEvent.lock, HostEvent.unlock, HostEvent.host_malloc 5 env.malloc_ret,
          HostEvent.send_msg sock ve_msg_type_t.VE_MSG_PING_THREAD
            [env.rand sock, env.malloc_ret]] ++
        (if env.ex.send_ret = 0 then
          [HostEvent.recv_msg sock ve_msg_type_t.VE_MSG_PING_THREAD] else []) ++
        [HostEvent.host_free env.malloc_ret]) ∧
    (env.malloc_ret = 0 →
      (_ping_thread env tcs s).2.log =
        s.log ++ [HostEvent.lock, HostEvent.unlock, HostEvent.host_malloc 5 0]) := by
  unfold _ping_thread
  simp only [hsel, hsock, if_false]
  by_cases h0 : env.malloc_ret = 0
  · simp [h0]
  · by_cases h1 : env.ex.send_ret = 0
    · by_cases h2 : env.ex.recv_ret = 0
      · by_cases h3 : env.ex.out_ret = 0
        · by_cases h4 : env.out_value = env.rand sock
          · simp [h0, h1, h2, h3, h4]
          · simp [h0, h1, h2, h3, h4]
        · simp [h0, h1, h2, h3]
      · simp [h0, h1, h2]
    · simp [h0, h1]

/-- Claim C11.  When `tcs` is the id of a recorded entry and the recorded
sockets are valid descriptors (not `-1`), `_ping_thread(tcs)` works on the
socket of the first entry with that id: it returns 0 exactly when the
shared-heap allocation, the send and the receive succeed, the response status
is 0 and the echoed value equals the value sent, and -1 otherwise; the
message it sends on that socket carries the value and the buffer; it returns
to its caller with the table unchanged and the buffer freed. -/
theorem ping_thread_roundtrip (env : PingEnv) (tcs : Int) (s : HostState)
    (hpresent : ∃ i, i < s.globals.num_threads ∧ (s.globals.threads i).tcs = tcs)
    (hvalid : ∀ i, i < s.globals.num_threads → (s.globals.threads i).sock ≠ -1) :
    ∃ k, k < s.globals.num_threads ∧ (s.globals.threads k).tcs = tcs ∧
      (∀ j, j < k → (s.globals.threads j).tcs ≠ tcs) ∧
      ((_ping_thread env tcs s).1 = 0 ↔
        env.malloc_ret ≠ 0 ∧ env.ex.send_ret = 0 ∧ env.ex.recv_ret = 0 ∧
        env.ex.out_ret = 0 ∧ env.out_value = env.rand (s.globals.threads k).sock) ∧
      ((_ping_thread env tcs s).1 ≠ 0 → (_ping_thread env tcs s).1 = -1) ∧
      (_ping_thread env tcs s).2.globals = s.globals ∧
      (env.malloc_ret ≠ 0 →
        (_ping_thread env tcs s).2.log =
          s.log ++ [HostEvent.lock, HostEvent.unlock, HostEvent.host_malloc 5 env.malloc_ret,
            HostEvent.send_msg (s.globals.threads k).sock ve_msg_type_t.VE_MSG_PING_THREAD
              [env.rand (s.globals.threads k).sock, env.malloc_ret]] ++
          (if env.ex.send_ret = 0 then
            [HostEvent.recv_msg (s.globals.threads k).sock ve_msg_type_t.VE_MSG_PING_THREAD]
           else []) ++
          [HostEvent.host_free env.malloc_ret]) ∧
      (env.malloc_ret = 0 →
        (_ping_thread env tcs s).2.log =
          s.log ++ [HostEvent.lock, HostEvent.unlock, HostEvent.host_malloc 5 0]) := by
  have hk := Nat.find_spec hpresent
  have hmin : ∀ j, j < Nat.find hpresent → (s.globals.threads j).tcs ≠ tcs := by
    intro j hj hc
    exact Nat.find_min hpresent hj ⟨Nat.lt_trans hj hk.1, hc⟩
  have hsel := ping_thread_select_first s.globals tcs s.globals.num_threads 0
    (Nat.find hpresent) hk.1 (fun j hj => by rw [Nat.zero_add]; exact hmin j hj)
    (by rw [Nat.zero_add]; exact hk.2)
  rw [Nat.zero_add] at hsel
  exact ⟨Nat.find hpresent, hk.1, hk.2, hmin,
    ping_thread_of_select env tcs s _ hsel (hvalid _ hk.1)⟩

/-- Claim C12.  When `tcs` is the id of none of the `num_threads` recorded
entries, `_ping_thread(tcs)` returns -1 having done nothing but take and
release the table lock: no message is sent, nothing is allocated from the
shared heap, and `globals` (the table and `num_threads` included) is
unchanged. -/
theorem ping_thread_unknown (env : PingEnv) (tcs : Int) (s : HostState)
    (h : ∀ i, i < s.globals.num_threads → (s.globals.threads i).tcs ≠ tcs) :
    (_ping_thread env tcs s).1 = -1 ∧
    (_ping_thread env tcs s).2.globals = s.globals ∧
    (_ping_thread env tcs s).2.shm_word = s.shm_word ∧
    (_ping_thread env tcs s).2.log = s.log ++ [HostEvent.lock, HostEvent.unlock] := by
  have hsel := ping_thread_select_none s.globals tcs s.globals.num_threads 0
    (fun j hj => by rw [Nat.zero_add]; exact h j hj)
  unfold _ping_thread
  simp [hsel]

/-- Claim C11 on three provisioned threads: pinging id 1 uses socket 12, and
succeeds when 42 is echoed. -/
theorem ping_thread_roundtrip_witness :
    ((∃ i, i < three_thread_state.globals.num_threads ∧
        (three_thread_state.globals.threads i).tcs = 1) ∧
     (∀ i, i < three_thread_state.globals.num_threads →
        (three_thread_state.globals.threads i).sock ≠ -1)) ∧
    (∃ k, k < three_thread_state.globals.num_threads ∧
      (three_thread_state.globals.threads k).tcs = 1 ∧
      (∀ j, j < k → (three_thread_state.globals.threads j).tcs ≠ 1) ∧
      ((_ping_thread (demo_ping 42) 1 three_thread_state).1 = 0 ↔
        (demo_ping 42).malloc_ret ≠ 0 ∧ (demo_ping 42).ex.send_ret = 0 ∧
        (demo_ping 42).ex.recv_ret = 0 ∧ (demo_ping 42).ex.out_ret = 0 ∧
        (demo_ping 42).out_value =
          (demo_ping 42).rand (three_thread_state.globals.threads k).sock)) ∧
    (_ping_thread (demo_ping 42) 1 three_thread_state).1 = 0 ∧
    (_ping_thread (demo_ping 41) 1 three_thread_state).1 = -1 ∧
    (_ping_thread (demo_ping 42) 1 three_thread_state).2.log =
      [HostEvent.lock, HostEvent.unlock, HostEvent.host_malloc 5 8192,
       HostEvent.send_msg 12 ve_msg_type_t.VE_MSG_PING_THREAD [42, 8192],
       HostEvent.recv_msg 12 ve_msg_type_t.VE_MSG_PING_THREAD,
       HostEvent.host_free 8192] :=
  ⟨⟨by decide, by decide⟩,
    (ping_thread_roundtrip (demo_ping 42) 1 three_thread_state (by decide) (by decide)).imp
      (fun _ h => ⟨h.1, h.2.1, h.2.2.1, h.2.2.2.1⟩),
    by decide, by decide, by decide⟩

/-- Claim C12 on three provisioned threads with ids 0, 1, 2: pinging id 7. -/
theorem ping_thread_unknown_witness :
    (∀ i, i < three_thread_state.globals.num_threads →
      (three_thread_state.globals.threads i).tcs ≠ 7) ∧
    (_ping_thread (demo_ping 42) 7 three_thread_state).1 = -1 ∧
    (_ping_thread (demo_ping 42) 7 three_thread_state).2.log =
      three_thread_state.log ++ [HostEvent.lock, HostEvent.unlock] :=
  ⟨by decide,
    (ping_thread_unknown (demo_ping 42) 7 three_thread_state (by decide)).1,
    (ping_thread_unknown (demo_ping 42) 7 three_thread_state (by decide)).2.2.2⟩

/-! ## Adding a thread -/

theorem add_child_thread_done_none (log : List HostEvent) :
    _add_child_thread_done (-1) (-1) log = log := by
  simp [_add_child_thread_done]

theorem add_child_thread_done_pair (a b : Nat) (log : List HostEvent) :
    _add_child_thread_done (a : Int) (b : Int) log =
      log ++ [HostEvent.close a, HostEvent.close b] := by
  have ha : (a : Int) ≠ -1 := by omega
  have hb : (b : Int) ≠ -1 := by omega
  simp [_add_child_thread_done, ha, hb]

/-- The outcome of `_add_child_thread` in each of its paths. -/
theorem add_child_thread_paths (MAX_THREADS : Nat) (env : AddThreadEnv) (tcs : Int)
    (stack_size : Nat) (s : HostState) :
    (s.globals.num_threads = MAX_THREADS →
      _add_child_thread MAX_THREADS env tcs stack_size s = .returned (-1) s) ∧
    (s.globals.num_threads ≠ MAX_THREADS → env.ex.send_ret ≠ 0 →
      _add_child_thread MAX_THREADS env tcs stack_size s =
        .returned (-1) { s with
          log := s.log ++ [HostEvent.send_msg s.globals.sock
            ve_msg_type_t.VE_MSG_ADD_THREAD [tcs, stack_size]] }) ∧
    (s.globals.num_threads ≠ MAX_THREADS → env.ex.send_ret = 0 → env.socketpair = none →
      _add_child_thread MAX_THREADS env tcs stack_size s =
        .returned (-1) { s with
          log := s.log ++ [HostEvent.send_msg s.globals.sock
            ve_msg_type_t.VE_MSG_ADD_THREAD [tcs, stack_size], HostEvent.socketpair none] }) ∧
    (∀ a b : Nat, s.globals.num_threads ≠ MAX_THREADS → env.ex.send_ret = 0 →
      env.socketpair = some (a, b) → env.send_fd_ret ≠ 0 →
      _add_child_thread MAX_THREADS env tcs stack_size s =
        .exited 1 { s with
          log := s.log ++ [HostEvent.send_msg s.globals.sock
            ve_msg_type_t.VE_MSG_ADD_THREAD [tcs, stack_size],
            HostEvent.socketpair (some (a, b)), HostEvent.send_fd s.globals.sock b,
            HostEvent.err "send_fd() failed"] }) ∧
    (∀ a b : Nat, s.globals.num_threads ≠ MAX_THREADS → env.ex.send_ret = 0 →
      env.socketpair = some (a, b) → env.send_fd_ret = 0 →
      (env.ex.recv_ret ≠ 0 ∨ env.ex.out_ret ≠ 0) →
      _add_child_thread MAX_THREADS env tcs stack_size s =
        .returned (-1) { s with
          log := s.log ++ [HostEvent.send_msg s.globals.sock
            ve_msg_type_t.VE_MSG_ADD_THREAD [tcs, stack_size],
            HostEvent.socketpair (some (a, b)), HostEvent.send_fd s.globals.sock b,
            HostEvent.recv_msg s.globals.sock ve_msg_type_t.VE_MSG_ADD_THREAD,
            HostEvent.close a, HostEvent.close b] }) ∧
    (∀ a b : Nat, s.globals.num_threads ≠ MAX_THREADS → env.ex.send_ret = 0 →
      env.socketpair = some (a, b) → env.send_fd_ret = 0 →
      env.ex.recv_ret = 0 → env.ex.out_ret = 0 →
      _add_child_thread MAX_THREADS env tcs stack_size s =
        .returned 0 { s with
          globals :=
            { s.globals with
              threads := fun i =>
                if i = s.globals.num_threads then
                  { sock := a, child_sock := b, tcs := tcs }
                else s.globals.threads i
              num_threads := s.globals.num_threads + 1 }
          log := s.log ++ [HostEvent.send_msg s.globals.sock
            ve_msg_type_t.VE_MSG_ADD_THREAD [tcs, stack_size],
            HostEvent.socketpair (some (a, b)), HostEvent.send_fd s.globals.sock b,
            HostEvent.recv_msg s.globals.sock ve_msg_type_t.VE_MSG_ADD_THREAD,
            HostEvent.lock,
            HostEvent.table_write s.globals.num_threads
              { sock := a, child_sock := b, tcs := tcs },
            HostEvent.unlock] }) := by
  refine ⟨?_, ?_, ?_, ?_, ?_, ?_⟩
  · intro h
    simp [_add_child_thread, h, add_child_thread_done_none]
  · intro h h1
    simp [_add_child_thread, h, h1, add_child_thread_done_none]
  · intro h h1 h2
    simp [_add_child_thread, h, h1, h2, add_child_thread_done_none]
  · intro a b h h1 h2 h3
    simp [_add_child_thread, h, h1, h2, h3]
  · intro a b h h1 h2 h3 h4
    by_cases h5 : env.ex.recv_ret = 0
    · have h6 : env.ex.out_ret ≠ 0 := by
        rcases h4 with h4 | h4
        · exact absurd h5 h4
        · exact h4
      simp [_add_child_thread, h, h1, h2, h3, h5, h6, add_child_thread_done_pair]
    · simp [_add_child_thread, h, h1, h2, h3, h5, add_child_thread_done_pair]
  · intro a b h h1 h2 h3 h4 h5
    simp [_add_child_thread, h, h1, h2, h3, h4, h5, add_child_thread_done_none]

theorem table_write_mem_append (l new : List HostEvent) (MAX_THREADS : Nat)
    (h : ∀ i e, HostEvent.table_write i e ∈ l → i < MAX_THREADS)
    (hnew : ∀ i e, HostEvent.table_write i e ∈ new → i < MAX_THREADS) :
    ∀ i e, HostEvent.table_write i e ∈ l ++ new → i < MAX_THREADS := by
  intro i e hmem
  rcases List.mem_append.1 hmem with h1 | h1
  · exact h i e h1
  · exact hnew i e h1

/-- One `_add_child_thread` call keeps the bound on the thread table. -/
theorem add_child_thread_inv (MAX_THREADS : Nat) (env : AddThreadEnv) (tcs : Int)
    (stack_size : Nat) (s : HostState) (h : TableInv MAX_THREADS s) :
    TableInv MAX_THREADS (_add_child_thread MAX_THREADS env tcs stack_size s).state := by
  have P := add_child_thread_paths MAX_THREADS env tcs stack_size s
  obtain ⟨hn, hw⟩ := h
  by_cases h0 : s.globals.num_threads = MAX_THREADS
  · rw [P.1 h0]; exact ⟨hn, hw⟩
  · by_cases h1 : env.ex.send_ret = 0
    · cases hsp : env.socketpair with
      | none =>
        rw [P.2.2.1 h0 h1 hsp]
        refine ⟨hn, table_write_mem_append _ _ _ hw ?_⟩
        intro i e hmem; simp at hmem
      | some ab =>
        obtain ⟨a, b⟩ := ab
        by_cases h3 : env.send_fd_ret = 0
        · by_cases h4 : env.ex.recv_ret = 0 ∧ env.ex.out_ret = 0
          · rw [P.2.2.2.2.2 a b h0 h1 hsp h3 h4.1 h4.2]
            refine ⟨?_, table_write_mem_append _ _ _ hw ?_⟩
            · show s.globals.num_threads + 1 ≤ MAX_THREADS
              omega
            · intro i e hmem
              simp at hmem
              omega
          · have h4' : env.ex.recv_ret ≠ 0 ∨ env.ex.out_ret ≠ 0 := by
              by_cases h5 : env.ex.recv_ret = 0
              · exact Or.inr (fun h6 => h4 ⟨h5, h6⟩)
              · exact Or.inl h5
            rw [P.2.2.2.2.1 a b h0 h1 hsp h3 h4']
            refine ⟨hn, table_write_mem_append _ _ _ hw ?_⟩
            intro i e hmem; simp at hmem
        · rw [P.2.2.2.1 a b h0 h1 hsp h3]
          refine ⟨hn, table_write_mem_append _ _ _ hw ?_⟩
          intro i e hmem; simp at hmem
    · rw [P.2.1 h0 h1]
      refine ⟨hn, table_write_mem_append _ _ _ hw ?_⟩
      intro i e hmem; simp at hmem

/-- The recorded sockets are descriptors delivered by `socketpair`, hence
never `-1`: this holds at program start and is kept by `_add_child_thread`. -/
theorem add_child_thread_socks_valid (MAX_THREADS : Nat) (env : AddThreadEnv) (tcs : Int)
    (stack_size : Nat) (s : HostState)
    (h : ∀ i, i < s.globals.num_threads → (s.globals.threads i).sock ≠ -1) :
    ∀ i, i < (_add_child_thread MAX_THREADS env tcs stack_size s).state.globals.num_threads →
      ((_add_child_thread MAX_THREADS env tcs stack_size s).state.globals.threads i).sock ≠ -1 := by
  have P := add_child_thread_paths MAX_THREADS env tcs stack_size s
  by_cases h0 : s.globals.num_threads = MAX_THREADS
  · rw [P.1 h0]; exact h
  · by_cases h1 : env.ex.send_ret = 0
    · cases hsp : env.socketpair with
      | none => rw [P.2.2.1 h0 h1 hsp]; exact h
      | some ab =>
        obtain ⟨a, b⟩ := ab
        by_cases h3 : env.send_fd_ret = 0
        · by_cases h4 : env.ex.recv_ret = 0 ∧ env.ex.out_ret = 0
          · rw [P.2.2.2.2.2 a b h0 h1 hsp h3 h4.1 h4.2]
            intro i hi
            simp only [Outcome.state] at hi ⊢
            by_cases hin : i = s.globals.num_threads
            · simp only [hin, if_true]
              omega
            · simp only [hin, if_false]
              exact h i (by omega)
          · have h4' : env.ex.recv_ret ≠ 0 ∨ env.ex.out_ret ≠ 0 := by
              by_cases h5 : env.ex.recv_ret = 0
              · exact Or.inr (fun h6 => h4 ⟨h5, h6⟩)
              · exact Or.inl h5
            rw [P.2.2.2.2.1 a b h0 h1 hsp h3 h4']; exact h
        · rw [P.2.2.2.1 a b h0 h1 hsp h3]; exact h
    · rw [P.2.1 h0 h1]; exact h

/-- Claim C13 fails as stated.  On a table of three entries (capacity 16), a
call whose request is sent and whose socket pair `(20, 21)` is created, but
whose `send_fd` returns -1, does not return to its caller: the process exits
with code 1 through `err`, and neither socket of the pair is closed. -/
theorem add_child_thread_failure_counterexample :
    (_add_child_thread 16 (demo_add { send_ret := 0, recv_ret := 0, out_ret := 0 } (-1)) 3
      STACK_SIZE three_thread_state).returnedValue = none ∧
    (_add_child_thread 16 (demo_add { send_ret := 0, recv_ret := 0, out_ret := 0 } (-1)) 3
      STACK_SIZE three_thread_state).exitCode = some 1 ∧
    HostEvent.close 20 ∉
      (_add_child_thread 16 (demo_add { send_ret := 0, recv_ret := 0, out_ret := 0 } (-1)) 3
        STACK_SIZE three_thread_state).state.log ∧
    HostEvent.close 21 ∉
      (_add_child_thread 16 (demo_add { send_ret := 0, recv_ret := 0, out_ret := 0 } (-1)) 3
        STACK_SIZE three_thread_state).state.log := by
  decide

/-- Claim C13, amended.  When the table is not full and the ADD_THREAD
exchange fails because sending the request fails, socket-pair creation fails,
receiving the response fails or the response status is non-zero,
`_add_child_thread` returns -1 to its caller with `globals` (the table and
`num_threads` included) unchanged; in the first two cases no socket pair
exists and nothing is closed, in the last two both sockets of the pair are
closed.  When passing the descriptor fails, the process prints the diagnostic
of `err` and exits with code 1, `globals` unchanged. -/
theorem add_child_thread_failure (MAX_THREADS : Nat) (env : AddThreadEnv) (tcs : Int)
    (stack_size : Nat) (s : HostState) (hroom : s.globals.num_threads ≠ MAX_THREADS) :
    (env.ex.send_ret ≠ 0 →
      _add_child_thread MAX_THREADS env tcs stack_size s =
        .returned (-1) { s with
          log := s.log ++ [HostEvent.send_msg s.globals.sock
            ve_msg_type_t.VE_MSG_ADD_THREAD [tcs, stack_size]] }) ∧
    (env.ex.send_ret = 0 → env.socketpair = none →
      _add_child_thread MAX_THREADS env tcs stack_size s =
        .returned (-1) { s with
          log := s.log ++ [HostEvent.send_msg s.globals.sock
            ve_msg_type_t.VE_MSG_ADD_THREAD [tcs, stack_size], HostEvent.socketpair none] }) ∧
    (∀ a b : Nat, env.ex.send_ret = 0 → env.socketpair = some (a, b) →
      env.send_fd_ret = 0 → (env.ex.recv_ret ≠ 0 ∨ env.ex.out_ret ≠ 0) →
      _add_child_thread MAX_THREADS env tcs stack_size s =
        .returned (-1) { s with
          log := s.log ++ [HostEvent.send_msg s.globals.sock
            ve_msg_type_t.VE_MSG_ADD_THREAD [tcs, stack_size],
            HostEvent.socketpair (some (a, b)), HostEvent.send_fd s.globals.sock b,
            HostEvent.recv_msg s.globals.sock ve_msg_type_t.VE_MSG_ADD_THREAD,
            HostEvent.close a, HostEvent.close b] }) ∧
    (∀ a b : Nat, env.ex.send_ret = 0 → env.socketpair = some (a, b) →
      env.send_fd_ret ≠ 0 →
      _add_child_thread MAX_THREADS env tcs stack_size s =
        .exited 1 { s with
          log := s.log ++ [HostEvent.send_msg s.globals.sock
            ve_msg_type_t.VE_MSG_ADD_THREAD [tcs, stack_size],
            HostEvent.socketpair (some (a, b)), HostEvent.send_fd s.globals.sock b,
            HostEvent.err "send_fd() failed"] }) := by
  have P := add_child_thread_paths MAX_THREADS env tcs stack_size s
  exact ⟨P.2.1 hroom, P.2.2.1 hroom,
    fun a b h1 h2 h3 h4 => P.2.2.2.2.1 a b hroom h1 h2 h3 h4,
    fun a b h1 h2 h3 => P.2.2.2.1 a b hroom h1 h2 h3⟩

/-- The amended claim C13 on three provisioned threads (capacity 16): the
child answers the ADD_THREAD request with status 1, so the call returns -1 and
closes the pair `(20, 21)`. -/
theorem add_child_thread_failure_witness :
    three_thread_state.globals.num_threads ≠ 16 ∧
    (_add_child_thread 16 (demo_add { send_ret := 0, recv_ret := 0, out_ret := 1 } 0) 3
      STACK_SIZE three_thread_state).returnedValue = some (-1) ∧
    (_add_child_thread 16 (demo_add { send_ret := 0, recv_ret := 0, out_ret := 1 } 0) 3
      STACK_SIZE three_thread_state) =
      .returned (-1) { three_thread_state with
        log := three_thread_state.log ++ [HostEvent.send_msg three_thread_state.globals.sock
          ve_msg_type_t.VE_MSG_ADD_THREAD [3, STACK_SIZE],
          HostEvent.socketpair (some (20, 21)),
          HostEvent.send_fd three_thread_state.globals.sock (21 : Nat),
          HostEvent.recv_msg three_thread_state.globals.sock ve_msg_type_t.VE_MSG_ADD_THREAD,
          HostEvent.close (20 : Nat), HostEvent.close (21 : Nat)] } :=
  ⟨by decide, by decide,
    (add_child_thread_failure 16 (demo_add { send_ret := 0, recv_ret := 0, out_ret := 1 } 0) 3
      STACK_SIZE three_thread_state (by decide)).2.2.1 20 21 rfl rfl rfl
      (Or.inr (by decide))⟩

theorem add_child_thread_run_inv (MAX_THREADS : Nat) (calls : List AddThreadCall)
    (s : HostState) (h : TableInv MAX_THREADS s) :
    TableInv MAX_THREADS (add_child_thread_run MAX_THREADS calls s) := by
  induction calls generalizing s with
  | nil => exact h
  | cons c cs ih =>
    have hstep := add_child_thread_inv MAX_THREADS c.env c.tcs c.stack_size s h
    simp only [add_child_thread_run]
    cases hout : _add_child_thread MAX_THREADS c.env c.tcs c.stack_size s with
    | returned r s1 =>
      rw [hout] at hstep
      exact ih s1 hstep
    | exited code s1 =>
      rw [hout] at hstep
      exact hstep
    | child s1 =>
      rw [hout] at hstep
      exact hstep

/-- Claim C14.  When the table already holds `MAX_THREADS` entries,
`_add_child_thread` returns -1 and leaves the state as it was: no message is
sent, no socket pair is created, the table is not written.  The state at
program start satisfies the bound, and every sequence of `_add_child_thread`
calls keeps it: `num_threads <= MAX_THREADS`, and every table write went to an
index below `MAX_THREADS`. -/
theorem add_child_thread_capacity (MAX_THREADS : Nat) :
    (∀ (env : AddThreadEnv) (tcs : Int) (stack_size : Nat) (s : HostState),
      s.globals.num_threads = MAX_THREADS →
      _add_child_thread MAX_THREADS env tcs stack_size s = .returned (-1) s) ∧
    TableInv MAX_THREADS host_init ∧
    (∀ (calls : List AddThreadCall) (s : HostState), TableInv MAX_THREADS s →
      (add_child_thread_run MAX_THREADS calls s).globals.num_threads ≤ MAX_THREADS ∧
      ∀ i e, HostEvent.table_write i e ∈ (add_child_thread_run MAX_THREADS calls s).log →
        i < MAX_THREADS) := by
  refine ⟨?_, ?_, ?_⟩
  · intro env tcs stack_size s h
    exact (add_child_thread_paths MAX_THREADS env tcs stack_size s).1 h
  · refine ⟨Nat.zero_le _, ?_⟩
    intro i e hmem
    simp [host_init] at hmem
  · intro calls s h
    exact add_child_thread_run_inv MAX_THREADS calls s h

/-- Claim C14 with `MAX_THREADS = 3`: on the full table a further call returns
-1 with the log untouched, and four calls from program start, all of which
meet a willing child, leave three entries. -/
theorem add_child_thread_capacity_witness :
    full_table_state.globals.num_threads = 3 ∧
    (_add_child_thread 3 (demo_add { send_ret := 0, recv_ret := 0, out_ret := 0 } 0) 3
      STACK_SIZE full_table_state).returnedValue = some (-1) ∧
    (_add_child_thread 3 (demo_add { send_ret := 0, recv_ret := 0, out_ret := 0 } 0) 3
      STACK_SIZE full_table_state).state.log = full_table_state.log ∧
    (add_child_thread_run 3
      [{ env := demo_add { send_ret := 0, recv_ret := 0, out_ret := 0 } 0, tcs := 0,
         stack_size := STACK_SIZE },
       { env := demo_add { send_ret := 0, recv_ret := 0, out_ret := 0 } 0, tcs := 1,
         stack_size := STACK_SIZE },
       { env := demo_add { send_ret := 0, recv_ret := 0, out_ret := 0 } 0, tcs := 2,
         stack_size := STACK_SIZE },
       { env := demo_add { send_ret := 0, recv_ret := 0, out_ret := 0 } 0, tcs := 3,
         stack_size := STACK_SIZE }] host_init).globals.num_threads ≤ 3 ∧
    (add_child_thread_run 3
      [{ env := demo_add { send_ret := 0, recv_ret := 0, out_ret := 0 } 0, tcs := 0,
         stack_size := STACK_SIZE },
       { env := demo_add { send_ret := 0, recv_ret := 0, out_ret := 0 } 0, tcs := 1,
         stack_size := STACK_SIZE },
       { env := demo_add { send_ret := 0, recv_ret := 0, out_ret := 0 } 0, tcs := 2,
         stack_size := STACK_SIZE },
       { env := demo_add { send_ret := 0, recv_ret := 0, out_ret := 0 } 0, tcs := 3,
         stack_size := STACK_SIZE }] host_init).globals.num_threads = 3 :=
  ⟨by decide,
    congrArg Outcome.returnedValue
      ((add_child_thread_capacity 3).1
        (demo_add { send_ret := 0, recv_ret := 0, out_ret := 0 } 0) 3 STACK_SIZE
        full_table_state (by decide)),
    congrArg (fun o => o.state.log)
      ((add_child_thread_capacity 3).1
        (demo_add { send_ret := 0, recv_ret := 0, out_ret := 0 } 0) 3 STACK_SIZE
        full_table_state (by decide)),
    ((add_child_thread_capacity 3).2.2 _ host_init (add_child_thread_capacity 3).2.1).1,
    by decide⟩

/-- Claim C15.  When the table is not full, the ADD_THREAD request is sent,
the socket pair `(a, b)` is created, `b` is passed to the child, and the
response is received with status 0, `_add_child_thread` returns 0;
`num_threads` grows by one; the entry at the old `num_threads` is
`{tcs, sock = a, child_sock = b}`; every other entry and every other field of
`globals` is unchanged; the events of the call are the send, the socket pair,
the descriptor passing, the receive, then `ve_lock`, the table write and
`ve_unlock` in this order; no socket is closed. -/
theorem add_child_thread_success (MAX_THREADS : Nat) (env : AddThreadEnv) (tcs : Int)
    (stack_size : Nat) (s : HostState) (a b : Nat)
    (hroom : s.globals.num_threads ≠ MAX_THREADS) (hsend : env.ex.send_ret = 0)
    (hpair : env.socketpair = some (a, b)) (hfd : env.send_fd_ret = 0)
    (hrecv : env.ex.recv_ret = 0) (hout : env.ex.out_ret = 0) :
    (_add_child_thread MAX_THREADS env tcs stack_size s).returnedValue = some 0 ∧
    (_add_child_thread MAX_THREADS env tcs stack_size s).state.globals.num_threads =
      s.globals.num_threads + 1 ∧
    (_add_child_thread MAX_THREADS env tcs stack_size s).state.globals.threads
        s.globals.num_threads = { sock := a, child_sock := b, tcs := tcs } ∧
    (∀ i, i ≠ s.globals.num_threads →
      (_add_child_thread MAX_THREADS env tcs stack_size s).state.globals.threads i =
        s.globals.threads i) ∧
    ((_add_child_thread MAX_THREADS env tcs stack_size s).state.globals.sock = s.globals.sock ∧
     (_add_child_thread MAX_THREADS env tcs stack_size s).state.globals.child_sock =
       s.globals.child_sock ∧
     (_add_child_thread MAX_THREADS env tcs stack_size s).state.globals.shmid =
       s.globals.shmid ∧
     (_add_child_thread MAX_THREADS env tcs stack_size s).state.globals.shmaddr =
       s.globals.shmaddr) ∧
    (_add_child_thread MAX_THREADS env tcs stack_size s).state.log =
      s.log ++ [HostEvent.send_msg s.globals.sock
        ve_msg_type_t.VE_MSG_ADD_THREAD [tcs, stack_size],
        HostEvent.socketpair (some (a, b)), HostEvent.send_fd s.globals.sock b,
        HostEvent.recv_msg s.globals.sock ve_msg_type_t.VE_MSG_ADD_THREAD,
        HostEvent.lock,
        HostEvent.table_write s.globals.num_threads
          { sock := a, child_sock := b, tcs := tcs },
        HostEvent.unlock] ∧
    (∀ fd, HostEvent.close fd ∉
      [HostEvent.send_msg s.globals.sock ve_msg_type_t.VE_MSG_ADD_THREAD [tcs, stack_size],
        HostEvent.socketpair (some (a, b)), HostEvent.send_fd s.globals.sock b,
        HostEvent.recv_msg s.globals.sock ve_msg_type_t.VE_MSG_ADD_THREAD,
        HostEvent.lock,
        HostEvent.table_write s.globals.num_threads
          { sock := a, child_sock := b, tcs := tcs },
        HostEvent.unlock]) := by
  rw [(add_child_thread_paths MAX_THREADS env tcs stack_size s).2.2.2.2.2 a b hroom hsend hpair
    hfd hrecv hout]
  refine ⟨rfl, rfl, ?_, ?_, ⟨rfl, rfl, rfl, rfl⟩, rfl, ?_⟩
  · simp [Outcome.state]
  · intro i hi
    simp [Outcome.state, hi]
  · intro fd
    simp

/-- Claim C15 on three provisioned threads (capacity 16): a fourth thread with
id 3 is recorded at index 3 with the sockets 20 and 21. -/
theorem add_child_thread_success_witness :
    three_thread_state.globals.num_threads ≠ 16 ∧
    (_add_child_thread 16 (demo_add { send_ret := 0, recv_ret := 0, out_ret := 0 } 0) 3
      STACK_SIZE three_thread_state).returnedValue = some 0 ∧
    (_add_child_thread 16 (demo_add { send_ret := 0, recv_ret := 0, out_ret := 0 } 0) 3
      STACK_SIZE three_thread_state).state.globals.num_threads =
      three_thread_state.globals.num_threads + 1 ∧
    (_add_child_thread 16 (demo_add { send_ret := 0, recv_ret := 0, out_ret := 0 } 0) 3
      STACK_SIZE three_thread_state).state.globals.threads 3 =
      { sock := 20, child_sock := 21, tcs := 3 } :=
  ⟨by decide,
    (add_child_thread_success 16 (demo_add { send_ret := 0, recv_ret := 0, out_ret := 0 } 0) 3
      STACK_SIZE three_thread_state 20 21 (by decide) rfl rfl rfl rfl rfl).1,
    (add_child_thread_success 16 (demo_add { send_ret := 0, recv_ret := 0, out_ret := 0 } 0) 3
      STACK_SIZE three_thread_state 20 21 (by decide) rfl rfl rfl rfl rfl).2.1,
    by decide⟩

/-! ## The supervisor's `main` -/

theorem init_child_ret_eq (magic : Nat) (ex : Exchange) (child : Nat → Nat)
    (child_fd child_sock : Int) (s : HostState) :
    (_init_child magic ex child child_fd child_sock s).1 =
      if ex.ok ∧ child SHM_SENTINEL = magic then 0 else -1 := by
  unfold _init_child Exchange.ok
  by_cases h1 : ex.send_ret = 0
  · by_cases h2 : ex.recv_ret = 0
    · by_cases h3 : ex.out_ret = 0
      · by_cases h4 : child SHM_SENTINEL = magic
        · simp [h1, h2, h3, h4]
        · simp [h1, h2, h3, h4]
      · simp [h1, h2, h3]
    · simp [h1, h2]
  · simp [h1]

theorem init_child_log_filter (magic : Nat) (ex : Exchange) (child : Nat → Nat)
    (child_fd child_sock : Int) (s : HostState) :
    (_init_child magic ex child child_fd child_sock s).2.log.filter HostEvent.isAfterSetup =
      s.log.filter HostEvent.isAfterSetup := by
  unfold _init_child
  simp only []
  repeat' split
  all_goals
    simp [List.filter_append, List.filter_cons, HostEvent.isAfterSetup,
      HostEvent.isThreadMessage, HostEvent.isWaitpid]

theorem exec_done_filter (ret fds0 fds1 socks0 socks1 : Int) (log : List HostEvent) :
    (_exec_done ret fds0 fds1 socks0 socks1 log).filter HostEvent.isAfterSetup =
      log.filter HostEvent.isAfterSetup := by
  unfold _exec_done
  simp only []
  repeat' split
  all_goals
    simp [List.filter_append, List.filter_cons, HostEvent.isAfterSetup,
      HostEvent.isThreadMessage, HostEvent.isWaitpid]

theorem create_host_heap_spec (env : HeapEnv) (heap_size : Nat) (s : HostState) :
    ((_create_host_heap env heap_size s).1 = 0 ↔ HeapOk env) ∧
    (_create_host_heap env heap_size s).2.log.filter HostEvent.isAfterSetup =
      s.log.filter HostEvent.isAfterSetup := by
  unfold _create_host_heap HeapOk
  by_cases h1 : env.shmget_ret = -1
  · simp [h1, List.filter_append, List.filter_cons, HostEvent.isAfterSetup,
      HostEvent.isThreadMessage, HostEvent.isWaitpid]
  · cases h2 : env.shmat_ret with
    | none =>
      simp [h1, List.filter_append, List.filter_cons, HostEvent.isAfterSetup,
        HostEvent.isThreadMessage, HostEvent.isWaitpid]
    | some addr =>
      simp [h1, List.filter_append, List.filter_cons, HostEvent.isAfterSetup,
        HostEvent.isThreadMessage, HostEvent.isWaitpid]

theorem exec_spec (magic : Nat) (env : ExecEnv) (s : HostState) :
    (ExecOk magic env → (_exec magic env s).returnedValue = some env.fork_ret) ∧
    (ExecInChild env → (_exec magic env s).returnedValue = none) ∧
    (¬ ExecOk magic env → ¬ ExecInChild env →
      (_exec magic env s).returnedValue = some (-1)) ∧
    (_exec magic env s).exitCode = none ∧
    (_exec magic env s).state.log.filter HostEvent.isAfterSetup =
      s.log.filter HostEvent.isAfterSetup := by
  unfold ExecOk ExecInChild
  cases hp : env.path_ok with
  | false =>
    simp [_exec, hp, Outcome.returnedValue, Outcome.exitCode, Outcome.state, exec_done_filter]
  | true =>
    cases hs : env.socketpair with
    | none =>
      simp [_exec, hp, hs, Outcome.returnedValue, Outcome.exitCode, Outcome.state,
        exec_done_filter, List.filter_append, List.filter_cons, HostEvent.isAfterSetup,
        HostEvent.isThreadMessage, HostEvent.isWaitpid]
    | some ab =>
      obtain ⟨a, b⟩ := ab
      cases hpi : env.pipe with
      | none =>
        simp [_exec, hp, hs, hpi, Outcome.returnedValue, Outcome.exitCode, Outcome.state,
          exec_done_filter, List.filter_append, List.filter_cons, HostEvent.isAfterSetup,
          HostEvent.isThreadMessage, HostEvent.isWaitpid]
      | some rw =>
        obtain ⟨r, w⟩ := rw
        by_cases hf : env.fork_ret < 0
        · have hf0 : env.fork_ret ≠ 0 := by omega
          have hf1 : ¬ 0 < env.fork_ret := by omega
          simp [_exec, hp, hs, hpi, hf, hf0, hf1, Outcome.returnedValue, Outcome.exitCode,
            Outcome.state, exec_done_filter, List.filter_append, List.filter_cons,
            HostEvent.isAfterSetup, HostEvent.isThreadMessage, HostEvent.isWaitpid]
        · by_cases hf0 : env.fork_ret = 0
          · simp [_exec, hp, hs, hpi, hf0, Outcome.returnedValue, Outcome.exitCode,
              Outcome.state, List.filter_append, List.filter_cons,
              HostEvent.isAfterSetup, HostEvent.isThreadMessage, HostEvent.isWaitpid]
          · have hf1 : 0 < env.fork_ret := by omega
            by_cases hi : env.init_ex.ok ∧ env.child SHM_SENTINEL = magic
            · simp [_exec, hp, hs, hpi, hf, hf0, hf1, hi, init_child_ret_eq,
                Outcome.returnedValue, Outcome.exitCode, Outcome.state, exec_done_filter,
                init_child_log_filter, List.filter_append, List.filter_cons,
                HostEvent.isAfterSetup, HostEvent.isThreadMessage, HostEvent.isWaitpid]
            · simp [_exec, hp, hs, hpi, hf, hf0, hf1, hi, init_child_ret_eq,
                Outcome.returnedValue, Outcome.exitCode, Outcome.state, exec_done_filter,
                init_child_log_filter, List.filter_append, List.filter_cons,
                HostEvent.isAfterSetup, HostEvent.isThreadMessage, HostEvent.isWaitpid]

theorem filter_append_singleton_of_false (l : List HostEvent) (e : HostEvent)
    (Q : HostEvent → Bool) (h : Q e = false) : (l ++ [e]).filter Q = l.filter Q := by
  simp [List.filter_append, List.filter_cons, h]

/-- The three ways the setup of `main` can end. -/
theorem main_setup_spec (HOST_HEAP_SIZE magic : Nat) (env : MainEnv) (s : HostState) :
    (SetupOk magic env →
      (main_setup HOST_HEAP_SIZE magic env s).returnedValue = some env.exec.fork_ret) ∧
    (SetupInChild env →
      (main_setup HOST_HEAP_SIZE magic env s).returnedValue = none ∧
      (main_setup HOST_HEAP_SIZE magic env s).exitCode = none) ∧
    (¬ SetupOk magic env → ¬ SetupInChild env →
      (main_setup HOST_HEAP_SIZE magic env s).returnedValue = none ∧
      (main_setup HOST_HEAP_SIZE magic env s).exitCode = some 1 ∧
      ∃ l e, (main_setup HOST_HEAP_SIZE magic env s).state.log = l ++ [e] ∧
        e.isDiagnostic = true) ∧
    (main_setup HOST_HEAP_SIZE magic env s).state.log.filter HostEvent.isAfterSetup =
      s.log.filter HostEvent.isAfterSetup := by
  unfold SetupOk SetupInChild
  by_cases ha : env.argc = 2
  · have hh := create_host_heap_spec env.heap HOST_HEAP_SIZE s
    by_cases hheap : HeapOk env.heap
    · have h0 : (_create_host_heap env.heap HOST_HEAP_SIZE s).1 = 0 := hh.1.2 hheap
      have E := exec_spec magic env.exec (_create_host_heap env.heap HOST_HEAP_SIZE s).2
      obtain ⟨E1, E2, E3, E4, E5⟩ := E
      unfold main_setup
      simp only [ha, h0, ne_eq, not_true_eq_false, if_false]
      cases hout : _exec magic env.exec (_create_host_heap env.heap HOST_HEAP_SIZE s).2 with
      | returned pid st =>
        rw [hout] at E1 E2 E3 E5
        simp only [Outcome.returnedValue, Outcome.state] at E1 E2 E3 E5
        by_cases hok : ExecOk magic env.exec
        · have hpid : pid = env.exec.fork_ret := by simpa using E1 hok
          have hpos : 0 < env.exec.fork_ret := hok.2.2.2.1
          have hne : pid ≠ -1 := by omega
          have hnc : ¬ ExecInChild env.exec := by
            intro hc
            have := hc.2.2.2
            omega
          simp only [hne, if_false]
          refine ⟨fun _ => by simp [Outcome.returnedValue, hpid], ?_, ?_, ?_⟩
          · intro hc; exact absurd hc.2.2 hnc
          · intro hn; exact absurd ⟨trivial, hheap, hok⟩ hn
          · simp only [Outcome.state]; rw [E5, hh.2]
        · have hnc : ¬ ExecInChild env.exec := by
            intro hc
            have := E2 hc
            simp at this
          have hpid : pid = -1 := by simpa using E3 hok hnc
          simp only [hpid, if_true]
          refine ⟨fun h => absurd h.2.2 hok, fun h => absurd h.2.2 hnc, ?_, ?_⟩
          · intro _ _
            exact ⟨rfl, rfl, _, _, rfl, rfl⟩
          · simp only [Outcome.state]
            rw [filter_append_singleton_of_false _ _ _ (by rfl), E5, hh.2]
      | exited code st =>
        rw [hout] at E4
        simp [Outcome.exitCode] at E4
      | child st =>
        rw [hout] at E1 E3 E5
        simp only [Outcome.returnedValue, Outcome.state] at E1 E3 E5
        have hok : ¬ ExecOk magic env.exec := by
          intro h
          have := E1 h
          simp at this
        have hc : ExecInChild env.exec := by
          by_contra hc
          have := E3 hok hc
          simp at this
        refine ⟨fun h => absurd h.2.2 hok, fun _ => ⟨rfl, rfl⟩, ?_, ?_⟩
        · intro _ hn; exact absurd ⟨trivial, hheap, hc⟩ hn
        · simp only [Outcome.state]; rw [E5, hh.2]
    · have h0 : (_create_host_heap env.heap HOST_HEAP_SIZE s).1 ≠ 0 :=
        fun h => hheap (hh.1.1 h)
      unfold main_setup
      simp only [ha, h0, ne_eq, not_true_eq_false, not_false_eq_true, if_false, if_true]
      refine ⟨fun h => absurd h.2.1 hheap, fun h => absurd h.2.1 hheap, ?_, ?_⟩
      · intro _ _
        exact ⟨rfl, rfl, _, _, rfl, rfl⟩
      · simp only [Outcome.state]
        rw [filter_append_singleton_of_false _ _ _ (by rfl), hh.2]
  · unfold main_setup
    simp only [ha, ne_eq, not_false_eq_true, if_true]
    refine ⟨fun h => h.1.elim, fun h => h.1.elim, ?_, ?_⟩
    · intro _ _
      exact ⟨rfl, rfl, _, _, rfl, rfl⟩
    · simp only [Outcome.state]
      rw [filter_append_singleton_of_false _ _ _ (by rfl)]

theorem add_child_thread_done_filter (a b : Int) (log : List HostEvent) :
    (_add_child_thread_done a b log).filter HostEvent.isWaitpid =
      log.filter HostEvent.isWaitpid := by
  unfold _add_child_thread_done
  simp only []
  repeat' split
  all_goals simp [List.filter_append, List.filter_cons, HostEvent.isWaitpid]

/-- An `_add_child_thread` call makes no `waitpid` call, never ends in a forked
child, and when the process exits it does so with code 1 after the diagnostic
of `err`. -/
theorem add_child_thread_kind (MAX_THREADS : Nat) (env : AddThreadEnv) (tcs : Int)
    (stack_size : Nat) (s : HostState) :
    (_add_child_thread MAX_THREADS env tcs stack_size s).state.log.filter HostEvent.isWaitpid =
      s.log.filter HostEvent.isWaitpid ∧
    (∀ st, _add_child_thread MAX_THREADS env tcs stack_size s ≠ .child st) ∧
    (∀ code st, _add_child_thread MAX_THREADS env tcs stack_size s = .exited code st →
      code = 1 ∧ ∃ l e, st.log = l ++ [e] ∧ e.isDiagnostic = true) := by
  unfold _add_child_thread
  simp only []
  repeat' split
  all_goals
    refine ⟨?_, ?_, ?_⟩
    · simp [Outcome.state, add_child_thread_done_filter, List.filter_append, List.filter_cons,
        HostEvent.isWaitpid]
    · intro st h; simp at h
    · intro code st h
      simp only [Outcome.exited.injEq, reduceCtorEq] at h
      try (obtain ⟨rfl, rfl⟩ := h; exact ⟨rfl, _, _, rfl, rfl⟩)

theorem ping_thread_filter (env : PingEnv) (tcs : Int) (s : HostState) :
    (_ping_thread env tcs s).2.log.filter HostEvent.isWaitpid =
      s.log.filter HostEvent.isWaitpid := by
  unfold _ping_thread
  simp only []
  repeat' split
  all_goals simp [List.filter_append, List.filter_cons, HostEvent.isWaitpid]

/-- The thread phase of `main` makes no `waitpid` call; it returns, or the
process exits with code 1 after the diagnostic of `err`. -/
theorem main_threads_kind (MAX_THREADS : Nat) (env : MainEnv) (s : HostState) :
    (main_threads MAX_THREADS env s).state.log.filter HostEvent.isWaitpid =
      s.log.filter HostEvent.isWaitpid ∧
    (∀ st, main_threads MAX_THREADS env s ≠ .child st) ∧
    (∀ code st, main_threads MAX_THREADS env s = .exited code st →
      code = 1 ∧ ∃ l e, st.log = l ++ [e] ∧ e.isDiagnostic = true) := by
  have K0 := add_child_thread_kind MAX_THREADS (env.add 0) 0 STACK_SIZE s
  unfold main_threads
  cases h0 : _add_child_thread MAX_THREADS (env.add 0) 0 STACK_SIZE s with
  | returned r0 s0 =>
    rw [h0] at K0
    have K1 := add_child_thread_kind MAX_THREADS (env.add 1) 1 STACK_SIZE s0
    simp only []
    cases h1 : _add_child_thread MAX_THREADS (env.add 1) 1 STACK_SIZE s0 with
    | returned r1 s1 =>
      rw [h1] at K1
      have K2 := add_child_thread_kind MAX_THREADS (env.add 2) 2 STACK_SIZE s1
      simp only []
      cases h2 : _add_child_thread MAX_THREADS (env.add 2) 2 STACK_SIZE s1 with
      | returned r2 s2 =>
        rw [h2] at K2
        simp only [Outcome.state] at K0 K1 K2 ⊢
        refine ⟨?_, fun st h => by simp at h, fun code st h => by simp at h⟩
        rw [ping_thread_filter, ping_thread_filter, ping_thread_filter, K2.1, K1.1, K0.1]
      | exited code st =>
        rw [h2] at K2
        simp only [Outcome.state] at K0 K1 K2 ⊢
        refine ⟨by rw [K2.1, K1.1, K0.1], fun st h => by simp at h, ?_⟩
        intro code' st' h
        exact K2.2.2 code' st' h
      | child st => exact absurd rfl (K2.2.1 st |> fun h => by rw [h2] at h; exact h)
    | exited code st =>
      rw [h1] at K1
      simp only [Outcome.state] at K0 K1 ⊢
      refine ⟨by rw [K1.1, K0.1], fun st h => by simp at h, ?_⟩
      intro code' st' h
      exact K1.2.2 code' st' h
    | child st => exact absurd rfl (K1.2.1 st |> fun h => by rw [h1] at h; exact h)
  | exited code st =>
    rw [h0] at K0
    simp only [Outcome.state] at K0 ⊢
    refine ⟨K0.1, fun st h => by simp at h, ?_⟩
    intro code' st' h
    exact K0.2.2 code' st' h
  | child st => exact absurd rfl (K0.2.1 st |> fun h => by rw [h0] at h; exact h)

theorem main_setup_returned (HOST_HEAP_SIZE magic : Nat) (env : MainEnv) (s st : HostState)
    (pid : Int) (h : main_setup HOST_HEAP_SIZE magic env s = .returned pid st) :
    SetupOk magic env ∧ pid = env.exec.fork_ret ∧
    st.log.filter HostEvent.isAfterSetup = s.log.filter HostEvent.isAfterSetup := by
  have S := main_setup_spec HOST_HEAP_SIZE magic env s
  rw [h] at S
  simp only [Outcome.returnedValue, Outcome.state] at S
  have hok : SetupOk magic env := by
    by_contra hok
    by_cases hc : SetupInChild env
    · have := (S.2.1 hc).1
      simp at this
    · have := (S.2.2.1 hok hc).1
      simp at this
  have := S.1 hok
  exact ⟨hok, by simpa using this, S.2.2.2⟩

theorem main_finish_spec (env : MainEnv) (pid : Int) (s : HostState) :
    (env.wait.ret = pid →
      main_finish env pid s =
        .returned 0 { s with
          log := s.log ++ List.replicate (env.wait.eintr + 1) (HostEvent.waitpid pid) ++
            [HostEvent.print_exit_status (WEXITSTATUS env.wait.status), HostEvent.close 0,
             HostEvent.close 1, HostEvent.close 2] }) ∧
    (env.wait.ret ≠ pid →
      main_finish env pid s =
        .exited 1 { s with
          log := s.log ++ List.replicate (env.wait.eintr + 1) (HostEvent.waitpid pid) ++
            [HostEvent.err "failed to get child exit status"] }) := by
  constructor
  · intro h
    simp [main_finish, _get_child_exit_status, h]
  · intro h
    simp [main_finish, _get_child_exit_status, h]

theorem not_mem_of_filter_eq_nil (l : List HostEvent) (Q : HostEvent → Bool)
    (h : l.filter Q = []) (e : HostEvent) (he : e ∈ l) : Q e = false := by
  have := (List.filter_eq_nil_iff.1 h) e he
  simpa using this

theorem filter_isWaitpid_of_isAfterSetup (l : List HostEvent)
    (h : l.filter HostEvent.isAfterSetup = []) : l.filter HostEvent.isWaitpid = [] := by
  rw [List.filter_eq_nil_iff] at h ⊢
  intro a ha hw
  apply h a ha
  simp [HostEvent.isAfterSetup, hw]

/-- How `main` continues from the state in which it calls `_terminate_child`. -/
theorem main_of_before_terminate (HOST_HEAP_SIZE MAX_THREADS magic : Nat) (env : MainEnv)
    (pid : Int) (st : HostState)
    (h : main_before_terminate HOST_HEAP_SIZE MAX_THREADS magic env = some (pid, st)) :
    main HOST_HEAP_SIZE MAX_THREADS magic env =
      main_finish env pid (_terminate_child env.reply env.main_reply st).2 ∧
    SetupOk magic env ∧ pid = env.exec.fork_ret := by
  unfold main_before_terminate at h
  unfold main main_from
  cases h1 : main_setup HOST_HEAP_SIZE magic env host_init with
  | returned pid1 s1 =>
    rw [h1] at h
    simp only [] at h ⊢
    have hs := main_setup_returned HOST_HEAP_SIZE magic env host_init s1 pid1 h1
    cases h2 : main_threads MAX_THREADS env s1 with
    | returned r2 s2 =>
      rw [h2] at h
      simp only [Option.some.injEq, Prod.mk.injEq] at h
      obtain ⟨rfl, rfl⟩ := h
      exact ⟨rfl, hs.1, hs.2.1⟩
    | exited c s2 => rw [h2] at h; simp at h
    | child s2 => rw [h2] at h; simp at h
  | exited c s1 => rw [h1] at h; simp at h
  | child s1 => rw [h1] at h; simp at h

/-- A run of `main` that does not reach the call of `_terminate_child` ends
in the setup or in the thread phase: it does not return, it makes no `waitpid`
call, and if the process exits, it exits with code 1 after a diagnostic. -/
theorem main_of_not_before_terminate (HOST_HEAP_SIZE MAX_THREADS magic : Nat) (env : MainEnv)
    (h : main_before_terminate HOST_HEAP_SIZE MAX_THREADS magic env = none) :
    (main HOST_HEAP_SIZE MAX_THREADS magic env).returnedValue = none ∧
    (main HOST_HEAP_SIZE MAX_THREADS magic env).state.log.filter HostEvent.isWaitpid = [] ∧
    (∀ code, (main HOST_HEAP_SIZE MAX_THREADS magic env).exitCode = some code →
      code = 1 ∧ ∃ l e, (main HOST_HEAP_SIZE MAX_THREADS magic env).state.log = l ++ [e] ∧
        e.isDiagnostic = true) := by
  have S := main_setup_spec HOST_HEAP_SIZE magic env host_init
  have hinit : host_init.log.filter HostEvent.isAfterSetup = [] := by simp [host_init]
  unfold main_before_terminate at h
  unfold main main_from
  cases h1 : main_setup HOST_HEAP_SIZE magic env host_init with
  | returned pid1 s1 =>
    rw [h1] at h
    simp only [] at h ⊢
    have hs := main_setup_returned HOST_HEAP_SIZE magic env host_init s1 pid1 h1
    have hw : s1.log.filter HostEvent.isWaitpid = [] :=
      filter_isWaitpid_of_isAfterSetup _ (by rw [hs.2.2, hinit])
    have K := main_threads_kind MAX_THREADS env s1
    cases h2 : main_threads MAX_THREADS env s1 with
    | returned r2 s2 => rw [h2] at h; simp at h
    | exited c s2 =>
      rw [h2] at K
      simp only [Outcome.state] at K
      refine ⟨rfl, by simp only [Outcome.state]; rw [K.1, hw], ?_⟩
      intro code hcode
      simp only [Outcome.exitCode, Option.some.injEq] at hcode
      subst hcode
      exact K.2.2 c s2 rfl
    | child s2 =>
      rw [h2] at K
      exact absurd rfl (K.2.1 s2)
  | exited c s1 =>
    rw [h1] at S
    simp only [Outcome.state, Outcome.returnedValue, Outcome.exitCode] at S
    refine ⟨rfl, ?_, ?_⟩
    · simp only [Outcome.state]
      exact filter_isWaitpid_of_isAfterSetup _ (by rw [S.2.2.2, hinit])
    · intro code hcode
      simp only [Outcome.exitCode, Option.some.injEq] at hcode
      subst hcode
      by_cases hok : SetupOk magic env
      · have := S.1 hok; simp at this
      · by_cases hc : SetupInChild env
        · have := (S.2.1 hc).2; simp at this
        · have := S.2.2.1 hok hc
          exact ⟨by simpa using this.2.1, this.2.2⟩
  | child s1 =>
    rw [h1] at S
    simp only [Outcome.state, Outcome.returnedValue, Outcome.exitCode] at S
    refine ⟨rfl, ?_, ?_⟩
    · simp only [Outcome.state]
      exact filter_isWaitpid_of_isAfterSetup _ (by rw [S.2.2.2, hinit])
    · intro code hcode
      simp [Outcome.exitCode] at hcode

/-- Claim C16 fails as stated.  In the run `demo_env` whose main channel
refuses the TERMINATE request, `main` reaches the call of `_terminate_child`,
that call returns -1, and `waitpid` is called on the child all the same. -/
theorem main_waits_counterexample :
    (main_before_terminate 65536 16 0x1234 (demo_env (fun _ => channel_ok) channel_down)).map
        (fun p => (_terminate_child (fun _ => channel_ok) channel_down p.2).1) = some (-1) ∧
    HostEvent.waitpid 100 ∈
      (main 65536 16 0x1234 (demo_env (fun _ => channel_ok) channel_down)).state.log := by
  decide

/-- The loop of `_terminate_child` only appends to the log, and what it
appends contains no `waitpid` call. -/
theorem terminate_threads_log (reply : Nat → Exchange) (g : globals_t) (n i : Nat)
    (log : List HostEvent) :
    ∃ tev, (_terminate_child_threads reply g n i log).2 = log ++ tev ∧
      ∀ p, HostEvent.waitpid p ∉ tev := by
  induction n generalizing i log with
  | zero => exact ⟨[], by simp [_terminate_child_threads], by simp⟩
  | succ n ih =>
    by_cases hok : (reply i).ok
    · rw [terminate_threads_step_ok reply g n i log hok]
      obtain ⟨tev, h1, h2⟩ := ih (i + 1)
        (log ++ terminate_ok_events (g.threads i).sock (g.threads i).child_sock)
      refine ⟨terminate_ok_events (g.threads i).sock (g.threads i).child_sock ++ tev, ?_, ?_⟩
      · rw [h1, List.append_assoc]
      · intro p hp
        rcases List.mem_append.1 hp with hp | hp
        · simp [terminate_ok_events] at hp
        · exact h2 p hp
    · rw [terminate_threads_step_fail reply g n i log hok]
      refine ⟨terminate_failed_events (g.threads i).sock (reply i), rfl, ?_⟩
      intro p hp
      unfold terminate_failed_events at hp
      split at hp <;> simp at hp

/-- `_terminate_child` only appends to the log, and what it appends contains
no `waitpid` call. -/
theorem terminate_child_log (reply : Nat → Exchange) (main_reply : Exchange)
    (s : HostState) :
    ∃ tev, (_terminate_child reply main_reply s).2.log = s.log ++ tev ∧
      ∀ p, HostEvent.waitpid p ∉ tev := by
  obtain ⟨tev, h1, h2⟩ :=
    terminate_threads_log reply s.globals s.globals.num_threads 0 s.log
  unfold _terminate_child
  simp only [h1]
  repeat' split
  · exact ⟨tev, rfl, h2⟩
  all_goals
    refine ⟨_, by simp only [List.append_assoc]; rfl, ?_⟩
    intro p hp
    simp only [List.mem_append, List.mem_singleton, reduceCtorEq, or_false] at hp
    exact h2 p hp

/-- When `main` reaches the call of `_terminate_child`, it has made no
`waitpid` call so far. -/
theorem main_before_terminate_no_waitpid (HOST_HEAP_SIZE MAX_THREADS magic : Nat)
    (env : MainEnv) (pid : Int) (st : HostState)
    (h : main_before_terminate HOST_HEAP_SIZE MAX_THREADS magic env = some (pid, st)) :
    ∀ p, HostEvent.waitpid p ∉ st.log := by
  have hinit : host_init.log.filter HostEvent.isAfterSetup = [] := by simp [host_init]
  unfold main_before_terminate at h
  cases h1 : main_setup HOST_HEAP_SIZE magic env host_init with
  | returned pid1 s1 =>
    rw [h1] at h
    simp only [] at h
    have hs := main_setup_returned HOST_HEAP_SIZE magic env host_init s1 pid1 h1
    have hw : s1.log.filter HostEvent.isWaitpid = [] :=
      filter_isWaitpid_of_isAfterSetup _ (by rw [hs.2.2, hinit])
    have K := main_threads_kind MAX_THREADS env s1
    cases h2 : main_threads MAX_THREADS env s1 with
    | returned r2 s2 =>
      rw [h2] at h K
      simp only [Option.some.injEq, Prod.mk.injEq] at h
      obtain ⟨_, rfl⟩ := h
      simp only [Outcome.state] at K
      intro p hp
      have := not_mem_of_filter_eq_nil _ _ (by rw [K.1, hw]) _ hp
      simp [HostEvent.isWaitpid] at this
    | exited c s2 => rw [h2] at h; simp at h
    | child s2 => rw [h2] at h; simp at h
  | exited c s1 => rw [h1] at h; simp at h
  | child s1 => rw [h1] at h; simp at h

/-- Claim C16, amended.  In `main`, `_get_child_exit_status` is called only
after `_terminate_child` has returned.  On a run that reaches the call of
`_terminate_child`: no `waitpid` call has been made before that call; the
events of `_terminate_child` follow, with no `waitpid` call among them; then
come the `waitpid` calls of `_get_child_exit_status`, right after the events
of `_terminate_child` and whatever that call returned, because `main`
continues without looking at the value; nothing after them is a `waitpid`
call.  On a run that does not reach the call of `_terminate_child`, no
`waitpid` call is made. -/
theorem main_waits_after_terminate (HOST_HEAP_SIZE MAX_THREADS magic : Nat) (env : MainEnv) :
    (∀ pid st, main_before_terminate HOST_HEAP_SIZE MAX_THREADS magic env = some (pid, st) →
      main HOST_HEAP_SIZE MAX_THREADS magic env =
        main_finish env pid (_terminate_child env.reply env.main_reply st).2 ∧
      (∀ p, HostEvent.waitpid p ∉ st.log) ∧
      (∃ tev, (_terminate_child env.reply env.main_reply st).2.log = st.log ++ tev ∧
        (∀ p, HostEvent.waitpid p ∉ tev) ∧
        ∃ rest, (main HOST_HEAP_SIZE MAX_THREADS magic env).state.log =
          st.log ++ tev ++ List.replicate (env.wait.eintr + 1) (HostEvent.waitpid pid) ++ rest ∧
          ∀ p, HostEvent.waitpid p ∉ rest)) ∧
    (main_before_terminate HOST_HEAP_SIZE MAX_THREADS magic env = none →
      ∀ pid, HostEvent.waitpid pid ∉ (main HOST_HEAP_SIZE MAX_THREADS magic env).state.log) := by
  constructor
  · intro pid st h
    have hm := (main_of_before_terminate HOST_HEAP_SIZE MAX_THREADS magic env pid st h).1
    have hbefore := main_before_terminate_no_waitpid HOST_HEAP_SIZE MAX_THREADS magic env pid st h
    obtain ⟨tev, ht1, ht2⟩ := terminate_child_log env.reply env.main_reply st
    refine ⟨hm, hbefore, tev, ht1, ht2, ?_⟩
    rw [hm]
    have F := main_finish_spec env pid (_terminate_child env.reply env.main_reply st).2
    by_cases hw : env.wait.ret = pid
    · rw [F.1 hw]
      refine ⟨[HostEvent.print_exit_status (WEXITSTATUS env.wait.status), HostEvent.close 0,
        HostEvent.close 1, HostEvent.close 2], ?_, ?_⟩
      · simp only [Outcome.state]
        rw [ht1]
      · intro p hp
        simp at hp
    · rw [F.2 hw]
      refine ⟨[HostEvent.err "failed to get child exit status"], ?_, ?_⟩
      · simp only [Outcome.state]
        rw [ht1]
      · intro p hp
        simp at hp
  · intro h pid hmem
    have hf := (main_of_not_before_terminate HOST_HEAP_SIZE MAX_THREADS magic env h).2.1
    have := not_mem_of_filter_eq_nil _ _ hf _ hmem
    simp [HostEvent.isWaitpid] at this

/-- The amended claim C16 on the run `demo_env` whose main channel refuses the
TERMINATE request: the state in which `main` calls `_terminate_child` has no
`waitpid` call in its log, the call returns -1, and the one `waitpid` call of
the run comes after the TERMINATE request on the main channel; and on a run
started with one argument, which never calls `waitpid`. -/
theorem main_waits_after_terminate_witness :
    (∃ pid st,
      main_before_terminate 65536 16 0x1234 (demo_env (fun _ => channel_ok) channel_down) =
        some (pid, st) ∧
      (∀ p, HostEvent.waitpid p ∉ st.log) ∧
      ∃ tev, (_terminate_child (demo_env (fun _ => channel_ok) channel_down).reply
          (demo_env (fun _ => channel_ok) channel_down).main_reply st).2.log = st.log ++ tev ∧
        (∀ p, HostEvent.waitpid p ∉ tev) ∧
        ∃ rest, (main 65536 16 0x1234
            (demo_env (fun _ => channel_ok) channel_down)).state.log =
          st.log ++ tev ++
            List.replicate ((demo_env (fun _ => channel_ok) channel_down).wait.eintr + 1)
              (HostEvent.waitpid pid) ++ rest ∧
          ∀ p, HostEvent.waitpid p ∉ rest) ∧
    (main_before_terminate 65536 16 0x1234 (demo_env (fun _ => channel_ok) channel_down)).map
        (fun p => (_terminate_child (fun _ => channel_ok) channel_down p.2).1) = some (-1) ∧
    (main 65536 16 0x1234 (demo_env (fun _ => channel_ok) channel_down)).state.log.filter
        (fun e => e.isWaitpid || decide (e = HostEvent.send_msg 3
          ve_msg_type_t.VE_MSG_TERMINATE [])) =
      [HostEvent.send_msg 3 ve_msg_type_t.VE_MSG_TERMINATE [], HostEvent.waitpid 100] ∧
    main_before_terminate 65536 16 0x1234 demo_env_no_args = none ∧
    HostEvent.waitpid 100 ∉ (main 65536 16 0x1234 demo_env_no_args).state.log :=
  ⟨(Option.isSome_iff_exists.1
      (show (main_before_terminate 65536 16 0x1234
        (demo_env (fun _ => channel_ok) channel_down)).isSome = true by decide)).elim
      (fun p hp => ⟨p.1, p.2, hp,
        ((main_waits_after_terminate 65536 16 0x1234
          (demo_env (fun _ => channel_ok) channel_down)).1 p.1 p.2 hp).2⟩),
    by decide, by decide, Option.not_isSome_iff_eq_none.1 (by decide),
    (main_waits_after_terminate 65536 16 0x1234 demo_env_no_args).2
      (Option.not_isSome_iff_eq_none.1 (by decide)) 100⟩

/-- On every run on which `_exec` succeeds, the descriptor it leaves in
`globals.child_sock` has been closed by its own `done:` block. -/
theorem exec_leaves_closed_child_sock (magic : Nat) (env : ExecEnv) (s : HostState)
    (a b r w : Nat) (hp : env.path_ok = true) (hs : env.socketpair = some (a, b))
    (hpi : env.pipe = some (r, w)) (hf : 0 < env.fork_ret)
    (hi : env.init_ex.ok ∧ env.child SHM_SENTINEL = magic) :
    (_exec magic env s).returnedValue = some env.fork_ret ∧
    (_exec magic env s).state.globals.child_sock = b ∧
    HostEvent.close b ∈ (_exec magic env s).state.log := by
  have hf1 : ¬ env.fork_ret < 0 := by omega
  have hf0 : env.fork_ret ≠ 0 := by omega
  have hfm : env.fork_ret ≠ -1 := by omega
  have hb : (b : Int) ≠ -1 := by omega
  have hglob : ∀ (ex : Exchange) (child : Nat → Nat) (fd sock : Int) (t : HostState),
      (_init_child magic ex child fd sock t).2.globals = t.globals := by
    intro ex child fd sock t
    unfold _init_child
    simp only []
    repeat' split
    all_goals rfl
  simp [_exec, hp, hs, hpi, hf1, hf0, hi, init_child_ret_eq, Outcome.returnedValue,
    Outcome.state, hglob, _exec_done, hfm, hb]

/-- Claim C21, evaluated on a run in which everything works
(`lowest_fd_env`).  When the setup is over, `globals.child_sock` holds
descriptor 4, which `_exec` has already closed; no close has hit a closed
descriptor yet.  `_terminate_child` then runs to completion and `main` returns
0, and over the whole run one `close` call is made on a descriptor that is not
open: the second close of `globals.child_sock`. -/
theorem main_closes_child_sock_twice :
    (main_setup 65536 0x1234 lowest_fd_env host_init).state.globals.child_sock = 4 ∧
    HostEvent.close 4 ∈ (main_setup 65536 0x1234 lowest_fd_env host_init).state.log ∧
    stale_closes [0, 1, 2] (main_setup 65536 0x1234 lowest_fd_env host_init).state.log = [] ∧
    (main_before_terminate 65536 16 0x1234 lowest_fd_env).map
        (fun p => (_terminate_child lowest_fd_env.reply lowest_fd_env.main_reply p.2).1) =
      some 0 ∧
    (main 65536 16 0x1234 lowest_fd_env).returnedValue = some 0 ∧
    stale_closes [0, 1, 2] (main 65536 16 0x1234 lowest_fd_env).state.log = [4] := by
  decide

/-! ## Signal numbers -/

/-- Claim C22, evaluated at `signum = -1`, which is not an index of the
tables.  Whatever the constants and the state, `oe_sigaction` returns 0 with
`oe_errno` untouched after reading and writing `_actions[-1]`; `oe_signal`
writes `_actions[-1]`; `oe_posix_signal_notify_ecall` returns 0 after reading
`_actions[-1]`.  None of them fails with `EINVAL`. -/
theorem signal_negative_signum_unchecked (K : SignalConsts) (s : SignalState)
    (act : struct_oe_sigaction) (handler : Nat) :
    ¬ (0 ≤ (-1 : Int)) ∧
    ((oe_sigaction K (-1) (some act) true s).1 = 0 ∧
     (oe_sigaction K (-1) (some act) true s).2.2.oe_errno = s.oe_errno ∧
     (oe_sigaction K (-1) (some act) true s).2.2.log =
       s.log ++ [SignalEvent.read_actions (-1), SignalEvent.write_actions (-1)]) ∧
    ((oe_signal K (-1) handler s).2.oe_errno = s.oe_errno ∧
     (oe_signal K (-1) handler s).2.log = s.log ++ [SignalEvent.write_actions (-1)]) ∧
    ((oe_posix_signal_notify_ecall K (-1) s).1 = 0 ∧
     (oe_posix_signal_notify_ecall K (-1) s).2.oe_errno = s.oe_errno ∧
     SignalEvent.read_actions (-1) ∈ (oe_posix_signal_notify_ecall K (-1) s).2.log) := by
  have hK : ¬ ((-1 : Int) ≥ (K.NSIG : Int)) := by omega
  refine ⟨by decide, ?_, ?_, ?_⟩
  · simp [oe_sigaction, hK]
  · simp [oe_signal, hK]
  · unfold oe_posix_signal_notify_ecall
    simp only [hK, if_false]
    repeat' split
    all_goals simp

/-- Claim C23, evaluated.  `oe_signal` returns `OE_SIG_ERR` on every call,
whatever the constants, the state, the signal number and the handler.  With
the constants of Linux at program start, `oe_signal(1, h)` with `h = 7`
installs `h` (a following `oe_sigaction(1, NULL, &old)` returns 0 and yields
it) and leaves `oe_errno` at 0, the handler installed before was `SIG_DFL`,
and the value returned is `OE_SIG_ERR` all the same. -/
theorem oe_signal_returns_sig_err (K : SignalConsts) (s : SignalState) (signum : Int)
    (handler : Nat) :
    (oe_signal K signum handler s).1 = K.OE_SIG_ERR ∧
    ((signal_init._actions 1).handler = demo_signal_consts.OE_SIG_DFL ∧
     (signal_init._actions 1).handler ≠ demo_signal_consts.OE_SIG_ERR ∧
     (oe_signal demo_signal_consts 1 7 signal_init).2.oe_errno = 0 ∧
     (oe_sigaction demo_signal_consts 1 none true
        (oe_signal demo_signal_consts 1 7 signal_init).2).1 = 0 ∧
     (oe_sigaction demo_signal_consts 1 none true
        (oe_signal demo_signal_consts 1 7 signal_init).2).2.1 =
       some { handler := 7, sa_flags := 0 } ∧
     (oe_signal demo_signal_consts 1 7 signal_init).1 = demo_signal_consts.OE_SIG_ERR) := by
  constructor
  · unfold oe_signal
    simp only []
    split <;> rfl
  · decide

/-! ## `oe_getpeername` -/

/-- Claim C24, evaluated.  For a device that provides both operations,
`getsockname = f` and `getpeername = g`, `oe_getpeername` returns what `f`
returns and the one operation it calls is `getsockname`; `g` is never called.
On `demo_device` it returns 0 where the device's `getpeername` returns -1.
For a device that provides `getpeername` but not `getsockname`, the call goes
through a null function pointer. -/
theorem oe_getpeername_calls_getsockname (EINVAL : Int) (device : Nat) (f g : SocketOp)
    (sockfd : Int) (addr addrlen : Nat) (s : SocketState) :
    ((oe_getpeername EINVAL
        (fun _ => some { addr := device, socket := { getsockname := some f,
                                                     getpeername := some g } })
        sockfd addr addrlen s).1 = some (f device addr addrlen) ∧
     (oe_getpeername EINVAL
        (fun _ => some { addr := device, socket := { getsockname := some f,
                                                     getpeername := some g } })
        sockfd addr addrlen s).2.log =
       s.log ++ [SocketCall.getsockname device addr addrlen]) ∧
    ((oe_getpeername 22 (fun _ => some demo_device) 3 100 200
        { oe_errno := 0, log := [] }).1 = some 0 ∧
     demo_device.socket.getpeername.map (fun op => op 512 100 200) = some (-1) ∧
     (oe_getpeername 22 (fun _ => some demo_device) 3 100 200
        { oe_errno := 0, log := [] }).2.log = [SocketCall.getsockname 512 100 200]) ∧
    (oe_getpeername EINVAL
        (fun _ => some { addr := device, socket := { getsockname := none,
                                                     getpeername := some g } })
        sockfd addr addrlen s).1 = none := by
  refine ⟨⟨?_, ?_⟩, by decide, ?_⟩
  · simp [oe_getpeername]
  · simp [oe_getpeername]
  · simp [oe_getpeername]

end OpenEnclave
